import Mathlib

/-!
Kinematic actor movement solver.

Shallow embedding of `apps/openmw/mwphysics/movementsolver.cpp`
(`isActor`, `isWalkableSlope`, `MovementSolver::traceDown`, `MovementSolver::move`).

Modelling conventions:

* C++ `float` values are idealised as exact rationals (`ℚ`): no rounding, no NaN, no
  infinities.  Literals such as `0.01f`, `0.0001`, `1E-9f` are the rationals they denote.
* The collision backend (`ActorTracer::doTrace`, `ActorTracer::findGround`,
  `btCollisionWorld::rayTest`, `Stepper::step`) is a record of functions
  (`CollisionWorld`): the world is `const` during a tick, so a query is a function of its
  arguments.  Nothing is assumed about what these functions return.
* Library mathematics that has no rational counterpart (`std::cos`, `std::acos`, the
  square root inside `length`, the `osg::Quat` rotations) is a record of functions
  (`Externals`), again with nothing assumed.
* Tuning constants that live in headers outside this file (`constants.hpp`, game settings)
  are fields of `Config`.
* Every query sent to the backend is appended to a log, so that statements about which
  queries are issued can be made.  The log and the counters `bodyRuns` / `broke` of the
  loop state are instrumentation: no branch of the embedded code reads them.
-/

namespace MWPhysics

/-! ## Vectors -/

/-- Three-component vector, standing for `osg::Vec3f` and `btVector3`. -/
structure Vec3 where
  x : ℚ
  y : ℚ
  z : ℚ
deriving DecidableEq, Repr

/-- Component-wise sum, `operator+`. -/
def Vec3.add (a b : Vec3) : Vec3 := ⟨a.x + b.x, a.y + b.y, a.z + b.z⟩

/-- Component-wise difference, `operator-`. -/
def Vec3.sub (a b : Vec3) : Vec3 := ⟨a.x - b.x, a.y - b.y, a.z - b.z⟩

/-- Multiplication by a scalar, `operator*(float)`. -/
def Vec3.scale (a : Vec3) (s : ℚ) : Vec3 := ⟨a.x * s, a.y * s, a.z * s⟩

/-- Division by a scalar, `operator/(float)`. -/
def Vec3.divide (a : Vec3) (s : ℚ) : Vec3 := ⟨a.x / s, a.y / s, a.z / s⟩

/-- Dot product: in osg, `operator*` between two vectors. -/
def Vec3.dot (a b : Vec3) : ℚ := a.x * b.x + a.y * b.y + a.z * b.z

/-- Squared length, `length2()`. -/
def Vec3.length2 (a : Vec3) : ℚ := a.x * a.x + a.y * a.y + a.z * a.z

/-- Quaternion, standing for `osg::Quat`. -/
structure Quat where
  x : ℚ
  y : ℚ
  z : ℚ
  w : ℚ
deriving DecidableEq, Repr

/-- Library functions used by the solver that are not rational functions. -/
structure Externals where
  /-- The function `std::cos`. -/
  cos : ℚ → ℚ
  /-- The function `std::acos`. -/
  acos : ℚ → ℚ
  /-- The square root used by `osg::Vec3f::length`. -/
  sqrt : ℚ → ℚ
  /-- The function `osg::DegreesToRadians`. -/
  degreesToRadians : ℚ → ℚ
  /-- The function `osg::RadiansToDegrees`. -/
  radiansToDegrees : ℚ → ℚ
  /-- The constructor `osg::Quat(angle, axis)`. -/
  makeQuat : ℚ → Vec3 → Quat
  /-- Product of two quaternions. -/
  quatMul : Quat → Quat → Quat
  /-- Rotation of a vector by a quaternion, `Quat * Vec3f`. -/
  quatRotate : Quat → Vec3 → Vec3

/-- Length of a vector, `length()`. -/
def Vec3.length (ext : Externals) (a : Vec3) : ℚ := ext.sqrt a.length2

/-- In-place normalisation `normalize()` of osg: scales by the inverse norm when the norm
is positive, and leaves the vector alone otherwise. -/
def Vec3.normalize (ext : Externals) (a : Vec3) : Vec3 :=
  let norm := a.length ext
  if norm > 0 then a.scale (1 / norm) else a

/-! ## Constants, collision objects, backend -/

/-- Tuning constants read by the solver: `sMaxSlope`, `sStepSizeUp`, `sStepSizeDown`,
`sGroundOffset`, `sMaxIterations` (constants.hpp), the game settings `fSwimHeightScale`
and `fStromWalkMult`, and `Constants::GravityConst`, `Constants::UnitsPerMeter`. -/
structure Config where
  sMaxSlope : ℚ
  sStepSizeUp : ℚ
  sStepSizeDown : ℚ
  sGroundOffset : ℚ
  sMaxIterations : Nat
  fSwimHeightScale : ℚ
  fStromWalkMult : ℚ
  GravityConst : ℚ
  UnitsPerMeter : ℚ

/-- Modelled from the spec: the collision categories of `collisiontype.hpp`, a header that
is not part of the sources at hand.  The spec lists "Collision category filter enum:
World, HeightMap, Actor, Water". -/
inductive CollisionType where
  | World
  | HeightMap
  | Actor
  | Water
deriving DecidableEq, Repr

/-- Handle of a game entity, standing for `MWWorld::Ptr`. -/
abbrev Ptr := Nat

/-- What the solver reads of a `btCollisionObject`: the filter group of its broadphase
handle, its user pointer (a `PtrHolder`, possibly null) and the bounding box returned by
`getCollisionShape()->getAabb(getWorldTransform(), ...)`. -/
structure CollisionObject where
  collisionFilterGroup : CollisionType
  userPointer : Option Ptr
  aabbMin : Vec3
  aabbMax : Vec3
deriving DecidableEq, Repr

/-- Fields of `ActorTracer` after a cast.  `mHitObject` is only read by the solver under
the guard `mFraction < 1`, where the tracer has set it. -/
structure ActorTracer where
  mEndPos : Vec3
  mPlaneNormal : Vec3
  mHitPoint : Vec3
  mHitObject : CollisionObject
  mFraction : ℚ
deriving DecidableEq, Repr

/-- Fields read of `btCollisionWorld::ClosestRayResultCallback` after `rayTest`. -/
structure RayResult where
  hasHit : Bool
  m_hitPointWorld : Vec3
  m_hitNormalWorld : Vec3
deriving DecidableEq, Repr

/-- Outcome of `Stepper::step(position, toMove, remainingTime)`: the returned flag and the
values left in the two reference arguments `position` and `remainingTime`. -/
structure StepResult where
  result : Bool
  position : Vec3
  remainingTime : ℚ
deriving DecidableEq, Repr

/-- The collision backend as seen from the solver during one tick. -/
structure CollisionWorld where
  /-- The cast `ActorTracer::doTrace(colobj, start, end, collisionWorld)`. -/
  doTrace : Vec3 → Vec3 → ActorTracer
  /-- The cast `ActorTracer::findGround(actor, start, end, collisionWorld)`. -/
  findGround : Vec3 → Vec3 → ActorTracer
  /-- The ray cast `rayTest(from, to, callback)` restricted to world and height map. -/
  rayTest : Vec3 → Vec3 → RayResult
  /-- The call `Stepper::step(position, toMove, remainingTime)`. -/
  step : Vec3 → Vec3 → ℚ → StepResult

/-- A query sent to the backend. -/
inductive Query where
  | doTrace (start target : Vec3)
  | findGround (start target : Vec3)
  | rayTest (start target : Vec3)
  | step (position toMove : Vec3) (remainingTime : ℚ)
deriving DecidableEq, Repr

/-- Whether a query is a `doTrace` shape cast. -/
def Query.isDoTrace : Query → Bool
  | .doTrace _ _ => true
  | _ => false

/-- Whether a query is a call of `Stepper::step`. -/
def Query.isStep : Query → Bool
  | .step _ _ _ => true
  | _ => false

/-! ## Actor data -/

/-- The physics actor (`MWPhysics::Actor`) together with the two class queries made on its
owning entity (`isMobile`, `isPureWaterCreature`). -/
structure Actor where
  isMobile : Bool
  isPureWaterCreature : Bool
  collisionMode : Bool
  halfExtents : Vec3
  renderingHalfExtents : Vec3
  collisionObjectPosition : Vec3
  inertialForce : Vec3
  onGround : Bool
  onSlope : Bool
  walkingOnWater : Bool
deriving DecidableEq, Repr

/-- Position record `ESM::Position`: `pos[3]` and `rot[3]`. -/
structure Position where
  pos : Vec3
  rot0 : ℚ
  rot1 : ℚ
  rot2 : ℚ
deriving DecidableEq, Repr

/-- Per-actor, per-tick data `ActorFrameData`; `mActorRaw` is the physics actor it points
to, which `move` mutates through the pointer. -/
structure ActorFrameData where
  mActorRaw : Actor
  mRefpos : Position
  mPosition : Vec3
  mMovement : Vec3
  mWaterlevel : ℚ
  mSlowFall : ℚ
  mFlying : Bool
  mWantJump : Bool
  mDidJump : Bool
  mFloatToSurface : Bool
  mStandingOn : Ptr
deriving DecidableEq, Repr

/-- Shared per-tick data `WorldFrameData`. -/
structure WorldFrameData where
  mIsInStorm : Bool
  mStormDirection : Vec3
deriving DecidableEq, Repr

/-! ## Helpers of the solver -/

/-- The function `isActor` (lines 26-30). -/
def isActor (obj : CollisionObject) : Bool :=
  decide (obj.collisionFilterGroup = CollisionType.Actor)

/-- The function `isWalkableSlope` (lines 32-37); `sMaxSlopeCos` is
`std::cos(osg::DegreesToRadians(sMaxSlope))`. -/
def isWalkableSlope (cfg : Config) (ext : Externals) (normal : Vec3) : Bool :=
  let sMaxSlopeCos := ext.cos (ext.degreesToRadians cfg.sMaxSlope)
  decide (normal.z > sMaxSlopeCos)

/-- Modelled from the spec: `project` of `movementsolver.hpp`, a header that is not part
of the sources at hand; the component of `u` along `v`, used by `slide` to "project the
remaining velocity onto the contact plane". -/
def project (u v : Vec3) : Vec3 := v.scale (u.dot v)

/-- Modelled from the spec: `slide` of `movementsolver.hpp`, a header that is not part of
the sources at hand.  The spec describes it as "projecting the remaining velocity onto the
contact plane" and, with the normal pointing down, as "projecting out the downward
component": the direction minus its component along the plane normal. -/
def slide (direction planeNormal : Vec3) : Vec3 :=
  direction.sub (project direction planeNormal)

/-! ## The ground probe `MovementSolver::traceDown` -/

/-- What `traceDown` produces: the returned position, the physics actor after the calls
of `setOnGround` / `setOnSlope`, and the queries issued. -/
structure TraceDownResult where
  position : Vec3
  actor : Actor
  log : List Query
deriving DecidableEq, Repr

/-- The function `MovementSolver::traceDown` (lines 39-75).  `ptrPosition` is
`ptr.getRefData().getPosition().asVec3()`. -/
def traceDown (cfg : Config) (ext : Externals) (w : CollisionWorld) (ptrPosition : Vec3)
    (position : Vec3) (actor : Actor) (maxHeight : ℚ) : TraceDownResult :=
  let offset := actor.collisionObjectPosition.sub ptrPosition
  let start := position.add offset
  let target := (position.add offset).sub ⟨0, 0, maxHeight⟩
  let tracer := w.findGround start target
  if tracer.mFraction ≥ 1 then
    { position := position
      actor := { actor with onGround := false }
      log := [Query.findGround start target] }
  else
    let rayStart := position
    let rayEnd := rayStart.sub ⟨0, 0, maxHeight⟩
    let resultCallback1 := w.rayTest rayStart rayEnd
    let log2 := [Query.findGround start target, Query.rayTest rayStart rayEnd]
    if resultCallback1.hasHit = true ∧
        ((((resultCallback1.m_hitPointWorld.sub tracer.mEndPos).add offset).length2 > 35 * 35)
          ∨ isWalkableSlope cfg ext tracer.mPlaneNormal = false) then
      { position := resultCallback1.m_hitPointWorld.add ⟨0, 0, cfg.sGroundOffset⟩
        actor := { actor with
          onGround := true
          onSlope := !isWalkableSlope cfg ext resultCallback1.m_hitNormalWorld }
        log := log2 }
    else
      { position := (tracer.mEndPos.sub offset).add ⟨0, 0, cfg.sGroundOffset⟩
        actor := { actor with
          onGround := true
          onSlope := !isWalkableSlope cfg ext tracer.mPlaneNormal }
        log := log2 }

/-! ## `MovementSolver::move`, part by part -/

/-- Line 91: `physicActor->setWalkingOnWater(false)`. -/
def resetFrame (actor : ActorFrameData) : ActorFrameData :=
  { actor with mActorRaw := { actor.mActorRaw with walkingOnWater := false } }

/-- The rotation by pitch and yaw,
`osg::Quat(refpos.rot[0], (-1,0,0)) * osg::Quat(refpos.rot[2], (0,0,-1))`. -/
def pitchYaw (ext : Externals) (refpos : Position) : Quat :=
  ext.quatMul (ext.makeQuat refpos.rot0 ⟨-1, 0, 0⟩) (ext.makeQuat refpos.rot2 ⟨0, 0, -1⟩)

/-- The rotation by yaw only, `osg::Quat(refpos.rot[2], (0,0,-1))`. -/
def yawOnly (ext : Externals) (refpos : Position) : Quat :=
  ext.makeQuat refpos.rot2 ⟨0, 0, -1⟩

/-- Lines 93-99, the branch taken when collision is disabled:
`actor.mPosition += (pitch * yaw) * actor.mMovement * time`. -/
def moveNoCollision (ext : Externals) (actor : ActorFrameData) (time : ℚ) : ActorFrameData :=
  { actor with
    mPosition :=
      actor.mPosition.add ((ext.quatRotate (pitchYaw ext actor.mRefpos) actor.mMovement).scale time) }

/-- Line 108: `actor.mPosition.z() += halfExtents.z()`. -/
def toCentre (actor : ActorFrameData) : ActorFrameData :=
  { actor with
    mPosition := { actor.mPosition with z := actor.mPosition.z + actor.mActorRaw.halfExtents.z } }

/-- Line 111: the swim level. -/
def swimLevel (cfg : Config) (actor : ActorFrameData) : ℚ :=
  actor.mWaterlevel + actor.mActorRaw.halfExtents.z
    - (actor.mActorRaw.renderingHalfExtents.z * 2 * cfg.fSwimHeightScale)

/-- Velocity and inertia, the two locals set by lines 115-131. -/
structure Motion where
  velocity : Vec3
  inertia : Vec3
deriving DecidableEq, Repr

/-- Lines 115-131, regime selection.  `actor.mPosition` is the volume centre here (line 108
has run). -/
def selectRegime (ext : Externals) (actor : ActorFrameData) (swimlevel : ℚ) : Motion :=
  let physicActor := actor.mActorRaw
  let inertia := physicActor.inertialForce
  if actor.mPosition.z < swimlevel ∨ actor.mFlying = true then
    { velocity := ext.quatRotate (pitchYaw ext actor.mRefpos) actor.mMovement
      inertia := inertia }
  else
    let velocity := ext.quatRotate (yawOnly ext actor.mRefpos) actor.mMovement
    if (velocity.z > 0 ∧ physicActor.onGround = true ∧ physicActor.onSlope = false)
        ∨ (velocity.z > 0 ∧ velocity.z + inertia.z ≤ -velocity.z ∧ physicActor.onSlope = true) then
      { velocity := velocity, inertia := velocity }
    else if physicActor.onGround = false ∨ physicActor.onSlope = true then
      { velocity := velocity.add inertia, inertia := inertia }
    else
      { velocity := velocity, inertia := inertia }

/-- Lines 133-136, forced surfacing. -/
def floatToSurface (actor : ActorFrameData) (swimlevel : ℚ) (velocity : Vec3) : Vec3 :=
  if actor.mMovement.z > 0 ∧ actor.mFloatToSurface = true ∧ actor.mPosition.z < swimlevel then
    (Vec3.mk 0 0 1).scale 25
  else velocity

/-- Lines 138-139, the jump latch. -/
def latchJump (actor : ActorFrameData) : ActorFrameData :=
  if actor.mWantJump = true then { actor with mDidJump := true } else actor

/-- Lines 142-148, wind. -/
def applyStorm (cfg : Config) (ext : Externals) (worldData : WorldFrameData)
    (velocity : Vec3) : Vec3 :=
  if worldData.mIsInStorm = true then
    let stormDirection := worldData.mStormDirection
    let angleDegrees := ext.radiansToDegrees
      (ext.acos (stormDirection.dot velocity / (stormDirection.length ext * velocity.length ext)))
    velocity.scale (1 - (cfg.fStromWalkMult * (angleDegrees / 180)))
  else velocity

/-- Velocity and inertia on reaching line 150; `actor` is the frame data after line 108. -/
def startMotion (cfg : Config) (ext : Externals) (actor : ActorFrameData)
    (worldData : WorldFrameData) : Motion :=
  let swimlevel := swimLevel cfg actor
  let m := selectRegime ext actor swimlevel
  { velocity := applyStorm cfg ext worldData (floatToSurface actor swimlevel m.velocity)
    inertia := m.inertia }

/-! ### The slide-and-collide loop (lines 150-238) -/

/-- Locals of the loop: `iterations`, `newPosition`, `velocity`, `remainingTime`, plus the
instrumentation: the queries issued so far, the number of times the body was entered, and
whether the loop was left through a `break`. -/
structure LoopState where
  iterations : Nat
  newPosition : Vec3
  velocity : Vec3
  remainingTime : ℚ
  log : List Query
  bodyRuns : Nat
  broke : Bool
deriving DecidableEq, Repr

/-- How control leaves the loop body: to the increment `++iterations` (end of body or
`continue`), or out of the loop (`break`). -/
inductive Flow where
  | next
  | exit
deriving DecidableEq, Repr

/-- Lines 151-158: the state in which the loop is entered. -/
def loopStart (actor : ActorFrameData) (velocity : Vec3) (time : ℚ) : LoopState :=
  { iterations := 0
    newPosition := actor.mPosition
    velocity := velocity
    remainingTime := time
    log := []
    bodyRuns := 0
    broke := false }

/-- Line 161: the candidate `nextpos = newPosition + velocity * remainingTime`. -/
def nextpos (s : LoopState) : Vec3 := s.newPosition.add (s.velocity.scale s.remainingTime)

/-- Line 164: the test of the swim-boundary redirect. -/
def swimRedirect (actor : ActorFrameData) (swimlevel : ℚ) (s : LoopState) : Prop :=
  actor.mFlying = false ∧ (nextpos s).z > swimlevel ∧ s.newPosition.z < swimlevel

instance (actor : ActorFrameData) (swimlevel : ℚ) (s : LoopState) :
    Decidable (swimRedirect actor swimlevel s) := by
  unfold swimRedirect; exact inferInstance

/-- Lines 197-202: back off from the hit point when the cast made no progress. -/
def backOff (tracer : ActorTracer) (newPosition : Vec3) : Vec3 :=
  if tracer.mFraction < 1 / 1000000000 then
    newPosition.add ((newPosition.sub tracer.mHitPoint).scale (1 / 100))
  else newPosition

/-- Lines 205 and 208: whether `stepper.step` is called, that is whether
`hitHeight < sStepSizeUp && !isActor(tracer.mHitObject)`. -/
def stepAttempted (cfg : Config) (actor : ActorFrameData) (tracer : ActorTracer) : Bool :=
  let hitHeight := tracer.mHitPoint.z - tracer.mEndPos.z + actor.mActorRaw.halfExtents.z
  decide (hitHeight < cfg.sStepSizeUp ∧ isActor tracer.mHitObject = false)

/-- Lines 207-213: `result`, `newPosition` and `remainingTime` after the step attempt, if
there is one; `result` stays `false` and the other two stay as they were if there is
none. -/
def stepOutcome (cfg : Config) (w : CollisionWorld) (actor : ActorFrameData)
    (tracer : ActorTracer) (position velocity : Vec3) (remainingTime : ℚ) : StepResult :=
  if stepAttempted cfg actor tracer = true then
    w.step position (velocity.scale remainingTime) remainingTime
  else { result := false, position := position, remainingTime := remainingTime }

/-- The log after lines 207-213. -/
def stepLog (cfg : Config) (actor : ActorFrameData) (tracer : ActorTracer)
    (position velocity : Vec3) (remainingTime : ℚ) (log : List Query) : List Query :=
  if stepAttempted cfg actor tracer = true then
    log ++ [Query.step position (velocity.scale remainingTime) remainingTime]
  else log

/-- Lines 224-229: the slide velocity `newVelocity`, clamped not to point upward unless
the actor is below swim level or flying. -/
def slideVelocity (actor : ActorFrameData) (swimlevel : ℚ) (tracer : ActorTracer)
    (velocity newPosition : Vec3) : Vec3 :=
  let newVelocity := slide velocity tracer.mPlaneNormal
  if ¬ (newPosition.z < swimlevel ∨ actor.mFlying = true) then
    { newVelocity with z := min newVelocity.z 0 }
  else newVelocity

/-- Lines 196-237: the rest of the body once the cast `tracer` has reported an
obstruction (`mFraction < 1`); `s` already holds the cast in its log. -/
def afterHit (cfg : Config) (w : CollisionWorld) (actor : ActorFrameData) (swimlevel : ℚ)
    (origVelocity : Vec3) (tracer : ActorTracer) (s : LoopState) : Flow × LoopState :=
  let halfExtents := actor.mActorRaw.halfExtents
  let oldPosition := backOff tracer s.newPosition
  let stepped := stepOutcome cfg w actor tracer oldPosition s.velocity s.remainingTime
  let log1 := stepLog cfg actor tracer oldPosition s.velocity s.remainingTime s.log
  if stepped.result = true then
    -- lines 216-219
    let position2 :=
      if actor.mActorRaw.isPureWaterCreature = true
          ∧ stepped.position.z + halfExtents.z > actor.mWaterlevel then oldPosition
      else stepped.position
    (Flow.next,
      { s with newPosition := position2, remainingTime := stepped.remainingTime, log := log1 })
  else
    -- lines 223-236
    let s1 : LoopState :=
      { s with newPosition := stepped.position, remainingTime := stepped.remainingTime, log := log1 }
    let newVelocity := slideVelocity actor swimlevel tracer s.velocity s1.newPosition
    if (newVelocity.sub s.velocity).length2 < 1 / 100 then
      (Flow.exit, { s1 with broke := true })
    else if newVelocity.dot origVelocity ≤ 0 then
      (Flow.exit, { s1 with broke := true })
    else
      (Flow.next, { s1 with velocity := newVelocity })

/-- Lines 161-237: one run of the loop body from state `s`. -/
def loopBody (cfg : Config) (w : CollisionWorld) (actor : ActorFrameData) (swimlevel : ℚ)
    (origVelocity : Vec3) (s0 : LoopState) : Flow × LoopState :=
  let s := { s0 with bodyRuns := s0.bodyRuns + 1 }
  if swimRedirect actor swimlevel s0 then
    -- lines 166-169
    (Flow.next, { s with velocity := slide s.velocity ⟨0, 0, -1⟩ })
  else if (s.newPosition.sub (nextpos s0)).length2 > 1 / 10000 then
    -- line 175
    let tracer := w.doTrace s.newPosition (nextpos s0)
    let s1 := { s with log := s.log ++ [Query.doTrace s.newPosition (nextpos s0)] }
    if tracer.mFraction ≥ 1 then
      (Flow.exit, { s1 with newPosition := tracer.mEndPos, broke := true })
    else
      afterHit cfg w actor swimlevel origVelocity tracer s1
  else
    -- line 193
    (Flow.exit, { s with broke := true })

/-- The loop condition of line 159. -/
def loopGuard (cfg : Config) (s : LoopState) : Prop :=
  s.iterations < cfg.sMaxIterations ∧ s.remainingTime > 1 / 100

instance (cfg : Config) (s : LoopState) : Decidable (loopGuard cfg s) := by
  unfold loopGuard; exact inferInstance

/-- The loop of lines 159-238, run for at most `fuel` passes of the body.  With `fuel`
at least `sMaxIterations - iterations` the fuel is never what stops it
(`slideLoop_fuel`). -/
def slideLoop (cfg : Config) (w : CollisionWorld) (actor : ActorFrameData) (swimlevel : ℚ)
    (origVelocity : Vec3) : Nat → LoopState → LoopState
  | 0, s => s
  | fuel + 1, s =>
    if loopGuard cfg s then
      match loopBody cfg w actor swimlevel origVelocity s with
      | (Flow.exit, s1) => s1
      | (Flow.next, s1) =>
        slideLoop cfg w actor swimlevel origVelocity fuel { s1 with iterations := s1.iterations + 1 }
    else s

/-- The frame data in the state the loop reads it: after lines 91, 108 and 138-139. -/
def centred (actor : ActorFrameData) : ActorFrameData :=
  latchJump (toCentre (resetFrame actor))

/-- The loop state on leaving the loop, for a mobile actor with collision enabled. -/
def loopExit (cfg : Config) (ext : Externals) (w : CollisionWorld) (actor : ActorFrameData)
    (time : ℚ) (worldData : WorldFrameData) : LoopState :=
  let a := centred actor
  let m := startMotion cfg ext (toCentre (resetFrame actor)) worldData
  slideLoop cfg w a (swimLevel cfg a) m.velocity cfg.sMaxIterations (loopStart a m.velocity time)

/-! ### Ground resolution, gravity and commit (lines 240-302) -/

/-- Locals after the ground resolution of lines 240-283. -/
structure GroundState where
  actor : ActorFrameData
  newPosition : Vec3
  inertia : Vec3
  isOnGround : Bool
  isOnSlope : Bool
  log : List Query
deriving DecidableEq, Repr

/-- Line 245: the end point of the downward probe. -/
def probeTarget (cfg : Config) (actor : ActorFrameData) (newPosition : Vec3) : Vec3 :=
  newPosition.sub
    (if actor.mActorRaw.onGround = true then ⟨0, 0, cfg.sStepSizeDown + 2 * cfg.sGroundOffset⟩
     else ⟨0, 0, 2 * cfg.sGroundOffset⟩)

/-- Line 242: whether the downward probe is made, `!(inertia.z() > 0.f) &&
!(newPosition.z() < swimlevel)`. -/
def probeIssued (swimlevel : ℚ) (inertia newPosition : Vec3) : Prop :=
  ¬ (inertia.z > 0) ∧ ¬ (newPosition.z < swimlevel)

instance (swimlevel : ℚ) (inertia newPosition : Vec3) :
    Decidable (probeIssued swimlevel inertia newPosition) := by
  unfold probeIssued; exact inferInstance

/-- Lines 244-246: the downward probe, a `doTrace` from `newPosition` to `probeTarget`. -/
def groundProbe (cfg : Config) (w : CollisionWorld) (actor : ActorFrameData)
    (newPosition : Vec3) : ActorTracer :=
  w.doTrace newPosition (probeTarget cfg actor newPosition)

/-- Line 247: the probe hit something that is not an actor,
`tracer.mFraction < 1.0f && !isActor(tracer.mHitObject)`. -/
def hitsGround (tracer : ActorTracer) : Prop :=
  tracer.mFraction < 1 ∧ isActor tracer.mHitObject = false

instance (tracer : ActorTracer) : Decidable (hitsGround tracer) := by
  unfold hitsGround; exact inferInstance

/-- Lines 268-279: the inertia after the push away from an actor found underneath. -/
def pushAway (ext : Externals) (actor : ActorFrameData) (tracer : ActorTracer)
    (velocity inertia : Vec3) : Vec3 :=
  if tracer.mFraction < 1 ∧ isActor tracer.mHitObject = true then
    if (Vec3.mk velocity.x velocity.y 0).length2 < 100 * 100 then
      let center := (tracer.mHitObject.aabbMin.add tracer.mHitObject.aabbMax).divide 2
      ((Vec3.mk (actor.mPosition.x - center.x) (actor.mPosition.y - center.y) 0).normalize
        ext).scale 100
    else inertia
  else inertia

/-- Lines 249-261: the branch taken when the probe hit something that is not an actor. -/
def landOn (cfg : Config) (ext : Externals) (actor : ActorFrameData) (tracer : ActorTracer)
    (inertia newPosition : Vec3) (log : List Query) : GroundState :=
  let standingOn := tracer.mHitObject
  let actor1 : ActorFrameData :=
    match standingOn.userPointer with
    | some ptr => { actor with mStandingOn := ptr }
    | none => actor
  let actor2 : ActorFrameData :=
    if standingOn.collisionFilterGroup = CollisionType.Water then
      { actor1 with mActorRaw := { actor1.mActorRaw with walkingOnWater := true } }
    else actor1
  let position1 : Vec3 :=
    if actor.mFlying = false then { newPosition with z := tracer.mEndPos.z + cfg.sGroundOffset }
    else newPosition
  { actor := actor2
    newPosition := position1
    inertia := inertia
    isOnGround := true
    isOnSlope := !isWalkableSlope cfg ext tracer.mPlaneNormal
    log := log }

/-- Lines 240-283.  `actor` is the frame data as the loop read it, `inertia` and `velocity`
the locals of line 115 and 116 in their state after the loop. -/
def resolveGround (cfg : Config) (ext : Externals) (w : CollisionWorld) (actor : ActorFrameData)
    (swimlevel : ℚ) (inertia velocity newPosition : Vec3) (log : List Query) : GroundState :=
  if probeIssued swimlevel inertia newPosition then
    let tracer := groundProbe cfg w actor newPosition
    let log1 := log ++ [Query.doTrace newPosition (probeTarget cfg actor newPosition)]
    if hitsGround tracer then
      landOn cfg ext actor tracer inertia newPosition log1
    else
      { actor := actor
        newPosition := newPosition
        inertia := pushAway ext actor tracer velocity inertia
        isOnGround := false
        isOnSlope := false
        log := log1 }
  else
    { actor := actor
      newPosition := newPosition
      inertia := inertia
      isOnGround := false
      isOnSlope := false
      log := log }

/-- Lines 285-297: the value passed to `setInertialForce`. -/
def integrateGravity (cfg : Config) (actor : ActorFrameData) (time swimlevel : ℚ)
    (g : GroundState) : Vec3 :=
  if (g.isOnGround = true ∧ g.isOnSlope = false) ∨ g.newPosition.z < swimlevel
      ∨ actor.mFlying = true then
    ⟨0, 0, 0⟩
  else
    let z1 := g.inertia.z - time * cfg.GravityConst * cfg.UnitsPerMeter
    let z2 := if z1 < 0 then z1 * actor.mSlowFall else z1
    if actor.mSlowFall < 1 then
      ⟨g.inertia.x * actor.mSlowFall, g.inertia.y * actor.mSlowFall, z2⟩
    else
      ⟨g.inertia.x, g.inertia.y, z2⟩

/-- Lines 285-302: gravity integration and commit onto the physics actor and the frame
data. -/
def commit (cfg : Config) (actor : ActorFrameData) (time swimlevel : ℚ) (g : GroundState) :
    ActorFrameData :=
  let halfExtents := actor.mActorRaw.halfExtents
  { g.actor with
    mActorRaw := { g.actor.mActorRaw with
      inertialForce := integrateGravity cfg actor time swimlevel g
      onGround := g.isOnGround
      onSlope := g.isOnSlope }
    mPosition := { g.newPosition with z := g.newPosition.z - halfExtents.z } }

/-- What a call of `move` produces: the frame data (with the physics actor it points to)
after the call, and the queries sent to the backend, in order. -/
structure MoveResult where
  actor : ActorFrameData
  log : List Query
deriving DecidableEq, Repr

/-- The ground state reached by `move` for a mobile actor with collision enabled. -/
def groundState (cfg : Config) (ext : Externals) (w : CollisionWorld) (actor : ActorFrameData)
    (time : ℚ) (worldData : WorldFrameData) : GroundState :=
  let a := centred actor
  let m := startMotion cfg ext (toCentre (resetFrame actor)) worldData
  let s := loopExit cfg ext w actor time worldData
  resolveGround cfg ext w a (swimLevel cfg a) m.inertia s.velocity s.newPosition s.log

/-- The function `MovementSolver::move` (lines 77-303). -/
def move (cfg : Config) (ext : Externals) (w : CollisionWorld) (actor : ActorFrameData)
    (time : ℚ) (worldData : WorldFrameData) : MoveResult :=
  if actor.mActorRaw.isMobile = false then
    { actor := actor, log := [] }
  else if actor.mActorRaw.collisionMode = false then
    { actor := moveNoCollision ext (resetFrame actor) time, log := [] }
  else
    let a := centred actor
    let g := groundState cfg ext w actor time worldData
    { actor := commit cfg a time (swimLevel cfg a) g, log := g.log }

/-- The frame data after `n` consecutive calls of `move` with the same tick length, each
call starting from what the previous one left. -/
def moveTicks (cfg : Config) (ext : Externals) (w : CollisionWorld) (time : ℚ)
    (worldData : WorldFrameData) : Nat → ActorFrameData → ActorFrameData
  | 0, actor => actor
  | n + 1, actor =>
    (move cfg ext w (moveTicks cfg ext w time worldData n actor) time worldData).actor

/-- The free-fall scenario, on one tick that starts from `actor`: a mobile actor with
collision enabled that is not flying, has `slowFall == 1`, was neither on the ground nor on
a slope, has no horizontal movement input, is not below swim level once the loop has moved
it, and whose ground probe, if made, is unobstructed (finds no surface and no actor). -/
def FreeFall (cfg : Config) (ext : Externals) (w : CollisionWorld) (time : ℚ)
    (worldData : WorldFrameData) (actor : ActorFrameData) : Prop :=
  actor.mActorRaw.isMobile = true ∧ actor.mActorRaw.collisionMode = true
    ∧ actor.mFlying = false ∧ actor.mSlowFall = 1
    ∧ actor.mActorRaw.onGround = false ∧ actor.mActorRaw.onSlope = false
    ∧ actor.mMovement.x = 0 ∧ actor.mMovement.y = 0
    ∧ ¬ ((loopExit cfg ext w actor time worldData).newPosition.z < swimLevel cfg actor)
    ∧ (probeIssued (swimLevel cfg actor) actor.mActorRaw.inertialForce
          (loopExit cfg ext w actor time worldData).newPosition →
        (groundProbe cfg w (centred actor)
          (loopExit cfg ext w actor time worldData).newPosition).mFraction ≥ 1)

/-- Number of `doTrace` shape casts in a log of queries. -/
def castCount (log : List Query) : Nat := log.countP Query.isDoTrace

/-! ## Concrete scenarios

Inputs at which the statements below are evaluated. -/

/-- A configuration with the values the game ships with (slope limit of 49 degrees, eight
solver iterations, gravity of 8.96 m/s² at 69.99125109 units per metre). -/
def sampleConfig : Config :=
  { sMaxSlope := 49, sStepSizeUp := 34, sStepSizeDown := 62, sGroundOffset := 1,
    sMaxIterations := 8, fSwimHeightScale := 9 / 10, fStromWalkMult := 1 / 4,
    GravityConst := 224 / 25, UnitsPerMeter := 6999125109 / 100000000 }

/-- Cross product, `operator^` of osg; used by `sampleMath` only. -/
def Vec3.cross (a b : Vec3) : Vec3 :=
  ⟨a.y * b.z - a.z * b.y, a.z * b.x - a.x * b.z, a.x * b.y - a.y * b.x⟩

/-- A stand-in for the library functions.  Quaternion product and rotation are the
formulas of osg; `makeQuat` knows two angles, zero (the identity) and the angle whose half
has sine 3/5 and cosine 4/5; the cosine is that of 49 degrees to four digits.  The
scenarios never reach `acos` and `sqrt`. -/
def sampleMath : Externals :=
  { cos := fun _ => 6561 / 10000
    acos := fun _ => 0
    sqrt := fun x => x
    degreesToRadians := fun d => d * 355 / (113 * 180)
    radiansToDegrees := fun r => r * (113 * 180) / 355
    makeQuat := fun angle axis =>
      if angle = 0 then ⟨0, 0, 0, 1⟩
      else ⟨axis.x * (3 / 5), axis.y * (3 / 5), axis.z * (3 / 5), 4 / 5⟩
    quatMul := fun a b =>
      ⟨b.w * a.x + b.x * a.w + b.y * a.z - b.z * a.y,
       b.w * a.y - b.x * a.z + b.y * a.w + b.z * a.x,
       b.w * a.z + b.x * a.y - b.y * a.x + b.z * a.w,
       b.w * a.w - b.x * a.x - b.y * a.y - b.z * a.z⟩
    quatRotate := fun q v =>
      let qvec : Vec3 := ⟨q.x, q.y, q.z⟩
      let uv := qvec.cross v
      let uuv := qvec.cross uv
      (v.add (uv.scale (2 * q.w))).add (uuv.scale 2) }

/-- A piece of static world geometry. -/
def worldObject : CollisionObject :=
  { collisionFilterGroup := CollisionType.World, userPointer := some 7,
    aabbMin := ⟨-1000, -1000, -10⟩, aabbMax := ⟨1000, 1000, 0⟩ }

/-- A backend with nothing in the way: every cast travels the whole way to its target and
the stepper never succeeds. -/
def openWorld : CollisionWorld :=
  { doTrace := fun _ target =>
      { mEndPos := target, mPlaneNormal := ⟨0, 0, 1⟩, mHitPoint := target,
        mHitObject := worldObject, mFraction := 1 }
    findGround := fun _ target =>
      { mEndPos := target, mPlaneNormal := ⟨0, 0, 1⟩, mHitPoint := target,
        mHitObject := worldObject, mFraction := 1 }
    rayTest := fun _ _ =>
      { hasHit := false, m_hitPointWorld := ⟨0, 0, 0⟩, m_hitNormalWorld := ⟨0, 0, 1⟩ }
    step := fun position _ remainingTime =>
      { result := false, position := position, remainingTime := remainingTime } }

/-- A backend with a floor: every cast stops one and a half units straight below its
start, on static geometry with an upward normal. -/
def floorWorld : CollisionWorld :=
  { openWorld with
    doTrace := fun start _ =>
      { mEndPos := ⟨start.x, start.y, start.z - 3 / 2⟩, mPlaneNormal := ⟨0, 0, 1⟩,
        mHitPoint := ⟨start.x, start.y, start.z - 3 / 2 - 60⟩,
        mHitObject := worldObject, mFraction := 3 / 4 } }

/-- No storm. -/
def calm : WorldFrameData := { mIsInStorm := false, mStormDirection := ⟨0, 0, 0⟩ }

/-- A physics actor: mobile, colliding, airborne, at rest. -/
def sampleBody : Actor :=
  { isMobile := true, isPureWaterCreature := false, collisionMode := true,
    halfExtents := ⟨30, 30, 60⟩, renderingHalfExtents := ⟨30, 30, 60⟩,
    collisionObjectPosition := ⟨0, 0, 160⟩, inertialForce := ⟨0, 0, 0⟩,
    onGround := false, onSlope := false, walkingOnWater := false }

/-- An airborne actor far above any water, walking forward. -/
def faller : ActorFrameData :=
  { mActorRaw := sampleBody
    mRefpos := { pos := ⟨0, 0, 100⟩, rot0 := 0, rot1 := 0, rot2 := 0 }
    mPosition := ⟨0, 0, 100⟩, mMovement := ⟨0, 1, 0⟩, mWaterlevel := -1000000, mSlowFall := 1
    mFlying := false, mWantJump := false, mDidJump := false, mFloatToSurface := false,
    mStandingOn := 0 }

/-- The same actor with the owning entity reporting that it cannot move. -/
def statue : ActorFrameData :=
  { faller with mActorRaw := { sampleBody with isMobile := false } }

/-- A loop state one unit below a swim level of zero, heading straight up at ten units
per second with one second left. -/
def surfacing : LoopState :=
  { iterations := 0, newPosition := ⟨0, 0, -1⟩, velocity := ⟨3, 4, 10⟩, remainingTime := 1,
    log := [], bodyRuns := 0, broke := false }

/-- An actor in water: the water level is 200, which puts the swim level at 152; its
anchor is at height 91, so its volume centre is at 151, one unit below swim level.  It is
pitched (by the angle `makeQuat` of `sampleMath` knows) and walks forward. -/
def swimmer : ActorFrameData :=
  { faller with
    mRefpos := { pos := ⟨0, 0, 91⟩, rot0 := 1287 / 1000, rot1 := 0, rot2 := 0 }
    mPosition := ⟨0, 0, 91⟩
    mWaterlevel := 200 }

/-- A stand-in for the library functions in which the pitch-and-yaw rotation sends every
vector to `(c,0,0)` and the yaw-only rotation sends every vector to zero. -/
def splitMath (c : ℚ) : Externals :=
  { sampleMath with
    makeQuat := fun _ _ => ⟨0, 0, 0, 0⟩
    quatMul := fun _ _ => ⟨1, 0, 0, 0⟩
    quatRotate := fun q _ => if q.x = 1 then ⟨c, 0, 0⟩ else ⟨0, 0, 0⟩ }

/-- An airborne actor at rest with no movement input. -/
def dropper : ActorFrameData := { faller with mMovement := ⟨0, 0, 0⟩ }

/-- The actor `dropper` after one tick of a tenth of a second in `openWorld`: it has not
moved yet and has picked up a downward inertia of a tenth of the gravity in world units. -/
def dropper1 : ActorFrameData :=
  { dropper with
    mActorRaw := { sampleBody with
      inertialForce := ⟨0, 0, -(1 / 10 * (224 / 25) * (6999125109 / 100000000))⟩ } }

/-- The same actor with collision disabled. -/
def drifter : ActorFrameData :=
  { faller with mActorRaw := { sampleBody with collisionMode := false } }

/-- A backend for `traceDown`: the shape cast stops ten units below its start after a
tenth of the way, on a flat surface; the thin ray goes on to fifty units below its start. -/
def spawnWorld : CollisionWorld :=
  { openWorld with
    findGround := fun start _ =>
      { mEndPos := ⟨start.x, start.y, start.z - 10⟩, mPlaneNormal := ⟨0, 0, 1⟩,
        mHitPoint := ⟨start.x, start.y, start.z - 70⟩, mHitObject := worldObject,
        mFraction := 1 / 10 }
    rayTest := fun start _ =>
      { hasHit := true, m_hitPointWorld := ⟨start.x, start.y, start.z - 50⟩,
        m_hitNormalWorld := ⟨0, 0, 1⟩ } }

/-- The actor `swimmer`, dead or paralysed: the character controller has set
`floatToSurface`, and the movement input has no vertical component. -/
def floater : ActorFrameData := { swimmer with mFloatToSurface := true }

/-- The actor `floater` with a movement input that points up as well as forward. -/
def floaterUp : ActorFrameData := { floater with mMovement := ⟨0, 1, 1⟩ }

/-- The downward probe as `move` makes it (lines 244-246): a `doTrace` from the position
the loop resolved, for the actor as the loop read it. -/
def finalProbe (cfg : Config) (ext : Externals) (w : CollisionWorld) (actor : ActorFrameData)
    (time : ℚ) (worldData : WorldFrameData) : ActorTracer :=
  groundProbe cfg w (centred actor) (loopExit cfg ext w actor time worldData).newPosition

/-- The test of line 242 as `move` evaluates it: on the inertia left by regime selection
and the position the loop resolved. -/
def finalProbeIssued (cfg : Config) (ext : Externals) (w : CollisionWorld)
    (actor : ActorFrameData) (time : ℚ) (worldData : WorldFrameData) : Prop :=
  probeIssued (swimLevel cfg actor)
    (startMotion cfg ext (toCentre (resetFrame actor)) worldData).inertia
    (loopExit cfg ext w actor time worldData).newPosition

/-- The actor `faller`, able to fly. -/
def flyer : ActorFrameData := { faller with mFlying := true }

/-- A log of queries starts with a `doTrace` from the point `p`. -/
def HeadAt (p : Vec3) (log : List Query) : Prop :=
  ∃ target rest, log = Query.doTrace p target :: rest

/-- Either nothing has been asked yet and the position is still `p`, or the first thing
asked was a `doTrace` from `p`. -/
def FirstCastFrom (p newPosition : Vec3) (log : List Query) : Prop :=
  (log = [] ∧ newPosition = p) ∨ HeadAt p log

/-- A backend with a low ledge in the way: every cast stops half way, against static
geometry whose hit point lies fifty units below the volume centre, and the stepper carries
the actor ten units up and half of the requested move forward, using half the time. -/
def ledgeWorld : CollisionWorld :=
  { openWorld with
    doTrace := fun start target =>
      { mEndPos := ⟨(start.x + target.x) / 2, (start.y + target.y) / 2, start.z⟩,
        mPlaneNormal := ⟨0, -1, 0⟩,
        mHitPoint := ⟨(start.x + target.x) / 2, (start.y + target.y) / 2 + 30, start.z - 50⟩,
        mHitObject := worldObject, mFraction := 1 / 2 }
    step := fun position toMove remainingTime =>
      { result := true
        position := ⟨position.x + toMove.x / 2, position.y + toMove.y / 2, position.z + 10⟩
        remainingTime := remainingTime / 2 } }

/-- A loop state of an actor walking forward at one unit per second, with one second
left. -/
def walking : LoopState :=
  { iterations := 0, newPosition := ⟨0, 0, 160⟩, velocity := ⟨0, 1, 0⟩, remainingTime := 1,
    log := [], bodyRuns := 0, broke := false }

/-- Line 275 before normalisation: the horizontal offset of the actor's position (the
centre position the tick started from) from the centre of the bounding box of the object
the probe hit. -/
def pushOffset (actor : ActorFrameData) (tracer : ActorTracer) : Vec3 :=
  let center := (tracer.mHitObject.aabbMin.add tracer.mHitObject.aabbMax).divide 2
  Vec3.mk (actor.mPosition.x - center.x) (actor.mPosition.y - center.y) 0

/-- Another actor, whose bounding box is centred at `(0, 0, 60)`. -/
def actorBelow : CollisionObject :=
  { collisionFilterGroup := CollisionType.Actor, userPointer := some 9,
    aabbMin := ⟨-30, -30, 0⟩, aabbMax := ⟨30, 30, 120⟩ }

/-- Another actor, whose bounding box is centred at `(-1, 0, 60)`. -/
def actorAside : CollisionObject :=
  { collisionFilterGroup := CollisionType.Actor, userPointer := some 9,
    aabbMin := ⟨-31, -30, 0⟩, aabbMax := ⟨29, 30, 120⟩ }

/-- A backend in which every cast stops one unit below its start, half way, on the
object `blocker`. -/
def crowdWorld (blocker : CollisionObject) : CollisionWorld :=
  { openWorld with
    doTrace := fun start _ =>
      { mEndPos := ⟨start.x, start.y, start.z - 1⟩, mPlaneNormal := ⟨0, 0, 1⟩,
        mHitPoint := ⟨start.x, start.y, start.z - 61⟩, mHitObject := blocker,
        mFraction := 1 / 2 } }

/-- A creature that lives in water only, with the water surface at height 100. -/
def fish : ActorFrameData :=
  { faller with
    mActorRaw := { sampleBody with isPureWaterCreature := true }
    mWaterlevel := 100 }

/-- A backend with a wall across the y direction: every cast stops half way against static
geometry, hit at the height of the volume centre, with the normal `(0, -1, 0)`. -/
def wallWorld : CollisionWorld :=
  { openWorld with
    doTrace := fun start target =>
      { mEndPos := ⟨(start.x + target.x) / 2, (start.y + target.y) / 2, start.z⟩,
        mPlaneNormal := ⟨0, -1, 0⟩,
        mHitPoint := ⟨(start.x + target.x) / 2, (start.y + target.y) / 2 + 30, start.z⟩,
        mHitObject := worldObject, mFraction := 1 / 2 } }

/-- A loop state of an actor walking diagonally, with one second left. -/
def strolling : LoopState :=
  { iterations := 0, newPosition := ⟨0, 0, 160⟩, velocity := ⟨1, 1, 0⟩, remainingTime := 1,
    log := [], bodyRuns := 0, broke := false }

/-- An airborne actor under a feather-fall effect (`slowFall` one half), drifting sideways
and sinking, with no movement input. -/
def feather : ActorFrameData :=
  { dropper with
    mSlowFall := 1 / 2
    mActorRaw := { sampleBody with inertialForce := ⟨4, 0, -10⟩ } }

end MWPhysics

/-! ## Records of the ESM format: `cellref.cpp`, `loadappa.cpp`, `loadrepa.cpp`

The reader and the writer (`esmreader.hpp`, `esmwriter.hpp`) and the headers of the record
types are not part of the sources at hand.  A record is taken as the sequence of its
subrecords, each a name with a payload of bytes; the reader is the sequence of subrecords
still to be read, the writer the sequence of subrecords it has been handed.  How a value is
laid out in a payload, and everything else those files decide, is a parameter (`Codec`). -/

namespace ESM

/-- Payload of a subrecord. -/
abbrev Bytes := List Nat

/-- A subrecord: its four-character name and its payload. -/
structure SubRecord where
  name : String
  data : Bytes
deriving DecidableEq, Repr

/-- Reference number `RefNum`: the members compared by `operator==` and `operator<`
(`mIndex` unsigned, `mContentFile` signed). -/
structure RefNum where
  mIndex : Nat
  mContentFile : Int
deriving DecidableEq, Repr

/-- Data of an apparatus, the members `blank` names (`mData` of `Apparatus`). -/
structure AADTstruct where
  mType : Int
  mQuality : ℚ
  mWeight : ℚ
  mValue : Int
deriving DecidableEq, Repr

/-- Data of a repair item, the members `blank` names (`mData` of `Repair`). -/
structure RIDTstruct where
  mWeight : ℚ
  mValue : Int
  mUses : Int
  mQuality : ℚ
deriving DecidableEq, Repr

/-- What `esmreader.hpp`, `esmwriter.hpp` and `cellref.hpp` decide, none of them among the
sources at hand: how values are laid out in a payload (`put...`) and read back (`get...`,
which may fail with the reader's message), when the writers of optional strings write
anything, the message of the reader when the next subrecord does not carry the expected
name, `RefNum::hasContentFile`, and the default of the `tag` argument of `RefNum::save`. -/
structure Codec where
  putRefNum : RefNum → Bytes
  getRefNum : Bytes → Except String RefNum
  putInt : Int → Bytes
  getInt : Bytes → Except String Int
  getIndex : Bytes → Except String Nat
  putFloat : ℚ → Bytes
  getFloat : Bytes → Except String ℚ
  putChar : Int → Bytes
  getChar : Bytes → Except String Int
  putPosition : MWPhysics.Position → Bytes
  getPosition : Bytes → Except String MWPhysics.Position
  putAADT : AADTstruct → Bytes
  getAADT : Bytes → Except String AADTstruct
  putRIDT : RIDTstruct → Bytes
  getRIDT : Bytes → Except String RIDTstruct
  putCString : String → Bytes
  putString : String → Bytes
  getString : Bytes → String
  writesOptional : String → Bool
  mismatch : String → String
  hasContentFile : RefNum → Bool
  defaultTag : String

/-! ### The reader and the writer, as the record code uses them -/

/-- Reader `isNextSub`: whether the next subrecord carries the name. -/
def isNextSub (esm : List SubRecord) (name : String) : Bool :=
  match esm with
  | [] => false
  | sub :: _ => decide (sub.name = name)

/-- Reader `skipHSub`: the next subrecord is passed over. -/
def skipHSub (esm : List SubRecord) : List SubRecord := esm.tail

/-- Reader `getHNT`: the next subrecord must carry the name; its payload is read as a
value. -/
def getHNT {α : Type} (c : Codec) (get : Bytes → Except String α) (esm : List SubRecord)
    (name : String) : Except String (α × List SubRecord) :=
  match esm with
  | [] => Except.error (c.mismatch name)
  | sub :: rest =>
    if sub.name = name then
      match get sub.data with
      | Except.error e => Except.error e
      | Except.ok x => Except.ok (x, rest)
    else Except.error (c.mismatch name)

/-- Reader `getHNString`: the next subrecord must carry the name; its payload is read as a
string. -/
def getHNString (c : Codec) (esm : List SubRecord) (name : String) :
    Except String (String × List SubRecord) :=
  match esm with
  | [] => Except.error (c.mismatch name)
  | sub :: rest =>
    if sub.name = name then Except.ok (c.getString sub.data, rest)
    else Except.error (c.mismatch name)

/-- Writer `writeHNT`: one subrecord with the payload of the value. -/
def writeHNT (name : String) (data : Bytes) : List SubRecord := [⟨name, data⟩]

/-- Writer `writeHNCString`: one subrecord holding the string, terminated. -/
def writeHNCString (c : Codec) (name : String) (data : String) : List SubRecord :=
  [⟨name, c.putCString data⟩]

/-- Writer `writeHNOCString`: as `writeHNCString`, for a string the writer may leave
out. -/
def writeHNOCString (c : Codec) (name : String) (data : String) : List SubRecord :=
  if c.writesOptional data = true then writeHNCString c name data else []

/-- Writer `writeHNOString`: one subrecord holding the string, not terminated, for a
string the writer may leave out. -/
def writeHNOString (c : Codec) (name : String) (data : String) : List SubRecord :=
  if c.writesOptional data = true then [⟨name, c.putString data⟩] else []

/-! ### `RefNum` -/

/-- Comparison `operator==` of two reference numbers (lines 231-234). -/
def RefNum.operatorEq (left right : RefNum) : Bool :=
  decide (left.mIndex = right.mIndex) && decide (left.mContentFile = right.mContentFile)

/-- Comparison `operator<` of two reference numbers (lines 236-245). -/
def RefNum.operatorLt (left right : RefNum) : Bool :=
  if left.mIndex < right.mIndex then true
  else if left.mIndex > right.mIndex then false
  else decide (left.mContentFile < right.mContentFile)

/-- Conversion of a bit pattern of 32 bits to `int`. -/
def toInt32 (x : Int) : Int := (x + 2 ^ 31) % 2 ^ 32 - 2 ^ 31

/-- Method `RefNum::load` (lines 18-24): the wide form reads the whole reference number,
the narrow form reads `mIndex` alone. -/
def RefNum.load (c : Codec) (self : RefNum) (esm : List SubRecord) (wide : Bool) :
    Except String (RefNum × List SubRecord) :=
  if wide = true then getHNT c c.getRefNum esm "FRMR"
  else
    match getHNT c c.getIndex esm "FRMR" with
    | Except.error e => Except.error e
    | Except.ok (index, rest) => Except.ok ({ self with mIndex := index }, rest)

/-- Method `RefNum::save` (lines 26-36): the wide form writes the whole reference number,
the narrow form packs the low 24 bits of `mIndex` under the content file (or `0xff`). -/
def RefNum.save (c : Codec) (self : RefNum) (wide : Bool) (tag : String) : List SubRecord :=
  if wide = true then writeHNT tag (c.putRefNum self)
  else
    let refNum := toInt32 (((self.mIndex % 2 ^ 24 : Nat) : Int)
      + ((if c.hasContentFile self = true then self.mContentFile else 255) % 2 ^ 8) * 2 ^ 24)
    writeHNT tag (c.putInt refNum)

/-! ### `CellRef` -/

/-- Cell reference `CellRef`: the members `cellref.cpp` reads and writes. -/
structure CellRef where
  mRefNum : RefNum
  mRefID : String
  mScale : ℚ
  mOwner : String
  mGlobalVariable : String
  mSoul : String
  mFaction : String
  mFactionRank : Int
  mChargeInt : Int
  mEnchantmentCharge : ℚ
  mGoldValue : Int
  mTeleport : Bool
  mDoorDest : MWPhysics.Position
  mDestCell : String
  mLockLevel : Int
  mKey : String
  mTrap : String
  mReferenceBlocked : Int
  mIsDeleted : Bool
  mPos : MWPhysics.Position
deriving DecidableEq, Repr

/-- Constructor `CellRef::CellRef` (lines 6-16).  The members it does not name are the
strings, which start empty, and `mRefNum`, `mDoorDest` and `mPos`, whose initial content
the file does not decide: they are taken from `uninit`. -/
def CellRef.ctor (uninit : CellRef) : CellRef :=
  { mRefNum := uninit.mRefNum, mRefID := "", mScale := 1, mOwner := "", mGlobalVariable := "",
    mSoul := "", mFaction := "", mFactionRank := -2, mChargeInt := -1,
    mEnchantmentCharge := -1, mGoldValue := 1, mTeleport := false,
    mDoorDest := uninit.mDoorDest, mDestCell := "", mLockLevel := 0, mKey := "", mTrap := "",
    mReferenceBlocked := -1, mIsDeleted := false, mPos := uninit.mPos }

/-- Method `CellRef::loadId` (lines 45-58). -/
def CellRef.loadId (c : Codec) (self : CellRef) (esm : List SubRecord) (wideRefNum : Bool) :
    Except String (CellRef × List SubRecord) :=
  let esm1 := if isNextSub esm "NAM0" = true then skipHSub esm else esm
  match self.mRefNum.load c esm1 wideRefNum with
  | Except.error e => Except.error e
  | Except.ok (refNum, esm2) =>
    match getHNString c esm2 "NAME" with
    | Except.error e => Except.error e
    | Except.ok (refID, esm3) =>
      Except.ok ({ self with mRefNum := refNum, mRefID := refID, mIsDeleted := false }, esm3)

/-- Lines 62-70: the values `loadData` resets the reference to. -/
def CellRef.reset (self : CellRef) : CellRef :=
  { self with
    mScale := 1, mFactionRank := -2, mChargeInt := -1, mEnchantmentCharge := -1,
    mGoldValue := 1, mLockLevel := 0, mReferenceBlocked := -1, mTeleport := false,
    mIsDeleted := false }

/-- Lines 72-140: the loop of `loadData` over the subrecords left in the record
(`hasMoreSubs` is the sequence not being empty).  A subrecord with a name the `switch` does
not list stays unread (`cacheSubName`) and ends the loop. -/
def CellRef.loadSubs (c : Codec) : List SubRecord → CellRef →
    Except String (CellRef × List SubRecord)
  | [], self => Except.ok (self, [])
  | sub :: esm, self =>
    if sub.name = "UNAM" then
      match c.getChar sub.data with
      | Except.error e => Except.error e
      | Except.ok v => CellRef.loadSubs c esm { self with mReferenceBlocked := v }
    else if sub.name = "XSCL" then
      match c.getFloat sub.data with
      | Except.error e => Except.error e
      | Except.ok v => CellRef.loadSubs c esm { self with mScale := v }
    else if sub.name = "ANAM" then
      CellRef.loadSubs c esm { self with mOwner := c.getString sub.data }
    else if sub.name = "BNAM" then
      CellRef.loadSubs c esm { self with mGlobalVariable := c.getString sub.data }
    else if sub.name = "XSOL" then
      CellRef.loadSubs c esm { self with mSoul := c.getString sub.data }
    else if sub.name = "CNAM" then
      CellRef.loadSubs c esm { self with mFaction := c.getString sub.data }
    else if sub.name = "INDX" then
      match c.getInt sub.data with
      | Except.error e => Except.error e
      | Except.ok v => CellRef.loadSubs c esm { self with mFactionRank := v }
    else if sub.name = "XCHG" then
      match c.getFloat sub.data with
      | Except.error e => Except.error e
      | Except.ok v => CellRef.loadSubs c esm { self with mEnchantmentCharge := v }
    else if sub.name = "INTV" then
      match c.getInt sub.data with
      | Except.error e => Except.error e
      | Except.ok v => CellRef.loadSubs c esm { self with mChargeInt := v }
    else if sub.name = "NAM9" then
      match c.getInt sub.data with
      | Except.error e => Except.error e
      | Except.ok v => CellRef.loadSubs c esm { self with mGoldValue := v }
    else if sub.name = "DODT" then
      match c.getPosition sub.data with
      | Except.error e => Except.error e
      | Except.ok v => CellRef.loadSubs c esm { self with mDoorDest := v, mTeleport := true }
    else if sub.name = "DNAM" then
      CellRef.loadSubs c esm { self with mDestCell := c.getString sub.data }
    else if sub.name = "FLTV" then
      match c.getInt sub.data with
      | Except.error e => Except.error e
      | Except.ok v => CellRef.loadSubs c esm { self with mLockLevel := v }
    else if sub.name = "KNAM" then
      CellRef.loadSubs c esm { self with mKey := c.getString sub.data }
    else if sub.name = "TNAM" then
      CellRef.loadSubs c esm { self with mTrap := c.getString sub.data }
    else if sub.name = "DATA" then
      match c.getPosition sub.data with
      | Except.error e => Except.error e
      | Except.ok v => CellRef.loadSubs c esm { self with mPos := v }
    else if sub.name = "NAM0" then
      CellRef.loadSubs c esm self
    else if sub.name = "DELE" then
      CellRef.loadSubs c esm { self with mIsDeleted := true }
    else
      Except.ok (self, sub :: esm)

/-- Method `CellRef::loadData` (lines 60-141). -/
def CellRef.loadData (c : Codec) (self : CellRef) (esm : List SubRecord) :
    Except String (CellRef × List SubRecord) :=
  CellRef.loadSubs c esm self.reset

/-- Method `CellRef::load` (lines 39-43): the reference read and the subrecords left. -/
def CellRef.load (c : Codec) (self : CellRef) (esm : List SubRecord) (wideRefNum : Bool) :
    Except String (CellRef × List SubRecord) :=
  match self.loadId c esm wideRefNum with
  | Except.error e => Except.error e
  | Except.ok (self1, esm1) => self1.loadData c esm1

/-- Method `CellRef::save` (lines 143-198): the subrecords written, in order. -/
def CellRef.save (c : Codec) (self : CellRef) (wideRefNum inInventory : Bool) :
    List SubRecord :=
  self.mRefNum.save c wideRefNum c.defaultTag
    ++ writeHNCString c "NAME" self.mRefID
    ++ (if self.mScale ≠ 1 then writeHNT "XSCL" (c.putFloat self.mScale) else [])
    ++ writeHNOCString c "ANAM" self.mOwner
    ++ writeHNOCString c "BNAM" self.mGlobalVariable
    ++ writeHNOCString c "XSOL" self.mSoul
    ++ writeHNOCString c "CNAM" self.mFaction
    ++ (if self.mFactionRank ≠ -2 then writeHNT "INDX" (c.putInt self.mFactionRank) else [])
    ++ (if self.mEnchantmentCharge ≠ -1 then
          writeHNT "XCHG" (c.putFloat self.mEnchantmentCharge) else [])
    ++ (if self.mChargeInt ≠ -1 then writeHNT "INTV" (c.putInt self.mChargeInt) else [])
    ++ (if self.mGoldValue ≠ 1 then writeHNT "NAM9" (c.putInt self.mGoldValue) else [])
    ++ (if inInventory = false ∧ self.mTeleport = true then
          writeHNT "DODT" (c.putPosition self.mDoorDest)
            ++ writeHNOCString c "DNAM" self.mDestCell
        else [])
    ++ (if inInventory = false ∧ self.mLockLevel ≠ 0 then
          writeHNT "FLTV" (c.putInt self.mLockLevel) else [])
    ++ (if inInventory = false then writeHNOCString c "KNAM" self.mKey else [])
    ++ (if inInventory = false then writeHNOCString c "TNAM" self.mTrap else [])
    ++ (if self.mReferenceBlocked ≠ -1 then
          writeHNT "UNAM" (c.putChar self.mReferenceBlocked) else [])
    ++ (if inInventory = false then writeHNT "DATA" (c.putPosition self.mPos) else [])
    ++ (if self.mIsDeleted = true then writeHNCString c "DELE" "" else [])

/-- The names the `switch` of `loadData` lists. -/
def CellRef.handled : List String :=
  ["UNAM", "XSCL", "ANAM", "BNAM", "XSOL", "CNAM", "INDX", "XCHG", "INTV", "NAM9", "DODT",
    "DNAM", "FLTV", "KNAM", "TNAM", "DATA", "NAM0", "DELE"]

/-- What may follow a reference in its record for `loadData` to stop after it: nothing, or
a subrecord with a name the `switch` does not list. -/
def CellRef.EndsAt (rest : List SubRecord) : Prop :=
  ∀ sub, rest.head? = some sub → sub.name ∉ CellRef.handled

/-! ### `Apparatus` -/

/-- Record `Apparatus`: the members `loadappa.cpp` reads and writes. -/
structure Apparatus where
  mData : AADTstruct
  mId : String
  mModel : String
  mIcon : String
  mScript : String
  mName : String
  mIsDeleted : Bool
deriving DecidableEq, Repr

/-- Lines 21-55 of `loadappa.cpp`: the loop of `Apparatus::load` over the subrecords of the
record (`hasMoreSubs` is the sequence not being empty), with the locals `hasName` and
`hasData`. -/
def Apparatus.loadSubs (c : Codec) : List SubRecord → Apparatus → Bool → Bool →
    Except String (Apparatus × Bool × Bool)
  | [], self, hasName, hasData => Except.ok (self, hasName, hasData)
  | sub :: esm, self, hasName, hasData =>
    if sub.name = "NAME" then
      Apparatus.loadSubs c esm { self with mId := c.getString sub.data } true hasData
    else if sub.name = "DELE" then
      Apparatus.loadSubs c esm { self with mIsDeleted := true } hasName hasData
    else if sub.name = "MODL" then
      Apparatus.loadSubs c esm { self with mModel := c.getString sub.data } hasName hasData
    else if sub.name = "FNAM" then
      Apparatus.loadSubs c esm { self with mName := c.getString sub.data } hasName hasData
    else if sub.name = "AADT" then
      match c.getAADT sub.data with
      | Except.error e => Except.error e
      | Except.ok v => Apparatus.loadSubs c esm { self with mData := v } hasName true
    else if sub.name = "SCRI" then
      Apparatus.loadSubs c esm { self with mScript := c.getString sub.data } hasName hasData
    else if sub.name = "ITEX" then
      Apparatus.loadSubs c esm { self with mIcon := c.getString sub.data } hasName hasData
    else
      Except.error "Unknown subrecord"

/-- Method `Apparatus::load` (lines 15-61 of `loadappa.cpp`); `fail` ends the load with its
message. -/
def Apparatus.load (c : Codec) (self : Apparatus) (esm : List SubRecord) :
    Except String Apparatus :=
  match Apparatus.loadSubs c esm { self with mIsDeleted := false } false false with
  | Except.error e => Except.error e
  | Except.ok (self1, hasName, hasData) =>
    if hasName = false then Except.error "Missing NAME subrecord"
    else if hasData = false ∧ self1.mIsDeleted = false then
      Except.error "Missing AADT subrecord"
    else Except.ok self1

/-- Method `Apparatus::save` (lines 63-78 of `loadappa.cpp`): the subrecords written, in
order. -/
def Apparatus.save (c : Codec) (self : Apparatus) : List SubRecord :=
  writeHNCString c "NAME" self.mId
    ++ (if self.mIsDeleted = true then writeHNCString c "DELE" ""
        else
          writeHNCString c "MODL" self.mModel
            ++ writeHNCString c "FNAM" self.mName
            ++ writeHNT "AADT" (c.putAADT self.mData)
            ++ writeHNOCString c "SCRI" self.mScript
            ++ writeHNCString c "ITEX" self.mIcon)

/-- The names the `switch` of `Apparatus::load` lists. -/
def Apparatus.names : List String := ["NAME", "DELE", "MODL", "FNAM", "AADT", "SCRI", "ITEX"]

/-! ### `Repair` -/

/-- Record `Repair`: the members `loadrepa.cpp` reads and writes. -/
structure Repair where
  mData : RIDTstruct
  mId : String
  mModel : String
  mIcon : String
  mScript : String
  mName : String
  mIsDeleted : Bool
deriving DecidableEq, Repr

/-- Lines 21-55 of `loadrepa.cpp`: the loop of `Repair::load` over the subrecords of the
record (`hasMoreSubs` is the sequence not being empty), with the locals `hasName` and
`hasData`. -/
def Repair.loadSubs (c : Codec) : List SubRecord → Repair → Bool → Bool →
    Except String (Repair × Bool × Bool)
  | [], self, hasName, hasData => Except.ok (self, hasName, hasData)
  | sub :: esm, self, hasName, hasData =>
    if sub.name = "NAME" then
      Repair.loadSubs c esm { self with mId := c.getString sub.data } true hasData
    else if sub.name = "DELE" then
      Repair.loadSubs c esm { self with mIsDeleted := true } hasName hasData
    else if sub.name = "MODL" then
      Repair.loadSubs c esm { self with mModel := c.getString sub.data } hasName hasData
    else if sub.name = "FNAM" then
      Repair.loadSubs c esm { self with mName := c.getString sub.data } hasName hasData
    else if sub.name = "RIDT" then
      match c.getRIDT sub.data with
      | Except.error e => Except.error e
      | Except.ok v => Repair.loadSubs c esm { self with mData := v } hasName true
    else if sub.name = "SCRI" then
      Repair.loadSubs c esm { self with mScript := c.getString sub.data } hasName hasData
    else if sub.name = "ITEX" then
      Repair.loadSubs c esm { self with mIcon := c.getString sub.data } hasName hasData
    else
      Except.error "Unknown subrecord"

/-- Method `Repair::load` (lines 15-61 of `loadrepa.cpp`); `fail` ends the load with its
message. -/
def Repair.load (c : Codec) (self : Repair) (esm : List SubRecord) :
    Except String Repair :=
  match Repair.loadSubs c esm { self with mIsDeleted := false } false false with
  | Except.error e => Except.error e
  | Except.ok (self1, hasName, hasData) =>
    if hasName = false then Except.error "Missing NAME subrecord"
    else if hasData = false ∧ self1.mIsDeleted = false then
      Except.error "Missing RIDT subrecord"
    else Except.ok self1

/-- Method `Repair::save` (lines 63-79 of `loadrepa.cpp`): the subrecords written, in
order. -/
def Repair.save (c : Codec) (self : Repair) : List SubRecord :=
  writeHNCString c "NAME" self.mId
    ++ (if self.mIsDeleted = true then writeHNCString c "DELE" ""
        else
          writeHNCString c "MODL" self.mModel
            ++ writeHNOCString c "FNAM" self.mName
            ++ writeHNT "RIDT" (c.putRIDT self.mData)
            ++ writeHNOString c "SCRI" self.mScript
            ++ writeHNOCString c "ITEX" self.mIcon)

/-- The names the `switch` of `Repair::load` lists. -/
def Repair.names : List String := ["NAME", "DELE", "MODL", "FNAM", "RIDT", "SCRI", "ITEX"]

/-! ### Concrete inputs -/

/-- Layout of an integer in the examples: its sign and its magnitude. -/
def samplePutInt (x : Int) : Bytes := [if x < 0 then 1 else 0, x.natAbs]

/-- Reading an integer back; a payload of the wrong shape is refused. -/
def sampleGetInt (b : Bytes) : Except String Int :=
  match b with
  | [s, m] => Except.ok (if s = 1 then -(m : Int) else m)
  | _ => Except.error "record size mismatch"

/-- Layout of a fraction in the examples: sign, numerator, denominator. -/
def samplePutFloat (x : ℚ) : Bytes := [if x < 0 then 1 else 0, x.num.natAbs, x.den]

/-- Reading a fraction back. -/
def sampleGetFloat (b : Bytes) : Except String ℚ :=
  match b with
  | [s, n, d] => Except.ok ((if s = 1 then -(n : ℚ) else n) / d)
  | _ => Except.error "record size mismatch"

/-- Layout of a reference number in the examples. -/
def samplePutRefNum (n : RefNum) : Bytes := n.mIndex :: samplePutInt n.mContentFile

/-- Reading a reference number back. -/
def sampleGetRefNum (b : Bytes) : Except String RefNum :=
  match b with
  | [i, s, m] => Except.ok { mIndex := i, mContentFile := if s = 1 then -(m : Int) else m }
  | _ => Except.error "record size mismatch"

/-- Reading an index in the examples. -/
def sampleGetIndex (b : Bytes) : Except String Nat :=
  match b with
  | [i] => Except.ok i
  | _ => Except.error "record size mismatch"

/-- Layout of a position in the examples: the six fractions in a row. -/
def samplePutPosition (p : MWPhysics.Position) : Bytes :=
  samplePutFloat p.pos.x ++ samplePutFloat p.pos.y ++ samplePutFloat p.pos.z
    ++ samplePutFloat p.rot0 ++ samplePutFloat p.rot1 ++ samplePutFloat p.rot2

/-- Reading a position back. -/
def sampleGetPosition (b : Bytes) : Except String MWPhysics.Position :=
  match b with
  | [s0, n0, d0, s1, n1, d1, s2, n2, d2, s3, n3, d3, s4, n4, d4, s5, n5, d5] =>
    Except.ok
      { pos := ⟨(if s0 = 1 then -(n0 : ℚ) else n0) / d0, (if s1 = 1 then -(n1 : ℚ) else n1) / d1,
          (if s2 = 1 then -(n2 : ℚ) else n2) / d2⟩
        rot0 := (if s3 = 1 then -(n3 : ℚ) else n3) / d3
        rot1 := (if s4 = 1 then -(n4 : ℚ) else n4) / d4
        rot2 := (if s5 = 1 then -(n5 : ℚ) else n5) / d5 }
  | _ => Except.error "record size mismatch"

/-- Layout of the data of an apparatus in the examples. -/
def samplePutAADT (d : AADTstruct) : Bytes :=
  samplePutInt d.mType ++ samplePutFloat d.mQuality ++ samplePutFloat d.mWeight
    ++ samplePutInt d.mValue

/-- Reading the data of an apparatus back. -/
def sampleGetAADT (b : Bytes) : Except String AADTstruct :=
  match b with
  | [s0, m0, s1, n1, d1, s2, n2, d2, s3, m3] =>
    Except.ok
      { mType := if s0 = 1 then -(m0 : Int) else m0
        mQuality := (if s1 = 1 then -(n1 : ℚ) else n1) / d1
        mWeight := (if s2 = 1 then -(n2 : ℚ) else n2) / d2
        mValue := if s3 = 1 then -(m3 : Int) else m3 }
  | _ => Except.error "record size mismatch"

/-- Layout of the data of a repair item in the examples. -/
def samplePutRIDT (d : RIDTstruct) : Bytes :=
  samplePutFloat d.mWeight ++ samplePutInt d.mValue ++ samplePutInt d.mUses
    ++ samplePutFloat d.mQuality

/-- Reading the data of a repair item back. -/
def sampleGetRIDT (b : Bytes) : Except String RIDTstruct :=
  match b with
  | [s0, n0, d0, s1, m1, s2, m2, s3, n3, d3] =>
    Except.ok
      { mWeight := (if s0 = 1 then -(n0 : ℚ) else n0) / d0
        mValue := if s1 = 1 then -(m1 : Int) else m1
        mUses := if s2 = 1 then -(m2 : Int) else m2
        mQuality := (if s3 = 1 then -(n3 : ℚ) else n3) / d3 }
  | _ => Except.error "record size mismatch"

/-- Reading a string in the examples: the characters up to the first zero. -/
def sampleGetString (b : Bytes) : String :=
  String.mk ((b.takeWhile (fun n => n != 0)).map Char.ofNat)

/-- A codec for the examples.  Optional strings are written when they are not empty. -/
def sampleCodec : Codec :=
  { putRefNum := samplePutRefNum, getRefNum := sampleGetRefNum
    putInt := samplePutInt, getInt := sampleGetInt, getIndex := sampleGetIndex
    putFloat := samplePutFloat, getFloat := sampleGetFloat
    putChar := samplePutInt, getChar := sampleGetInt
    putPosition := samplePutPosition, getPosition := sampleGetPosition
    putAADT := samplePutAADT, getAADT := sampleGetAADT
    putRIDT := samplePutRIDT, getRIDT := sampleGetRIDT
    putCString := fun s => s.toList.map Char.toNat ++ [0]
    putString := fun s => s.toList.map Char.toNat
    getString := sampleGetString
    writesOptional := fun s => !s.isEmpty
    mismatch := fun name => "Expected subrecord " ++ name
    hasContentFile := fun n => decide (0 ≤ n.mContentFile)
    defaultTag := "FRMR" }

/-- A reference to a locked, teleporting door, scaled up, marked as deleted. -/
def sampleRef : CellRef :=
  { mRefNum := ⟨5, 0⟩, mRefID := "door", mScale := 2, mOwner := "", mGlobalVariable := "",
    mSoul := "", mFaction := "", mFactionRank := -2, mChargeInt := 10,
    mEnchantmentCharge := -1, mGoldValue := 1, mTeleport := true,
    mDoorDest := ⟨⟨1, 2, 3⟩, 0, 0, 0⟩, mDestCell := "Balmora", mLockLevel := 50, mKey := "",
    mTrap := "", mReferenceBlocked := -1, mIsDeleted := true,
    mPos := ⟨⟨10, 20, 30⟩, 0, 0, 0⟩ }

/-- A reference with other content in every member. -/
def otherRef : CellRef :=
  { mRefNum := ⟨77, 3⟩, mRefID := "x", mScale := 3, mOwner := "y", mGlobalVariable := "",
    mSoul := "", mFaction := "", mFactionRank := 4, mChargeInt := 7,
    mEnchantmentCharge := 9, mGoldValue := 8, mTeleport := false,
    mDoorDest := ⟨⟨9, 9, 9⟩, 1, 1, 1⟩, mDestCell := "", mLockLevel := 6, mKey := "",
    mTrap := "", mReferenceBlocked := 1, mIsDeleted := false,
    mPos := ⟨⟨8, 8, 8⟩, 1, 1, 1⟩ }

/-- An apparatus as a content file holds it. -/
def sampleApparatus : Apparatus :=
  { mData := ⟨0, 1, 5, 20⟩, mId := "mortar", mModel := "m.nif", mIcon := "m.dds", mScript := "",
    mName := "Mortar", mIsDeleted := false }

/-- A repair item as a content file holds it. -/
def sampleRepair : Repair :=
  { mData := ⟨2, 10, 25, 1⟩, mId := "hammer", mModel := "h.nif", mIcon := "", mScript := "",
    mName := "", mIsDeleted := false }

end ESM

namespace MWPhysics

/-! ## Basic facts about the parts of `move` -/

theorem latchJump_eq (a : ActorFrameData) :
    latchJump a = { a with mDidJump := a.mDidJump || a.mWantJump } := by
  cases a with
  | mk r p q m wl sf f wj dj fs so =>
    cases wj <;> simp [latchJump]

theorem centred_eq (a : ActorFrameData) :
    centred a =
      { a with
        mActorRaw := { a.mActorRaw with walkingOnWater := false }
        mPosition := { a.mPosition with z := a.mPosition.z + a.mActorRaw.halfExtents.z }
        mDidJump := a.mDidJump || a.mWantJump } := by
  simp [centred, latchJump_eq, toCentre, resetFrame]

theorem swimLevel_centred (cfg : Config) (a : ActorFrameData) :
    swimLevel cfg (centred a) = swimLevel cfg a := by
  simp [centred_eq, swimLevel]

/-! ## The loop body, one run at a time -/

theorem stepLog_castCount (cfg : Config) (actor : ActorFrameData) (tracer : ActorTracer)
    (position velocity : Vec3) (remainingTime : ℚ) (log : List Query) :
    castCount (stepLog cfg actor tracer position velocity remainingTime log) = castCount log := by
  unfold stepLog
  split_ifs <;> simp [castCount, List.countP_append, Query.isDoTrace]

theorem stepOutcome_remainingTime (cfg : Config) (w : CollisionWorld) (actor : ActorFrameData)
    (tracer : ActorTracer) (position velocity : Vec3) (remainingTime : ℚ)
    (hstep : ∀ p m t, 0 ≤ t → 0 ≤ (w.step p m t).remainingTime) (h : 0 ≤ remainingTime) :
    0 ≤ (stepOutcome cfg w actor tracer position velocity remainingTime).remainingTime := by
  unfold stepOutcome
  split_ifs
  · exact hstep _ _ _ h
  · exact h

theorem afterHit_iterations (cfg : Config) (w : CollisionWorld) (actor : ActorFrameData)
    (swimlevel : ℚ) (origVelocity : Vec3) (tracer : ActorTracer) (s : LoopState) :
    (afterHit cfg w actor swimlevel origVelocity tracer s).2.iterations = s.iterations
      ∧ (afterHit cfg w actor swimlevel origVelocity tracer s).2.bodyRuns = s.bodyRuns := by
  unfold afterHit
  dsimp only
  split_ifs <;> exact ⟨rfl, rfl⟩

theorem afterHit_castCount (cfg : Config) (w : CollisionWorld) (actor : ActorFrameData)
    (swimlevel : ℚ) (origVelocity : Vec3) (tracer : ActorTracer) (s : LoopState) :
    castCount (afterHit cfg w actor swimlevel origVelocity tracer s).2.log = castCount s.log := by
  unfold afterHit
  dsimp only
  split_ifs <;> exact stepLog_castCount _ _ _ _ _ _ _

theorem afterHit_broke (cfg : Config) (w : CollisionWorld) (actor : ActorFrameData)
    (swimlevel : ℚ) (origVelocity : Vec3) (tracer : ActorTracer) (s : LoopState) :
    ((afterHit cfg w actor swimlevel origVelocity tracer s).1 = Flow.exit →
        (afterHit cfg w actor swimlevel origVelocity tracer s).2.broke = true)
      ∧ ((afterHit cfg w actor swimlevel origVelocity tracer s).1 = Flow.next →
        (afterHit cfg w actor swimlevel origVelocity tracer s).2.broke = s.broke) := by
  unfold afterHit
  dsimp only
  split_ifs <;> simp

theorem afterHit_remainingTime (cfg : Config) (w : CollisionWorld) (actor : ActorFrameData)
    (swimlevel : ℚ) (origVelocity : Vec3) (tracer : ActorTracer) (s : LoopState)
    (hstep : ∀ p m t, 0 ≤ t → 0 ≤ (w.step p m t).remainingTime) (h : 0 ≤ s.remainingTime) :
    0 ≤ (afterHit cfg w actor swimlevel origVelocity tracer s).2.remainingTime := by
  unfold afterHit
  dsimp only
  split_ifs <;> exact stepOutcome_remainingTime _ _ _ _ _ _ _ hstep h

theorem loopBody_counters (cfg : Config) (w : CollisionWorld) (actor : ActorFrameData)
    (swimlevel : ℚ) (origVelocity : Vec3) (s : LoopState) :
    (loopBody cfg w actor swimlevel origVelocity s).2.iterations = s.iterations
      ∧ (loopBody cfg w actor swimlevel origVelocity s).2.bodyRuns = s.bodyRuns + 1
      ∧ castCount (loopBody cfg w actor swimlevel origVelocity s).2.log ≤ castCount s.log + 1 := by
  unfold loopBody
  dsimp only
  split_ifs
  · simp
  · simp [castCount, List.countP_append, Query.isDoTrace]
  · refine ⟨?_, ?_, ?_⟩
    · rw [(afterHit_iterations _ _ _ _ _ _ _).1]
    · rw [(afterHit_iterations _ _ _ _ _ _ _).2]
    · rw [afterHit_castCount]
      simp [castCount, List.countP_append, Query.isDoTrace]
  · simp

theorem loopBody_broke (cfg : Config) (w : CollisionWorld) (actor : ActorFrameData)
    (swimlevel : ℚ) (origVelocity : Vec3) (s : LoopState) :
    ((loopBody cfg w actor swimlevel origVelocity s).1 = Flow.exit →
        (loopBody cfg w actor swimlevel origVelocity s).2.broke = true)
      ∧ ((loopBody cfg w actor swimlevel origVelocity s).1 = Flow.next →
        (loopBody cfg w actor swimlevel origVelocity s).2.broke = s.broke) := by
  unfold loopBody
  dsimp only
  split_ifs
  · simp
  · simp
  · exact afterHit_broke _ _ _ _ _ _ _
  · simp

theorem loopBody_remainingTime (cfg : Config) (w : CollisionWorld) (actor : ActorFrameData)
    (swimlevel : ℚ) (origVelocity : Vec3) (s : LoopState)
    (hstep : ∀ p m t, 0 ≤ t → 0 ≤ (w.step p m t).remainingTime) (h : 0 ≤ s.remainingTime) :
    0 ≤ (loopBody cfg w actor swimlevel origVelocity s).2.remainingTime := by
  unfold loopBody
  dsimp only
  split_ifs
  · exact h
  · exact h
  · exact afterHit_remainingTime _ _ _ _ _ _ _ hstep h
  · exact h

/-! ## The loop as a whole -/

theorem slideLoop_zero (cfg : Config) (w : CollisionWorld) (actor : ActorFrameData)
    (swimlevel : ℚ) (origVelocity : Vec3) (s : LoopState) :
    slideLoop cfg w actor swimlevel origVelocity 0 s = s := rfl

theorem slideLoop_stop (cfg : Config) (w : CollisionWorld) (actor : ActorFrameData)
    (swimlevel : ℚ) (origVelocity : Vec3) (fuel : Nat) (s : LoopState)
    (h : ¬ loopGuard cfg s) : slideLoop cfg w actor swimlevel origVelocity fuel s = s := by
  cases fuel with
  | zero => rfl
  | succ n => simp [slideLoop, h]

theorem slideLoop_exit (cfg : Config) (w : CollisionWorld) (actor : ActorFrameData)
    (swimlevel : ℚ) (origVelocity : Vec3) (fuel : Nat) (s s1 : LoopState)
    (hg : loopGuard cfg s)
    (hb : loopBody cfg w actor swimlevel origVelocity s = (Flow.exit, s1)) :
    slideLoop cfg w actor swimlevel origVelocity (fuel + 1) s = s1 := by
  simp [slideLoop, hg, hb]

theorem slideLoop_next (cfg : Config) (w : CollisionWorld) (actor : ActorFrameData)
    (swimlevel : ℚ) (origVelocity : Vec3) (fuel : Nat) (s s1 : LoopState)
    (hg : loopGuard cfg s)
    (hb : loopBody cfg w actor swimlevel origVelocity s = (Flow.next, s1)) :
    slideLoop cfg w actor swimlevel origVelocity (fuel + 1) s
      = slideLoop cfg w actor swimlevel origVelocity fuel
          { s1 with iterations := s1.iterations + 1 } := by
  simp [slideLoop, hg, hb]

/-- Fuel beyond `sMaxIterations - iterations` is never used: the loop stops by its own
condition or by a `break`. -/
theorem slideLoop_fuel (cfg : Config) (w : CollisionWorld) (actor : ActorFrameData)
    (swimlevel : ℚ) (origVelocity : Vec3) :
    ∀ (fuel : Nat) (s : LoopState), cfg.sMaxIterations - s.iterations ≤ fuel →
      slideLoop cfg w actor swimlevel origVelocity fuel s
        = slideLoop cfg w actor swimlevel origVelocity (cfg.sMaxIterations - s.iterations) s := by
  intro fuel
  induction fuel with
  | zero =>
    intro s h
    have h0 : cfg.sMaxIterations - s.iterations = 0 := Nat.le_zero.mp h
    rw [h0]
  | succ n ih =>
    intro s h
    by_cases hg : loopGuard cfg s
    · have hlt : s.iterations < cfg.sMaxIterations := hg.1
      obtain ⟨k, hk⟩ : ∃ k, cfg.sMaxIterations - s.iterations = k + 1 :=
        ⟨cfg.sMaxIterations - s.iterations - 1, by omega⟩
      rw [hk]
      cases hb : loopBody cfg w actor swimlevel origVelocity s with
      | mk f s1 =>
        have hit : s1.iterations = s.iterations := by
          have := (loopBody_counters cfg w actor swimlevel origVelocity s).1
          rw [hb] at this
          exact this
        cases f with
        | exit => rw [slideLoop_exit _ _ _ _ _ _ _ _ hg hb, slideLoop_exit _ _ _ _ _ _ _ _ hg hb]
        | next =>
          rw [slideLoop_next _ _ _ _ _ _ _ _ hg hb, slideLoop_next _ _ _ _ _ _ _ _ hg hb]
          have hk2 : cfg.sMaxIterations - (s1.iterations + 1) = k := by omega
          have := ih { s1 with iterations := s1.iterations + 1 } (by simp only; omega)
          rw [this]
          simp only [hk2]
    · rw [slideLoop_stop _ _ _ _ _ _ _ hg, slideLoop_stop _ _ _ _ _ _ _ hg]

/-- Counting: from any state, the loop enters its body at most `sMaxIterations -
iterations` times, makes at most one cast per entry, and never lets `iterations` pass the
cap. -/
theorem slideLoop_counts (cfg : Config) (w : CollisionWorld) (actor : ActorFrameData)
    (swimlevel : ℚ) (origVelocity : Vec3) :
    ∀ (fuel : Nat) (s : LoopState), s.iterations ≤ cfg.sMaxIterations →
      (slideLoop cfg w actor swimlevel origVelocity fuel s).bodyRuns + s.iterations
          ≤ s.bodyRuns + cfg.sMaxIterations
        ∧ castCount (slideLoop cfg w actor swimlevel origVelocity fuel s).log + s.bodyRuns
          ≤ castCount s.log + (slideLoop cfg w actor swimlevel origVelocity fuel s).bodyRuns
        ∧ (slideLoop cfg w actor swimlevel origVelocity fuel s).iterations
          ≤ cfg.sMaxIterations := by
  intro fuel
  induction fuel with
  | zero =>
    intro s h
    rw [slideLoop_zero]
    omega
  | succ n ih =>
    intro s h
    by_cases hg : loopGuard cfg s
    · have hlt : s.iterations < cfg.sMaxIterations := hg.1
      cases hb : loopBody cfg w actor swimlevel origVelocity s with
      | mk f s1 =>
        have hc := loopBody_counters cfg w actor swimlevel origVelocity s
        rw [hb] at hc
        obtain ⟨h1, h2, h3⟩ := hc
        simp only at h1 h2 h3
        cases f with
        | exit =>
          rw [slideLoop_exit _ _ _ _ _ _ _ _ hg hb]
          omega
        | next =>
          rw [slideLoop_next _ _ _ _ _ _ _ _ hg hb]
          have := ih { s1 with iterations := s1.iterations + 1 } (by simp only; omega)
          simp only at this
          omega
    · rw [slideLoop_stop _ _ _ _ _ _ _ hg]
      omega

/-- On leaving the loop, either a `break` was taken or the loop condition is false. -/
theorem slideLoop_leaves (cfg : Config) (w : CollisionWorld) (actor : ActorFrameData)
    (swimlevel : ℚ) (origVelocity : Vec3) :
    ∀ (fuel : Nat) (s : LoopState), cfg.sMaxIterations - s.iterations ≤ fuel →
      s.broke = false →
      (slideLoop cfg w actor swimlevel origVelocity fuel s).broke = true
        ∨ ¬ loopGuard cfg (slideLoop cfg w actor swimlevel origVelocity fuel s) := by
  intro fuel
  induction fuel with
  | zero =>
    intro s h _
    rw [slideLoop_zero]
    right
    intro hg
    have := hg.1
    omega
  | succ n ih =>
    intro s h hbr
    by_cases hg : loopGuard cfg s
    · cases hb : loopBody cfg w actor swimlevel origVelocity s with
      | mk f s1 =>
        have hc := loopBody_counters cfg w actor swimlevel origVelocity s
        have hk := loopBody_broke cfg w actor swimlevel origVelocity s
        rw [hb] at hc hk
        simp only at hc hk
        cases f with
        | exit =>
          rw [slideLoop_exit _ _ _ _ _ _ _ _ hg hb]
          left
          exact hk.1 rfl
        | next =>
          rw [slideLoop_next _ _ _ _ _ _ _ _ hg hb]
          apply ih
          · simp only; omega
          · simp only
            rw [hk.2 rfl, hbr]
    · rw [slideLoop_stop _ _ _ _ _ _ _ hg]
      right
      exact hg

/-- The loop keeps `remainingTime` non-negative as long as the stepper does. -/
theorem slideLoop_remainingTime (cfg : Config) (w : CollisionWorld) (actor : ActorFrameData)
    (swimlevel : ℚ) (origVelocity : Vec3)
    (hstep : ∀ p m t, 0 ≤ t → 0 ≤ (w.step p m t).remainingTime) :
    ∀ (fuel : Nat) (s : LoopState), 0 ≤ s.remainingTime →
      0 ≤ (slideLoop cfg w actor swimlevel origVelocity fuel s).remainingTime := by
  intro fuel
  induction fuel with
  | zero =>
    intro s h
    rw [slideLoop_zero]
    exact h
  | succ n ih =>
    intro s h
    by_cases hg : loopGuard cfg s
    · cases hb : loopBody cfg w actor swimlevel origVelocity s with
      | mk f s1 =>
        have hr := loopBody_remainingTime cfg w actor swimlevel origVelocity s hstep h
        rw [hb] at hr
        simp only at hr
        cases f with
        | exit =>
          rw [slideLoop_exit _ _ _ _ _ _ _ _ hg hb]
          exact hr
        | next =>
          rw [slideLoop_next _ _ _ _ _ _ _ _ hg hb]
          exact ih _ hr
    · rw [slideLoop_stop _ _ _ _ _ _ _ hg]
      exact h

/-- When the stepper hands `remainingTime` back as it got it, the loop never changes it. -/
theorem slideLoop_remainingTime_eq (cfg : Config) (w : CollisionWorld) (actor : ActorFrameData)
    (swimlevel : ℚ) (origVelocity : Vec3)
    (hstep : ∀ p m t, (w.step p m t).remainingTime = t) :
    ∀ (fuel : Nat) (s : LoopState),
      (slideLoop cfg w actor swimlevel origVelocity fuel s).remainingTime = s.remainingTime := by
  have hbody : ∀ s : LoopState,
      (loopBody cfg w actor swimlevel origVelocity s).2.remainingTime = s.remainingTime := by
    intro s
    have hout : ∀ (tr : ActorTracer) (p v : Vec3) (t : ℚ),
        (stepOutcome cfg w actor tr p v t).remainingTime = t := by
      intro tr p v t
      unfold stepOutcome
      split_ifs
      · exact hstep _ _ _
      · rfl
    unfold loopBody afterHit
    dsimp only
    split_ifs <;> first | rfl | exact hout _ _ _ _
  intro fuel
  induction fuel with
  | zero => intro s; rfl
  | succ n ih =>
    intro s
    by_cases hg : loopGuard cfg s
    · cases hb : loopBody cfg w actor swimlevel origVelocity s with
      | mk f s1 =>
        have hr := hbody s
        rw [hb] at hr
        simp only at hr
        cases f with
        | exit =>
          rw [slideLoop_exit _ _ _ _ _ _ _ _ hg hb]
          exact hr
        | next =>
          rw [slideLoop_next _ _ _ _ _ _ _ _ hg hb, ih]
          exact hr
    · rw [slideLoop_stop _ _ _ _ _ _ _ hg]

/-- At loop exit `iterations` has not passed the cap. -/
theorem loopExit_iterations_le (cfg : Config) (ext : Externals) (w : CollisionWorld)
    (actor : ActorFrameData) (time : ℚ) (worldData : WorldFrameData) :
    (loopExit cfg ext w actor time worldData).iterations ≤ cfg.sMaxIterations :=
  (slideLoop_counts cfg w (centred actor) (swimLevel cfg (centred actor))
    (startMotion cfg ext (toCentre (resetFrame actor)) worldData).velocity cfg.sMaxIterations
    (loopStart (centred actor)
      (startMotion cfg ext (toCentre (resetFrame actor)) worldData).velocity time)
    (Nat.zero_le _)).2.2

/-! ## C1: the mobility gate -/

/-- C1: for an actor whose owning entity reports `isMobile == false`, whatever the elapsed
time, movement, rotation, flags, world and storm, `move` returns with the position, the
on-ground, on-slope and walking-on-water flags, the inertial force, `standingOn` and
`didJump` unchanged (indeed with the whole frame data and physics actor unchanged) and
sends no query to the collision backend. -/
theorem move_immobile (cfg : Config) (ext : Externals) (w : CollisionWorld)
    (actor : ActorFrameData) (time : ℚ) (worldData : WorldFrameData)
    (h : actor.mActorRaw.isMobile = false) :
    (move cfg ext w actor time worldData).actor.mPosition = actor.mPosition
      ∧ (move cfg ext w actor time worldData).actor.mActorRaw.onGround = actor.mActorRaw.onGround
      ∧ (move cfg ext w actor time worldData).actor.mActorRaw.onSlope = actor.mActorRaw.onSlope
      ∧ (move cfg ext w actor time worldData).actor.mActorRaw.walkingOnWater
          = actor.mActorRaw.walkingOnWater
      ∧ (move cfg ext w actor time worldData).actor.mActorRaw.inertialForce
          = actor.mActorRaw.inertialForce
      ∧ (move cfg ext w actor time worldData).actor.mStandingOn = actor.mStandingOn
      ∧ (move cfg ext w actor time worldData).actor.mDidJump = actor.mDidJump
      ∧ (move cfg ext w actor time worldData).actor = actor
      ∧ (move cfg ext w actor time worldData).log = [] := by
  have hm : move cfg ext w actor time worldData = { actor := actor, log := [] } := by
    unfold move
    rw [if_pos h]
  rw [hm]
  exact ⟨rfl, rfl, rfl, rfl, rfl, rfl, rfl, rfl, rfl⟩

/-- C1 at a concrete input: the immobile `statue`, asked to walk for one second in an
open world, stays as it is and no query is made. -/
theorem move_immobile_witness :
    statue.mActorRaw.isMobile = false
      ∧ (move sampleConfig sampleMath openWorld statue 1 calm).actor = statue
      ∧ (move sampleConfig sampleMath openWorld statue 1 calm).log = [] :=
  ⟨rfl,
    (move_immobile sampleConfig sampleMath openWorld statue 1 calm rfl).2.2.2.2.2.2.2.1,
    (move_immobile sampleConfig sampleMath openWorld statue 1 calm rfl).2.2.2.2.2.2.2.2⟩

/-! ## C3: the loop is bounded -/

/-- C3: for every elapsed time and every behaviour of the collision backend, the
slide-and-collide loop of `move` enters its body at most `sMaxIterations` times (a
swim-boundary retry is one such entry), issues at most `sMaxIterations` casts of its own,
and terminates: any amount of fuel from `sMaxIterations` up gives the same final state, so
the loop always stops by its own condition or a `break`. -/
theorem slide_loop_bounded (cfg : Config) (ext : Externals) (w : CollisionWorld)
    (actor : ActorFrameData) (time : ℚ) (worldData : WorldFrameData) :
    (loopExit cfg ext w actor time worldData).bodyRuns ≤ cfg.sMaxIterations
      ∧ castCount (loopExit cfg ext w actor time worldData).log ≤ cfg.sMaxIterations
      ∧ castCount (loopExit cfg ext w actor time worldData).log
          ≤ (loopExit cfg ext w actor time worldData).bodyRuns
      ∧ (loopExit cfg ext w actor time worldData).iterations ≤ cfg.sMaxIterations
      ∧ ∀ fuel, cfg.sMaxIterations ≤ fuel →
          slideLoop cfg w (centred actor) (swimLevel cfg (centred actor))
              (startMotion cfg ext (toCentre (resetFrame actor)) worldData).velocity fuel
              (loopStart (centred actor)
                (startMotion cfg ext (toCentre (resetFrame actor)) worldData).velocity time)
            = loopExit cfg ext w actor time worldData := by
  have hc := slideLoop_counts cfg w (centred actor) (swimLevel cfg (centred actor))
    (startMotion cfg ext (toCentre (resetFrame actor)) worldData).velocity cfg.sMaxIterations
    (loopStart (centred actor)
      (startMotion cfg ext (toCentre (resetFrame actor)) worldData).velocity time)
    (Nat.zero_le _)
  have hl : loopExit cfg ext w actor time worldData
      = slideLoop cfg w (centred actor) (swimLevel cfg (centred actor))
          (startMotion cfg ext (toCentre (resetFrame actor)) worldData).velocity
          cfg.sMaxIterations
          (loopStart (centred actor)
            (startMotion cfg ext (toCentre (resetFrame actor)) worldData).velocity time) := rfl
  rw [← hl] at hc
  obtain ⟨h1, h2, h3⟩ := hc
  have e1 : (loopStart (centred actor)
      (startMotion cfg ext (toCentre (resetFrame actor)) worldData).velocity time).iterations
        = 0 := rfl
  have e2 : (loopStart (centred actor)
      (startMotion cfg ext (toCentre (resetFrame actor)) worldData).velocity time).bodyRuns
        = 0 := rfl
  have e3 : castCount (loopStart (centred actor)
      (startMotion cfg ext (toCentre (resetFrame actor)) worldData).velocity time).log
        = 0 := rfl
  rw [e1, e2] at h1
  rw [e2, e3] at h2
  refine ⟨by omega, by omega, by omega, h3, ?_⟩
  intro fuel hf
  rw [hl, slideLoop_fuel cfg w _ _ _ fuel _ (by rw [e1]; omega)]
  rw [e1]
  rfl

/-- C3 at a concrete input: for the actor `faller` walking for one second in an open
world, a hundred units of fuel give the same final state as the eight the cap allows. -/
theorem slide_loop_bounded_witness :
    sampleConfig.sMaxIterations ≤ 100
      ∧ slideLoop sampleConfig openWorld (centred faller) (swimLevel sampleConfig (centred faller))
          (startMotion sampleConfig sampleMath (toCentre (resetFrame faller)) calm).velocity 100
          (loopStart (centred faller)
            (startMotion sampleConfig sampleMath (toCentre (resetFrame faller)) calm).velocity 1)
        = loopExit sampleConfig sampleMath openWorld faller 1 calm :=
  ⟨by norm_num [sampleConfig],
    (slide_loop_bounded sampleConfig sampleMath openWorld faller 1 calm).2.2.2.2 100
      (by norm_num [sampleConfig])⟩

/-! ## C4: the remaining time on leaving the loop -/

/-- C4, refuted as stated: with one second of elapsed time in an open world the first cast
is unobstructed, the loop is left through `break`, and `remainingTime` is still the full
second, which is not below the threshold 0.01. -/
theorem remaining_time_counterexample :
    (0 : ℚ) ≤ 1
      ∧ ¬ (0 ≤ (loopExit sampleConfig sampleMath openWorld faller 1 calm).remainingTime
        ∧ (loopExit sampleConfig sampleMath openWorld faller 1 calm).remainingTime < 1 / 100) := by
  have h : (loopExit sampleConfig sampleMath openWorld faller 1 calm).remainingTime = 1 := by
    unfold loopExit
    dsimp only
    rw [slideLoop_remainingTime_eq _ _ _ _ _ (fun _ _ _ => rfl)]
    rfl
  rw [h]
  norm_num

/-- C4, amended: for every elapsed time `t >= 0` and every backend whose stepper never
hands back a negative remaining time, `remainingTime` is non-negative when the loop is
left, and it is at most the threshold 0.01 unless the loop was left through a `break` or
by reaching the iteration cap. -/
theorem remaining_time_on_exit (cfg : Config) (ext : Externals) (w : CollisionWorld)
    (actor : ActorFrameData) (time : ℚ) (worldData : WorldFrameData) (ht : 0 ≤ time)
    (hstep : ∀ p m t, 0 ≤ t → 0 ≤ (w.step p m t).remainingTime) :
    0 ≤ (loopExit cfg ext w actor time worldData).remainingTime
      ∧ ((loopExit cfg ext w actor time worldData).remainingTime ≤ 1 / 100
        ∨ (loopExit cfg ext w actor time worldData).broke = true
        ∨ (loopExit cfg ext w actor time worldData).iterations = cfg.sMaxIterations) := by
  refine ⟨?_, ?_⟩
  · exact slideLoop_remainingTime cfg w _ _ _ hstep _ _ ht
  · have hle := (loopExit_iterations_le cfg ext w actor time worldData)
    have hl := slideLoop_leaves cfg w (centred actor) (swimLevel cfg (centred actor))
      (startMotion cfg ext (toCentre (resetFrame actor)) worldData).velocity cfg.sMaxIterations
      (loopStart (centred actor)
        (startMotion cfg ext (toCentre (resetFrame actor)) worldData).velocity time)
      (Nat.sub_le _ _) rfl
    have e : loopExit cfg ext w actor time worldData
      = slideLoop cfg w (centred actor) (swimLevel cfg (centred actor))
          (startMotion cfg ext (toCentre (resetFrame actor)) worldData).velocity
          cfg.sMaxIterations
          (loopStart (centred actor)
            (startMotion cfg ext (toCentre (resetFrame actor)) worldData).velocity time) := rfl
    rw [← e] at hl
    rcases hl with hb | hg
    · exact Or.inr (Or.inl hb)
    · unfold loopGuard at hg
      by_cases hi : (loopExit cfg ext w actor time worldData).iterations < cfg.sMaxIterations
      · left
        by_contra hr
        exact hg ⟨hi, lt_of_not_ge hr⟩
      · right; right
        omega

/-- C4 (amended) at a concrete input: one second in an open world, where the stepper hands
the remaining time back unchanged. -/
theorem remaining_time_on_exit_witness :
    0 ≤ (loopExit sampleConfig sampleMath openWorld faller 1 calm).remainingTime
      ∧ ((loopExit sampleConfig sampleMath openWorld faller 1 calm).remainingTime ≤ 1 / 100
        ∨ (loopExit sampleConfig sampleMath openWorld faller 1 calm).broke = true
        ∨ (loopExit sampleConfig sampleMath openWorld faller 1 calm).iterations
            = sampleConfig.sMaxIterations) :=
  remaining_time_on_exit sampleConfig sampleMath openWorld faller 1 calm (by norm_num)
    (fun _ _ _ h => h)

/-! ## C5: slope classification -/

/-- C5: `isWalkableSlope` is decided by the vertical component of its normal argument alone
and is true exactly when `normal.z > cos(maxSlopeAngle)`; the normal `(0,0,1)` is walkable
as soon as the cosine of the configured angle is below one, and the normal `(0,0,0.5)` is
walkable if and only if `0.5 > cos(maxSlopeAngle)`. -/
theorem isWalkableSlope_spec (cfg : Config) (ext : Externals) :
    (∀ normal : Vec3, isWalkableSlope cfg ext normal = true
        ↔ normal.z > ext.cos (ext.degreesToRadians cfg.sMaxSlope))
      ∧ (∀ n m : Vec3, n.z = m.z → isWalkableSlope cfg ext n = isWalkableSlope cfg ext m)
      ∧ (ext.cos (ext.degreesToRadians cfg.sMaxSlope) < 1 →
          isWalkableSlope cfg ext ⟨0, 0, 1⟩ = true)
      ∧ (isWalkableSlope cfg ext ⟨0, 0, 1 / 2⟩ = true
          ↔ (1 / 2 : ℚ) > ext.cos (ext.degreesToRadians cfg.sMaxSlope)) := by
  refine ⟨?_, ?_, ?_, ?_⟩
  · intro normal
    simp [isWalkableSlope]
  · intro n m h
    simp [isWalkableSlope, h]
  · intro h
    simpa [isWalkableSlope] using h
  · simp [isWalkableSlope]

/-- C5 at a concrete input: with the slope limit of 49 degrees, whose cosine is about
0.6561, the flat normal is walkable. -/
theorem isWalkableSlope_spec_witness :
    sampleMath.cos (sampleMath.degreesToRadians sampleConfig.sMaxSlope) < 1
      ∧ isWalkableSlope sampleConfig sampleMath ⟨0, 0, 1⟩ = true :=
  ⟨by norm_num [sampleMath],
    (isWalkableSlope_spec sampleConfig sampleMath).2.2.1 (by norm_num [sampleMath])⟩

/-! ## The two ways `move` does work, and the three outcomes of the ground resolution -/

theorem move_of_noCollision (cfg : Config) (ext : Externals) (w : CollisionWorld)
    (actor : ActorFrameData) (time : ℚ) (worldData : WorldFrameData)
    (hm : actor.mActorRaw.isMobile = true) (hc : actor.mActorRaw.collisionMode = false) :
    move cfg ext w actor time worldData
      = { actor := moveNoCollision ext (resetFrame actor) time, log := [] } := by
  unfold move
  rw [if_neg (by simp [hm]), if_pos hc]

theorem move_of_collision (cfg : Config) (ext : Externals) (w : CollisionWorld)
    (actor : ActorFrameData) (time : ℚ) (worldData : WorldFrameData)
    (hm : actor.mActorRaw.isMobile = true) (hc : actor.mActorRaw.collisionMode = true) :
    move cfg ext w actor time worldData
      = { actor := commit cfg (centred actor) time (swimLevel cfg actor)
            (groundState cfg ext w actor time worldData)
          log := (groundState cfg ext w actor time worldData).log } := by
  unfold move
  rw [if_neg (by simp [hm]), if_neg (by simp [hc])]
  simp only [swimLevel_centred]

theorem resolveGround_skip (cfg : Config) (ext : Externals) (w : CollisionWorld)
    (actor : ActorFrameData) (swimlevel : ℚ) (inertia velocity newPosition : Vec3)
    (log : List Query) (h : ¬ probeIssued swimlevel inertia newPosition) :
    resolveGround cfg ext w actor swimlevel inertia velocity newPosition log
      = { actor := actor, newPosition := newPosition, inertia := inertia,
          isOnGround := false, isOnSlope := false, log := log } := by
  unfold resolveGround
  rw [if_neg h]

theorem resolveGround_miss (cfg : Config) (ext : Externals) (w : CollisionWorld)
    (actor : ActorFrameData) (swimlevel : ℚ) (inertia velocity newPosition : Vec3)
    (log : List Query) (h : probeIssued swimlevel inertia newPosition)
    (hh : ¬ hitsGround (groundProbe cfg w actor newPosition)) :
    resolveGround cfg ext w actor swimlevel inertia velocity newPosition log
      = { actor := actor, newPosition := newPosition,
          inertia := pushAway ext actor (groundProbe cfg w actor newPosition) velocity inertia,
          isOnGround := false, isOnSlope := false,
          log := log ++ [Query.doTrace newPosition (probeTarget cfg actor newPosition)] } := by
  unfold resolveGround
  rw [if_pos h]
  dsimp only
  rw [if_neg hh]

theorem resolveGround_hit (cfg : Config) (ext : Externals) (w : CollisionWorld)
    (actor : ActorFrameData) (swimlevel : ℚ) (inertia velocity newPosition : Vec3)
    (log : List Query) (h : probeIssued swimlevel inertia newPosition)
    (hh : hitsGround (groundProbe cfg w actor newPosition)) :
    resolveGround cfg ext w actor swimlevel inertia velocity newPosition log
      = landOn cfg ext actor (groundProbe cfg w actor newPosition) inertia newPosition
          (log ++ [Query.doTrace newPosition (probeTarget cfg actor newPosition)]) := by
  unfold resolveGround
  rw [if_pos h]
  dsimp only
  rw [if_pos hh]

/-- What `landOn` leaves untouched of the frame data, and what it sets. -/
theorem landOn_fields (cfg : Config) (ext : Externals) (actor : ActorFrameData)
    (tracer : ActorTracer) (inertia newPosition : Vec3) (log : List Query) :
    (landOn cfg ext actor tracer inertia newPosition log).isOnGround = true
      ∧ (landOn cfg ext actor tracer inertia newPosition log).isOnSlope
          = !isWalkableSlope cfg ext tracer.mPlaneNormal
      ∧ (landOn cfg ext actor tracer inertia newPosition log).inertia = inertia
      ∧ (landOn cfg ext actor tracer inertia newPosition log).log = log
      ∧ (landOn cfg ext actor tracer inertia newPosition log).newPosition.x = newPosition.x
      ∧ (landOn cfg ext actor tracer inertia newPosition log).newPosition.y = newPosition.y
      ∧ (actor.mFlying = true →
          (landOn cfg ext actor tracer inertia newPosition log).newPosition = newPosition)
      ∧ (actor.mFlying = false →
          (landOn cfg ext actor tracer inertia newPosition log).newPosition.z
            = tracer.mEndPos.z + cfg.sGroundOffset) := by
  unfold landOn
  dsimp only
  refine ⟨rfl, rfl, rfl, rfl, ?_, ?_, ?_, ?_⟩
  · split_ifs <;> rfl
  · split_ifs <;> rfl
  · intro hf
    simp [hf]
  · intro hf
    simp [hf]

/-- Adding the half height and taking it away again gives the position back (lines 108
and 301). -/
theorem uncentre_centre (p : Vec3) (h : ℚ) :
    ({ ({ p with z := p.z + h } : Vec3) with z := ({ p with z := p.z + h } : Vec3).z - h } : Vec3)
      = p := by
  cases p
  simp

/-! ## C2: a tick of zero length -/

/-- With zero elapsed time the loop condition fails at once: the loop is left in its
starting state. -/
theorem loopExit_zero_time (cfg : Config) (ext : Externals) (w : CollisionWorld)
    (actor : ActorFrameData) (worldData : WorldFrameData) :
    loopExit cfg ext w actor 0 worldData
      = loopStart (centred actor)
          (startMotion cfg ext (toCentre (resetFrame actor)) worldData).velocity 0 := by
  unfold loopExit
  dsimp only
  apply slideLoop_stop
  intro hg
  have h2 := hg.2
  simp only [loopStart] at h2
  norm_num at h2

/-- With zero elapsed time the ground resolution starts from the volume centre of the
input position, with an empty log. -/
theorem groundState_zero_time (cfg : Config) (ext : Externals) (w : CollisionWorld)
    (actor : ActorFrameData) (worldData : WorldFrameData) :
    groundState cfg ext w actor 0 worldData
      = resolveGround cfg ext w (centred actor) (swimLevel cfg actor)
          (startMotion cfg ext (toCentre (resetFrame actor)) worldData).inertia
          (startMotion cfg ext (toCentre (resetFrame actor)) worldData).velocity
          (centred actor).mPosition [] := by
  unfold groundState
  dsimp only
  rw [loopExit_zero_time, swimLevel_centred]
  rfl

/-- C2, refuted as stated: an airborne actor one and a half units above the resting
height of a floor, ticked with zero elapsed time, comes out half a unit lower and on the
ground: the ground probe of lines 240-262 runs whatever the elapsed time. -/
theorem move_zero_time_counterexample :
    (move sampleConfig sampleMath floorWorld faller 0 calm).actor.mPosition ≠ faller.mPosition
      ∧ (move sampleConfig sampleMath floorWorld faller 0 calm).actor.mActorRaw.onGround
        ≠ faller.mActorRaw.onGround := by
  have hp : probeIssued (swimLevel sampleConfig faller)
      (startMotion sampleConfig sampleMath (toCentre (resetFrame faller)) calm).inertia
      (centred faller).mPosition := by
    simp [probeIssued, startMotion, selectRegime, toCentre, resetFrame, centred_eq, swimLevel,
      faller, sampleBody, sampleConfig]
    norm_num
  have hh : hitsGround (groundProbe sampleConfig floorWorld (centred faller)
      (centred faller).mPosition) := by
    simp [hitsGround, groundProbe, floorWorld, isActor, worldObject]
    norm_num
  have hg := groundState_zero_time sampleConfig sampleMath floorWorld faller calm
  rw [resolveGround_hit _ _ _ _ _ _ _ _ _ hp hh] at hg
  have hm := move_of_collision sampleConfig sampleMath floorWorld faller 0 calm rfl rfl
  rw [hg] at hm
  have hf := landOn_fields sampleConfig sampleMath (centred faller)
    (groundProbe sampleConfig floorWorld (centred faller) (centred faller).mPosition)
    (startMotion sampleConfig sampleMath (toCentre (resetFrame faller)) calm).inertia
    (centred faller).mPosition
    ([] ++ [Query.doTrace (centred faller).mPosition
      (probeTarget sampleConfig (centred faller) (centred faller).mPosition)])
  constructor
  · intro h
    have hz := congrArg Vec3.z h
    rw [hm] at hz
    simp only [commit] at hz
    rw [hf.2.2.2.2.2.2.2 (by simp [centred_eq, faller])] at hz
    simp [groundProbe, floorWorld, centred_eq, faller, sampleBody, sampleConfig] at hz
    norm_num at hz
  · rw [hm]
    simp only [commit]
    rw [hf.1]
    simp [faller, sampleBody]

/-- C2, amended: with zero elapsed time the slide-and-collide loop does not run (no pass
of its body, no cast) and the x and y of the position are unchanged.  An immobile actor is
left untouched.  With collision disabled the position, on-ground and on-slope are unchanged
and walking-on-water is reset to false.  With collision enabled the ground resolution still
runs on the unmoved centre: if its probe is skipped or does not hit a non-actor object, the
position is unchanged and on-ground, on-slope and walking-on-water are committed false; if
it hits a non-actor object, on-ground is committed true and the position is unchanged for a
flying actor and snapped to the probe's end height plus the ground clearance otherwise. -/
theorem move_zero_time (cfg : Config) (ext : Externals) (w : CollisionWorld)
    (actor : ActorFrameData) (worldData : WorldFrameData) :
    (loopExit cfg ext w actor 0 worldData).bodyRuns = 0
      ∧ (loopExit cfg ext w actor 0 worldData).log = []
      ∧ (move cfg ext w actor 0 worldData).actor.mPosition.x = actor.mPosition.x
      ∧ (move cfg ext w actor 0 worldData).actor.mPosition.y = actor.mPosition.y
      ∧ (actor.mActorRaw.isMobile = false → (move cfg ext w actor 0 worldData).actor = actor)
      ∧ (actor.mActorRaw.isMobile = true → actor.mActorRaw.collisionMode = false →
          (move cfg ext w actor 0 worldData).actor.mPosition = actor.mPosition
            ∧ (move cfg ext w actor 0 worldData).actor.mActorRaw.onGround
                = actor.mActorRaw.onGround
            ∧ (move cfg ext w actor 0 worldData).actor.mActorRaw.onSlope
                = actor.mActorRaw.onSlope
            ∧ (move cfg ext w actor 0 worldData).actor.mActorRaw.walkingOnWater = false)
      ∧ (actor.mActorRaw.isMobile = true → actor.mActorRaw.collisionMode = true →
          ¬ (probeIssued (swimLevel cfg actor)
                (startMotion cfg ext (toCentre (resetFrame actor)) worldData).inertia
                (centred actor).mPosition
              ∧ hitsGround (groundProbe cfg w (centred actor) (centred actor).mPosition)) →
          (move cfg ext w actor 0 worldData).actor.mPosition = actor.mPosition
            ∧ (move cfg ext w actor 0 worldData).actor.mActorRaw.onGround = false
            ∧ (move cfg ext w actor 0 worldData).actor.mActorRaw.onSlope = false
            ∧ (move cfg ext w actor 0 worldData).actor.mActorRaw.walkingOnWater = false)
      ∧ (actor.mActorRaw.isMobile = true → actor.mActorRaw.collisionMode = true →
          probeIssued (swimLevel cfg actor)
            (startMotion cfg ext (toCentre (resetFrame actor)) worldData).inertia
            (centred actor).mPosition →
          hitsGround (groundProbe cfg w (centred actor) (centred actor).mPosition) →
          (move cfg ext w actor 0 worldData).actor.mActorRaw.onGround = true
            ∧ (actor.mFlying = true →
                (move cfg ext w actor 0 worldData).actor.mPosition = actor.mPosition)
            ∧ (actor.mFlying = false →
                (move cfg ext w actor 0 worldData).actor.mPosition.z
                  = (groundProbe cfg w (centred actor) (centred actor).mPosition).mEndPos.z
                    + cfg.sGroundOffset - actor.mActorRaw.halfExtents.z)) := by
  have hcp : (centred actor).mPosition
      = { actor.mPosition with z := actor.mPosition.z + actor.mActorRaw.halfExtents.z } := by
    rw [centred_eq]
  have hch : (centred actor).mActorRaw.halfExtents = actor.mActorRaw.halfExtents := by
    rw [centred_eq]
  have hcf : (centred actor).mFlying = actor.mFlying := by
    rw [centred_eq]
  have hcw : (centred actor).mActorRaw.walkingOnWater = false := by
    rw [centred_eq]
  have himm : actor.mActorRaw.isMobile = false → (move cfg ext w actor 0 worldData).actor = actor :=
    fun h => by unfold move; rw [if_pos h]
  have hnoc : actor.mActorRaw.isMobile = true → actor.mActorRaw.collisionMode = false →
      (move cfg ext w actor 0 worldData).actor
        = { actor with mActorRaw := { actor.mActorRaw with walkingOnWater := false } } := by
    intro hm hc
    rw [move_of_noCollision _ _ _ _ _ _ hm hc]
    cases actor with
    | mk r p q m wl sf f wj dj fs so =>
      cases q
      simp [moveNoCollision, resetFrame, Vec3.add, Vec3.scale]
  have hskip : actor.mActorRaw.isMobile = true → actor.mActorRaw.collisionMode = true →
      ¬ (probeIssued (swimLevel cfg actor)
            (startMotion cfg ext (toCentre (resetFrame actor)) worldData).inertia
            (centred actor).mPosition
          ∧ hitsGround (groundProbe cfg w (centred actor) (centred actor).mPosition)) →
      (move cfg ext w actor 0 worldData).actor.mPosition = actor.mPosition
        ∧ (move cfg ext w actor 0 worldData).actor.mActorRaw.onGround = false
        ∧ (move cfg ext w actor 0 worldData).actor.mActorRaw.onSlope = false
        ∧ (move cfg ext w actor 0 worldData).actor.mActorRaw.walkingOnWater = false := by
    intro hm hc hn
    rw [move_of_collision _ _ _ _ _ _ hm hc, groundState_zero_time]
    by_cases hp : probeIssued (swimLevel cfg actor)
        (startMotion cfg ext (toCentre (resetFrame actor)) worldData).inertia
        (centred actor).mPosition
    · have hh : ¬ hitsGround (groundProbe cfg w (centred actor) (centred actor).mPosition) :=
        fun hh => hn ⟨hp, hh⟩
      rw [resolveGround_miss _ _ _ _ _ _ _ _ _ hp hh]
      simp only [commit]
      rw [hcp, hch, hcw]
      refine ⟨uncentre_centre _ _, ?_, ?_, ?_⟩ <;> first | rfl | trivial
    · rw [resolveGround_skip _ _ _ _ _ _ _ _ _ hp]
      simp only [commit]
      rw [hcp, hch, hcw]
      refine ⟨uncentre_centre _ _, ?_, ?_, ?_⟩ <;> first | rfl | trivial
  have hhit : actor.mActorRaw.isMobile = true → actor.mActorRaw.collisionMode = true →
      probeIssued (swimLevel cfg actor)
        (startMotion cfg ext (toCentre (resetFrame actor)) worldData).inertia
        (centred actor).mPosition →
      hitsGround (groundProbe cfg w (centred actor) (centred actor).mPosition) →
      (move cfg ext w actor 0 worldData).actor.mActorRaw.onGround = true
        ∧ (move cfg ext w actor 0 worldData).actor.mPosition.x = actor.mPosition.x
        ∧ (move cfg ext w actor 0 worldData).actor.mPosition.y = actor.mPosition.y
        ∧ (actor.mFlying = true →
            (move cfg ext w actor 0 worldData).actor.mPosition = actor.mPosition)
        ∧ (actor.mFlying = false →
            (move cfg ext w actor 0 worldData).actor.mPosition.z
              = (groundProbe cfg w (centred actor) (centred actor).mPosition).mEndPos.z
                + cfg.sGroundOffset - actor.mActorRaw.halfExtents.z) := by
    intro hm hc hp hh
    rw [move_of_collision _ _ _ _ _ _ hm hc, groundState_zero_time,
      resolveGround_hit _ _ _ _ _ _ _ _ _ hp hh]
    have hf := landOn_fields cfg ext (centred actor)
      (groundProbe cfg w (centred actor) (centred actor).mPosition)
      (startMotion cfg ext (toCentre (resetFrame actor)) worldData).inertia
      (centred actor).mPosition
      ([] ++ [Query.doTrace (centred actor).mPosition
        (probeTarget cfg (centred actor) (centred actor).mPosition)])
    obtain ⟨h1, _, _, _, h5, h6, h7, h8⟩ := hf
    simp only [commit]
    refine ⟨h1, ?_, ?_, ?_, ?_⟩
    · rw [h5, hcp]
    · rw [h6, hcp]
    · intro hfl
      rw [h7 (by rw [hcf]; exact hfl), hcp, hch]
      exact uncentre_centre _ _
    · intro hfl
      rw [h8 (by rw [hcf]; exact hfl), hch]
  refine ⟨?_, ?_, ?_, ?_, himm, ?_, hskip, ?_⟩
  · rw [loopExit_zero_time]; rfl
  · rw [loopExit_zero_time]; rfl
  · cases hm : actor.mActorRaw.isMobile with
    | false => rw [himm hm]
    | true =>
      cases hc : actor.mActorRaw.collisionMode with
      | false => rw [hnoc hm hc]
      | true =>
        by_cases hph : probeIssued (swimLevel cfg actor)
            (startMotion cfg ext (toCentre (resetFrame actor)) worldData).inertia
            (centred actor).mPosition
          ∧ hitsGround (groundProbe cfg w (centred actor) (centred actor).mPosition)
        · exact (hhit hm hc hph.1 hph.2).2.1
        · rw [(hskip hm hc hph).1]
  · cases hm : actor.mActorRaw.isMobile with
    | false => rw [himm hm]
    | true =>
      cases hc : actor.mActorRaw.collisionMode with
      | false => rw [hnoc hm hc]
      | true =>
        by_cases hph : probeIssued (swimLevel cfg actor)
            (startMotion cfg ext (toCentre (resetFrame actor)) worldData).inertia
            (centred actor).mPosition
          ∧ hitsGround (groundProbe cfg w (centred actor) (centred actor).mPosition)
        · exact (hhit hm hc hph.1 hph.2).2.2.1
        · rw [(hskip hm hc hph).1]
  · intro hm hc
    rw [hnoc hm hc]
    exact ⟨rfl, rfl, rfl, rfl⟩
  · intro hm hc hp hh
    have := hhit hm hc hp hh
    exact ⟨this.1, this.2.2.2.1, this.2.2.2.2⟩

/-- C2 (amended) at a concrete input: with collision disabled and zero elapsed time the
position and the on-ground and on-slope flags stay as they were. -/
theorem move_zero_time_witness :
    drifter.mActorRaw.isMobile = true ∧ drifter.mActorRaw.collisionMode = false
      ∧ (move sampleConfig sampleMath openWorld drifter 0 calm).actor.mPosition
          = drifter.mPosition
      ∧ (move sampleConfig sampleMath openWorld drifter 0 calm).actor.mActorRaw.onGround
          = drifter.mActorRaw.onGround :=
  ⟨rfl, rfl,
    ((move_zero_time sampleConfig sampleMath openWorld drifter calm).2.2.2.2.2.1 rfl rfl).1,
    ((move_zero_time sampleConfig sampleMath openWorld drifter calm).2.2.2.2.2.1 rfl rfl).2.1⟩

/-! ## Single runs of the loop body: redirect, degenerate motion, unobstructed cast -/

theorem slide_down (v : Vec3) : slide v ⟨0, 0, -1⟩ = ⟨v.x, v.y, 0⟩ := by
  simp [slide, project, Vec3.sub, Vec3.scale, Vec3.dot]

theorem loopBody_redirect (cfg : Config) (w : CollisionWorld) (actor : ActorFrameData)
    (swimlevel : ℚ) (origVelocity : Vec3) (s : LoopState)
    (h : swimRedirect actor swimlevel s) :
    loopBody cfg w actor swimlevel origVelocity s
      = (Flow.next,
          { s with bodyRuns := s.bodyRuns + 1, velocity := ⟨s.velocity.x, s.velocity.y, 0⟩ }) := by
  unfold loopBody
  dsimp only
  rw [if_pos h, slide_down]

theorem loopBody_degenerate (cfg : Config) (w : CollisionWorld) (actor : ActorFrameData)
    (swimlevel : ℚ) (origVelocity : Vec3) (s : LoopState)
    (h : ¬ swimRedirect actor swimlevel s)
    (hd : ¬ (s.newPosition.sub (nextpos s)).length2 > 1 / 10000) :
    loopBody cfg w actor swimlevel origVelocity s
      = (Flow.exit, { s with bodyRuns := s.bodyRuns + 1, broke := true }) := by
  unfold loopBody
  dsimp only
  rw [if_neg h, if_neg hd]

theorem loopBody_unobstructed (cfg : Config) (w : CollisionWorld) (actor : ActorFrameData)
    (swimlevel : ℚ) (origVelocity : Vec3) (s : LoopState)
    (h : ¬ swimRedirect actor swimlevel s)
    (hd : (s.newPosition.sub (nextpos s)).length2 > 1 / 10000)
    (hfr : (w.doTrace s.newPosition (nextpos s)).mFraction ≥ 1) :
    loopBody cfg w actor swimlevel origVelocity s
      = (Flow.exit,
          { s with
            bodyRuns := s.bodyRuns + 1
            log := s.log ++ [Query.doTrace s.newPosition (nextpos s)]
            newPosition := (w.doTrace s.newPosition (nextpos s)).mEndPos
            broke := true }) := by
  unfold loopBody
  dsimp only
  rw [if_neg h, if_pos hd, if_pos hfr]

/-! ## C6: the swim boundary -/

/-- C6: for an actor that is not flying, in a pass of the loop body where the current
centre is below swim level and the candidate `newPosition + velocity * remainingTime` is
above it, the velocity is replaced by its horizontal part (vertical component zero, x and
y kept), no query is made, position and `remainingTime` are unchanged, the loop goes on to
its next pass, and the candidate recomputed there is not above swim level, so that pass is
not redirected again.  Moreover a pass that starts below swim level and whose cast is
unobstructed, ending at its target, never leaves the position above swim level. -/
theorem swim_boundary_redirect (cfg : Config) (w : CollisionWorld) (actor : ActorFrameData)
    (swimlevel : ℚ) (origVelocity : Vec3) (s : LoopState)
    (hfly : actor.mFlying = false) (hbelow : s.newPosition.z < swimlevel)
    (habove : (nextpos s).z > swimlevel) :
    (loopBody cfg w actor swimlevel origVelocity s).1 = Flow.next
      ∧ (loopBody cfg w actor swimlevel origVelocity s).2.velocity
          = ⟨s.velocity.x, s.velocity.y, 0⟩
      ∧ (loopBody cfg w actor swimlevel origVelocity s).2.velocity.z ≤ 0
      ∧ (loopBody cfg w actor swimlevel origVelocity s).2.log = s.log
      ∧ (loopBody cfg w actor swimlevel origVelocity s).2.newPosition = s.newPosition
      ∧ (loopBody cfg w actor swimlevel origVelocity s).2.remainingTime = s.remainingTime
      ∧ ¬ ((nextpos (loopBody cfg w actor swimlevel origVelocity s).2).z > swimlevel)
      ∧ ¬ swimRedirect actor swimlevel (loopBody cfg w actor swimlevel origVelocity s).2
      ∧ ∀ t : LoopState, t.newPosition.z < swimlevel →
          (w.doTrace t.newPosition (nextpos t)).mFraction ≥ 1 →
          (w.doTrace t.newPosition (nextpos t)).mEndPos = nextpos t →
          ¬ ((loopBody cfg w actor swimlevel origVelocity t).2.newPosition.z > swimlevel) := by
  have hr : swimRedirect actor swimlevel s := ⟨hfly, habove, hbelow⟩
  rw [loopBody_redirect cfg w actor swimlevel origVelocity s hr]
  have hnext : ∀ n : Nat,
      (nextpos { s with bodyRuns := n, velocity := ⟨s.velocity.x, s.velocity.y, 0⟩ }).z
        = s.newPosition.z := by
    intro n
    simp [nextpos, Vec3.add, Vec3.scale]
  refine ⟨rfl, rfl, le_refl _, rfl, rfl, rfl, ?_, ?_, ?_⟩
  · rw [hnext]
    exact not_lt.mpr (le_of_lt hbelow)
  · intro hcon
    have h2 := hcon.2.1
    rw [hnext] at h2
    exact absurd hbelow (not_lt.mpr (le_of_lt h2))
  · intro t ht hfr hend
    by_cases hrt : swimRedirect actor swimlevel t
    · rw [loopBody_redirect cfg w actor swimlevel origVelocity t hrt]
      exact not_lt.mpr (le_of_lt ht)
    · by_cases hd : (t.newPosition.sub (nextpos t)).length2 > 1 / 10000
      · rw [loopBody_unobstructed cfg w actor swimlevel origVelocity t hrt hd hfr]
        dsimp only
        rw [hend]
        intro hab
        exact hrt ⟨hfly, hab, ht⟩
      · rw [loopBody_degenerate cfg w actor swimlevel origVelocity t hrt hd]
        exact not_lt.mpr (le_of_lt ht)

/-- C6 at a concrete input: one unit below a swim level of zero and heading up at ten
units a second, the pass hands on the velocity `(3,4,0)` and makes no query. -/
theorem swim_boundary_redirect_witness :
    faller.mFlying = false ∧ surfacing.newPosition.z < 0 ∧ (nextpos surfacing).z > 0
      ∧ (loopBody sampleConfig openWorld faller 0 ⟨3, 4, 10⟩ surfacing).2.velocity = ⟨3, 4, 0⟩
      ∧ (loopBody sampleConfig openWorld faller 0 ⟨3, 4, 10⟩ surfacing).2.log = [] :=
  ⟨rfl, by norm_num [surfacing], by norm_num [surfacing, nextpos, Vec3.add, Vec3.scale],
    (swim_boundary_redirect sampleConfig openWorld faller 0 ⟨3, 4, 10⟩ surfacing rfl
      (by norm_num [surfacing])
      (by norm_num [surfacing, nextpos, Vec3.add, Vec3.scale])).2.1,
    (swim_boundary_redirect sampleConfig openWorld faller 0 ⟨3, 4, 10⟩ surfacing rfl
      (by norm_num [surfacing])
      (by norm_num [surfacing, nextpos, Vec3.add, Vec3.scale])).2.2.2.1⟩

/-! ## C10: an unobstructed cast ends the loop -/

/-- The scenario `faller`: the yaw-only rotation at yaw zero leaves the movement as it is,
and an airborne actor adds its (zero) inertia. -/
theorem faller_startMotion :
    startMotion sampleConfig sampleMath (toCentre (resetFrame faller)) calm
      = { velocity := ⟨0, 1, 0⟩, inertia := ⟨0, 0, 0⟩ } := by
  simp [startMotion, selectRegime, floatToSurface, applyStorm, swimLevel, toCentre, resetFrame,
    yawOnly, faller, sampleBody, sampleConfig, sampleMath, calm, Vec3.add, Vec3.scale,
    Vec3.cross]
  norm_num

/-- The scenario `faller`: the state in which its loop starts. -/
theorem faller_loopStart (time : ℚ) :
    loopStart (centred faller)
        (startMotion sampleConfig sampleMath (toCentre (resetFrame faller)) calm).velocity time
      = { iterations := 0, newPosition := ⟨0, 0, 160⟩, velocity := ⟨0, 1, 0⟩,
          remainingTime := time, log := [], bodyRuns := 0, broke := false } := by
  rw [faller_startMotion]
  simp [loopStart, centred_eq, faller, sampleBody]
  norm_num

/-- C10: in a pass of the loop body that is not redirected by the swim boundary, whose
candidate is farther than the distance epsilon from the current position and whose cast
reports `fraction == 1`, the loop is left in that pass with the resolved position equal to
the cast's end position, which is the candidate `newPosition + velocity * remainingTime`
whenever the cast ends at its target; one cast is made, from the current position to the
candidate.  When this happens in the first pass, the loop has run its body exactly once and
has made exactly one cast. -/
theorem unobstructed_cast_ends_loop (cfg : Config) (ext : Externals) (w : CollisionWorld)
    (actor : ActorFrameData) (time : ℚ) (worldData : WorldFrameData) :
    (∀ (a : ActorFrameData) (swimlevel : ℚ) (origVelocity : Vec3) (s : LoopState),
        ¬ swimRedirect a swimlevel s →
        (s.newPosition.sub (nextpos s)).length2 > 1 / 10000 →
        (w.doTrace s.newPosition (nextpos s)).mFraction = 1 →
        (loopBody cfg w a swimlevel origVelocity s).1 = Flow.exit
          ∧ (loopBody cfg w a swimlevel origVelocity s).2.newPosition
              = (w.doTrace s.newPosition (nextpos s)).mEndPos
          ∧ ((w.doTrace s.newPosition (nextpos s)).mEndPos = nextpos s →
              (loopBody cfg w a swimlevel origVelocity s).2.newPosition
                = s.newPosition.add (s.velocity.scale s.remainingTime))
          ∧ (loopBody cfg w a swimlevel origVelocity s).2.log
              = s.log ++ [Query.doTrace s.newPosition (nextpos s)]
          ∧ ∀ fuel, loopGuard cfg s →
              slideLoop cfg w a swimlevel origVelocity (fuel + 1) s
                = (loopBody cfg w a swimlevel origVelocity s).2)
      ∧ (0 < cfg.sMaxIterations → time > 1 / 100 →
          ¬ swimRedirect (centred actor) (swimLevel cfg (centred actor))
              (loopStart (centred actor)
                (startMotion cfg ext (toCentre (resetFrame actor)) worldData).velocity time) →
          ((loopStart (centred actor)
                (startMotion cfg ext (toCentre (resetFrame actor)) worldData).velocity
                time).newPosition.sub
              (nextpos (loopStart (centred actor)
                (startMotion cfg ext (toCentre (resetFrame actor)) worldData).velocity
                time))).length2 > 1 / 10000 →
          (w.doTrace (centred actor).mPosition
              (nextpos (loopStart (centred actor)
                (startMotion cfg ext (toCentre (resetFrame actor)) worldData).velocity
                time))).mFraction = 1 →
          (loopExit cfg ext w actor time worldData).bodyRuns = 1
            ∧ castCount (loopExit cfg ext w actor time worldData).log = 1
            ∧ (loopExit cfg ext w actor time worldData).log
                = [Query.doTrace (centred actor).mPosition
                    (nextpos (loopStart (centred actor)
                      (startMotion cfg ext (toCentre (resetFrame actor)) worldData).velocity
                      time))]
            ∧ (loopExit cfg ext w actor time worldData).newPosition
                = (w.doTrace (centred actor).mPosition
                    (nextpos (loopStart (centred actor)
                      (startMotion cfg ext (toCentre (resetFrame actor)) worldData).velocity
                      time))).mEndPos) := by
  constructor
  · intro a swimlevel origVelocity s hr hd hfr
    have hb := loopBody_unobstructed cfg w a swimlevel origVelocity s hr hd (le_of_eq hfr.symm)
    rw [hb]
    refine ⟨rfl, rfl, ?_, rfl, ?_⟩
    · intro he
      dsimp only
      rw [he]
      rfl
    · intro fuel hg
      exact slideLoop_exit _ _ _ _ _ _ _ _ hg hb
  · intro hmax ht hr hd hfr
    have hg : loopGuard cfg (loopStart (centred actor)
        (startMotion cfg ext (toCentre (resetFrame actor)) worldData).velocity time) :=
      ⟨hmax, ht⟩
    have hb := loopBody_unobstructed cfg w (centred actor) (swimLevel cfg (centred actor))
      (startMotion cfg ext (toCentre (resetFrame actor)) worldData).velocity _ hr hd
      (le_of_eq hfr.symm)
    obtain ⟨k, hk⟩ : ∃ k, cfg.sMaxIterations = k + 1 := ⟨cfg.sMaxIterations - 1, by omega⟩
    have he : loopExit cfg ext w actor time worldData
        = slideLoop cfg w (centred actor) (swimLevel cfg (centred actor))
            (startMotion cfg ext (toCentre (resetFrame actor)) worldData).velocity (k + 1)
            (loopStart (centred actor)
              (startMotion cfg ext (toCentre (resetFrame actor)) worldData).velocity time) := by
      unfold loopExit
      dsimp only
      rw [hk]
    rw [he, slideLoop_exit _ _ _ _ _ _ _ _ hg hb]
    refine ⟨rfl, ?_, rfl, rfl⟩
    simp [castCount, loopStart, Query.isDoTrace]

/-- C10 at a concrete input: the actor `faller` walking for one second in an open world
leaves the loop after one pass and one cast, at the candidate position. -/
theorem unobstructed_cast_ends_loop_witness :
    (loopExit sampleConfig sampleMath openWorld faller 1 calm).bodyRuns = 1
      ∧ castCount (loopExit sampleConfig sampleMath openWorld faller 1 calm).log = 1
      ∧ (loopExit sampleConfig sampleMath openWorld faller 1 calm).newPosition = ⟨0, 1, 160⟩ := by
  have h := (unobstructed_cast_ends_loop sampleConfig sampleMath openWorld faller 1 calm).2
    (by norm_num [sampleConfig]) (by norm_num)
    (by
      rw [faller_loopStart]
      simp [swimRedirect, nextpos, centred_eq, swimLevel, faller, sampleBody,
        sampleConfig, Vec3.add, Vec3.scale]
      norm_num)
    (by
      rw [faller_loopStart]
      simp [nextpos, Vec3.add, Vec3.sub, Vec3.scale, Vec3.length2]
      norm_num)
    rfl
  refine ⟨h.1, h.2.1, ?_⟩
  rw [h.2.2.2, faller_loopStart]
  simp [openWorld, nextpos, Vec3.add, Vec3.scale]

/-! ## C8 and C9: regime selection -/

theorem swimLevel_toCentre (cfg : Config) (a : ActorFrameData) :
    swimLevel cfg (toCentre (resetFrame a)) = swimLevel cfg a := rfl

/-- The free branch of regime selection (lines 118-121). -/
theorem selectRegime_free (ext : Externals) (a : ActorFrameData) (swimlevel : ℚ)
    (h : a.mPosition.z < swimlevel ∨ a.mFlying = true) :
    selectRegime ext a swimlevel
      = { velocity := ext.quatRotate (pitchYaw ext a.mRefpos) a.mMovement
          inertia := a.mActorRaw.inertialForce } := by
  unfold selectRegime
  dsimp only
  rw [if_pos h]

/-- The ground branch of regime selection (lines 122-131): the velocity is the yaw-rotated
movement, with or without the stored inertia added. -/
theorem selectRegime_ground (ext : Externals) (a : ActorFrameData) (swimlevel : ℚ)
    (h : ¬ (a.mPosition.z < swimlevel ∨ a.mFlying = true)) :
    (selectRegime ext a swimlevel).velocity
        = ext.quatRotate (yawOnly ext a.mRefpos) a.mMovement
      ∨ (selectRegime ext a swimlevel).velocity
        = (ext.quatRotate (yawOnly ext a.mRefpos) a.mMovement).add a.mActorRaw.inertialForce := by
  unfold selectRegime
  dsimp only
  rw [if_neg h]
  split_ifs
  · exact Or.inl rfl
  · exact Or.inr rfl
  · exact Or.inl rfl

/-- C8, refuted as stated: for the actor `swimmer`, mobile, colliding, not flying, in calm
weather, with its volume centre one unit below swim level, regime selection yields the
movement rotated by pitch and yaw, `(0, 7/25, -24/25)`, which is not the yaw-only rotation
of the movement, `(0, 1, 0)`. -/
theorem regime_below_swim_level_counterexample :
    swimmer.mActorRaw.isMobile = true ∧ swimmer.mActorRaw.collisionMode = true
      ∧ swimmer.mFlying = false ∧ calm.mIsInStorm = false
      ∧ swimmer.mPosition.z + swimmer.mActorRaw.halfExtents.z
          = swimLevel sampleConfig swimmer - 1
      ∧ (selectRegime sampleMath (toCentre (resetFrame swimmer))
            (swimLevel sampleConfig (toCentre (resetFrame swimmer)))).velocity
          = ⟨0, 7 / 25, -24 / 25⟩
      ∧ sampleMath.quatRotate (yawOnly sampleMath swimmer.mRefpos) swimmer.mMovement
          = ⟨0, 1, 0⟩
      ∧ (selectRegime sampleMath (toCentre (resetFrame swimmer))
            (swimLevel sampleConfig (toCentre (resetFrame swimmer)))).velocity
          ≠ sampleMath.quatRotate (yawOnly sampleMath swimmer.mRefpos) swimmer.mMovement := by
  have hl : swimmer.mPosition.z + swimmer.mActorRaw.halfExtents.z
      = swimLevel sampleConfig swimmer - 1 := by
    norm_num [swimmer, faller, sampleBody, swimLevel, sampleConfig]
  have hv : (selectRegime sampleMath (toCentre (resetFrame swimmer))
      (swimLevel sampleConfig (toCentre (resetFrame swimmer)))).velocity
        = ⟨0, 7 / 25, -24 / 25⟩ := by
    rw [selectRegime_free _ _ _ (Or.inl (by
      rw [swimLevel_toCentre]
      show swimmer.mPosition.z + swimmer.mActorRaw.halfExtents.z < _
      rw [hl]
      norm_num))]
    simp [pitchYaw, toCentre, resetFrame, swimmer, faller, sampleMath, Vec3.add, Vec3.scale,
      Vec3.cross]
    norm_num
  have hy : sampleMath.quatRotate (yawOnly sampleMath swimmer.mRefpos) swimmer.mMovement
      = ⟨0, 1, 0⟩ := by
    simp [yawOnly, swimmer, faller, sampleMath, Vec3.add, Vec3.scale, Vec3.cross]
  refine ⟨rfl, rfl, rfl, rfl, hl, hv, hy, ?_⟩
  rw [hv, hy]
  intro h
  have h2 := congrArg Vec3.z h
  norm_num at h2

/-- C8, amended: for an actor whose volume centre is one unit below swim level (mobile or
not, flying or not, storm or not), the regime selection of `move` computes the velocity
with the full pitch-and-yaw rotation of the movement vector and leaves the inertia as
stored; absent a storm and forced surfacing this is the velocity the loop starts with. -/
theorem regime_below_swim_level (cfg : Config) (ext : Externals) (actor : ActorFrameData)
    (worldData : WorldFrameData)
    (h : actor.mPosition.z + actor.mActorRaw.halfExtents.z = swimLevel cfg actor - 1) :
    selectRegime ext (toCentre (resetFrame actor)) (swimLevel cfg (toCentre (resetFrame actor)))
        = { velocity := ext.quatRotate (pitchYaw ext actor.mRefpos) actor.mMovement
            inertia := actor.mActorRaw.inertialForce }
      ∧ (worldData.mIsInStorm = false → actor.mFloatToSurface = false →
          (startMotion cfg ext (toCentre (resetFrame actor)) worldData).velocity
            = ext.quatRotate (pitchYaw ext actor.mRefpos) actor.mMovement) := by
  have hlt : (toCentre (resetFrame actor)).mPosition.z
      < swimLevel cfg (toCentre (resetFrame actor)) := by
    rw [swimLevel_toCentre]
    show actor.mPosition.z + actor.mActorRaw.halfExtents.z < _
    rw [h]
    linarith
  have hs := selectRegime_free ext (toCentre (resetFrame actor))
    (swimLevel cfg (toCentre (resetFrame actor))) (Or.inl hlt)
  refine ⟨hs, ?_⟩
  intro hstorm hfloat
  unfold startMotion
  dsimp only
  rw [hs]
  have hf : (toCentre (resetFrame actor)).mFloatToSurface = false := hfloat
  simp [applyStorm, floatToSurface, hstorm, hf]
  rfl

/-- C8 (amended) at a concrete input: the actor `swimmer`, one unit below swim level. -/
theorem regime_below_swim_level_witness :
    swimmer.mPosition.z + swimmer.mActorRaw.halfExtents.z = swimLevel sampleConfig swimmer - 1
      ∧ selectRegime sampleMath (toCentre (resetFrame swimmer))
          (swimLevel sampleConfig (toCentre (resetFrame swimmer)))
        = { velocity := sampleMath.quatRotate (pitchYaw sampleMath swimmer.mRefpos)
              swimmer.mMovement
            inertia := swimmer.mActorRaw.inertialForce } :=
  ⟨by norm_num [swimmer, faller, sampleBody, swimLevel, sampleConfig],
    (regime_below_swim_level sampleConfig sampleMath swimmer calm
      (by norm_num [swimmer, faller, sampleBody, swimLevel, sampleConfig])).1⟩

/-- C9: with the swim level `waterlevel + halfExtents.z - renderingHalfExtents.z * 2 *
fSwimHeightScale` and the position taken at the volume centre `anchor z + halfExtents.z`:
if the centre is strictly below swim level or the actor is flying, regime selection yields
the movement rotated by pitch and yaw as velocity and the stored inertia untouched; in
every other case the velocity is the movement rotated by yaw only, with or without the
stored inertia added.  The free branch is taken in no other case: regime selection yields
"pitch-and-yaw rotation of the movement, inertia untouched" for every choice of the
rotation functions if and only if the centre is below swim level or the actor is flying. -/
theorem regime_selection (cfg : Config) (ext : Externals) (actor : ActorFrameData) :
    ((actor.mPosition.z + actor.mActorRaw.halfExtents.z
          < actor.mWaterlevel + actor.mActorRaw.halfExtents.z
            - actor.mActorRaw.renderingHalfExtents.z * 2 * cfg.fSwimHeightScale
        ∨ actor.mFlying = true) →
        selectRegime ext (toCentre (resetFrame actor))
            (swimLevel cfg (toCentre (resetFrame actor)))
          = { velocity := ext.quatRotate (pitchYaw ext actor.mRefpos) actor.mMovement
              inertia := actor.mActorRaw.inertialForce })
      ∧ (¬ (actor.mPosition.z + actor.mActorRaw.halfExtents.z
            < actor.mWaterlevel + actor.mActorRaw.halfExtents.z
              - actor.mActorRaw.renderingHalfExtents.z * 2 * cfg.fSwimHeightScale
          ∨ actor.mFlying = true) →
        (selectRegime ext (toCentre (resetFrame actor))
              (swimLevel cfg (toCentre (resetFrame actor)))).velocity
            = ext.quatRotate (yawOnly ext actor.mRefpos) actor.mMovement
          ∨ (selectRegime ext (toCentre (resetFrame actor))
              (swimLevel cfg (toCentre (resetFrame actor)))).velocity
            = (ext.quatRotate (yawOnly ext actor.mRefpos) actor.mMovement).add
                actor.mActorRaw.inertialForce)
      ∧ ((∀ ext2 : Externals,
            selectRegime ext2 (toCentre (resetFrame actor))
                (swimLevel cfg (toCentre (resetFrame actor)))
              = { velocity := ext2.quatRotate (pitchYaw ext2 actor.mRefpos) actor.mMovement
                  inertia := actor.mActorRaw.inertialForce })
          ↔ (actor.mPosition.z + actor.mActorRaw.halfExtents.z
                < actor.mWaterlevel + actor.mActorRaw.halfExtents.z
                  - actor.mActorRaw.renderingHalfExtents.z * 2 * cfg.fSwimHeightScale
              ∨ actor.mFlying = true)) := by
  have hA : ∀ ext2 : Externals,
      (actor.mPosition.z + actor.mActorRaw.halfExtents.z
          < actor.mWaterlevel + actor.mActorRaw.halfExtents.z
            - actor.mActorRaw.renderingHalfExtents.z * 2 * cfg.fSwimHeightScale
        ∨ actor.mFlying = true) →
      selectRegime ext2 (toCentre (resetFrame actor))
          (swimLevel cfg (toCentre (resetFrame actor)))
        = { velocity := ext2.quatRotate (pitchYaw ext2 actor.mRefpos) actor.mMovement
            inertia := actor.mActorRaw.inertialForce } :=
    fun ext2 h => selectRegime_free ext2 (toCentre (resetFrame actor)) _ h
  have hB : ∀ ext2 : Externals,
      ¬ (actor.mPosition.z + actor.mActorRaw.halfExtents.z
          < actor.mWaterlevel + actor.mActorRaw.halfExtents.z
            - actor.mActorRaw.renderingHalfExtents.z * 2 * cfg.fSwimHeightScale
        ∨ actor.mFlying = true) →
      (selectRegime ext2 (toCentre (resetFrame actor))
            (swimLevel cfg (toCentre (resetFrame actor)))).velocity
          = ext2.quatRotate (yawOnly ext2 actor.mRefpos) actor.mMovement
        ∨ (selectRegime ext2 (toCentre (resetFrame actor))
            (swimLevel cfg (toCentre (resetFrame actor)))).velocity
          = (ext2.quatRotate (yawOnly ext2 actor.mRefpos) actor.mMovement).add
              actor.mActorRaw.inertialForce :=
    fun ext2 h => selectRegime_ground ext2 (toCentre (resetFrame actor)) _ h
  refine ⟨hA ext, hB ext, ⟨?_, fun h ext2 => hA ext2 h⟩⟩
  intro hall
  by_contra hn
  have h1 := hall (splitMath (|actor.mActorRaw.inertialForce.x| + 1))
  have h2 := hB (splitMath (|actor.mActorRaw.inertialForce.x| + 1)) hn
  rw [h1] at h2
  have hpos : (0 : ℚ) < |actor.mActorRaw.inertialForce.x| + 1 := by positivity
  have hle : actor.mActorRaw.inertialForce.x ≤ |actor.mActorRaw.inertialForce.x| := le_abs_self _
  rcases h2 with h2 | h2
  · have h3 := congrArg Vec3.x h2
    simp [splitMath, pitchYaw, yawOnly] at h3
    linarith
  · have h3 := congrArg Vec3.x h2
    simp [splitMath, pitchYaw, yawOnly, Vec3.add] at h3
    linarith

/-- C9 at a concrete input: the actor `swimmer` has its centre below swim level and gets
the movement rotated by pitch and yaw. -/
theorem regime_selection_witness :
    (swimmer.mPosition.z + swimmer.mActorRaw.halfExtents.z
          < swimmer.mWaterlevel + swimmer.mActorRaw.halfExtents.z
            - swimmer.mActorRaw.renderingHalfExtents.z * 2 * sampleConfig.fSwimHeightScale
        ∨ swimmer.mFlying = true)
      ∧ selectRegime sampleMath (toCentre (resetFrame swimmer))
          (swimLevel sampleConfig (toCentre (resetFrame swimmer)))
        = { velocity := sampleMath.quatRotate (pitchYaw sampleMath swimmer.mRefpos)
              swimmer.mMovement
            inertia := swimmer.mActorRaw.inertialForce } :=
  ⟨Or.inl (by norm_num [swimmer, faller, sampleBody, sampleConfig]),
    (regime_selection sampleConfig sampleMath swimmer).1
      (Or.inl (by norm_num [swimmer, faller, sampleBody, sampleConfig]))⟩

/-! ## C7: gravity integration in free fall -/

/-- When the first pass of the loop body ends in a `break`, the loop is left in the state
that pass produced. -/
theorem loopExit_of_exit (cfg : Config) (ext : Externals) (w : CollisionWorld)
    (actor : ActorFrameData) (time : ℚ) (worldData : WorldFrameData) (s1 : LoopState)
    (hmax : 0 < cfg.sMaxIterations) (ht : time > 1 / 100)
    (hb : loopBody cfg w (centred actor) (swimLevel cfg (centred actor))
        (startMotion cfg ext (toCentre (resetFrame actor)) worldData).velocity
        (loopStart (centred actor)
          (startMotion cfg ext (toCentre (resetFrame actor)) worldData).velocity time)
      = (Flow.exit, s1)) :
    loopExit cfg ext w actor time worldData = s1 := by
  obtain ⟨k, hk⟩ : ∃ k, cfg.sMaxIterations = k + 1 := ⟨cfg.sMaxIterations - 1, by omega⟩
  unfold loopExit
  dsimp only
  rw [hk]
  exact slideLoop_exit _ _ _ _ _ _ _ _ ⟨hmax, ht⟩ hb

/-- An actor that was neither on the ground nor on a slope keeps its stored inertia
through regime selection. -/
theorem startMotion_inertia_airborne (cfg : Config) (ext : Externals) (actor : ActorFrameData)
    (worldData : WorldFrameData) (hg : actor.mActorRaw.onGround = false)
    (hs : actor.mActorRaw.onSlope = false) :
    (startMotion cfg ext (toCentre (resetFrame actor)) worldData).inertia
      = actor.mActorRaw.inertialForce := by
  have hg2 : (toCentre (resetFrame actor)).mActorRaw.onGround = false := hg
  have hs2 : (toCentre (resetFrame actor)).mActorRaw.onSlope = false := hs
  unfold startMotion selectRegime
  dsimp only
  split_ifs with h1 h2 h3
  · rfl
  · rw [hg2, hs2] at h2
    simp at h2
  · rfl
  · rfl

/-- One tick of free fall: the whole frame data after the call. -/
theorem move_freeFall (cfg : Config) (ext : Externals) (w : CollisionWorld) (time : ℚ)
    (worldData : WorldFrameData) (actor : ActorFrameData)
    (h : FreeFall cfg ext w time worldData actor) :
    (move cfg ext w actor time worldData).actor
      = { actor with
          mActorRaw := { actor.mActorRaw with
            walkingOnWater := false
            onGround := false
            onSlope := false
            inertialForce :=
              ⟨actor.mActorRaw.inertialForce.x, actor.mActorRaw.inertialForce.y,
                actor.mActorRaw.inertialForce.z - time * cfg.GravityConst * cfg.UnitsPerMeter⟩ }
          mPosition :=
            { (loopExit cfg ext w actor time worldData).newPosition with
              z := (loopExit cfg ext w actor time worldData).newPosition.z
                - actor.mActorRaw.halfExtents.z }
          mDidJump := actor.mDidJump || actor.mWantJump } := by
  obtain ⟨hm, hc, hfly, hsf, hog, hos, _, _, hswim, hprobe⟩ := h
  have hin := startMotion_inertia_airborne cfg ext actor worldData hog hos
  have hcf : (centred actor).mFlying = false := by rw [centred_eq]; exact hfly
  have hcs : (centred actor).mSlowFall = 1 := by rw [centred_eq]; exact hsf
  have hgrav : ∀ g : GroundState, g.isOnGround = false →
      g.newPosition = (loopExit cfg ext w actor time worldData).newPosition →
      g.inertia = actor.mActorRaw.inertialForce →
      integrateGravity cfg (centred actor) time (swimLevel cfg actor) g
        = ⟨actor.mActorRaw.inertialForce.x, actor.mActorRaw.inertialForce.y,
            actor.mActorRaw.inertialForce.z - time * cfg.GravityConst * cfg.UnitsPerMeter⟩ := by
    intro g h1 h2 h3
    unfold integrateGravity
    rw [if_neg (by rw [h1, h2, hcf]; simp [hswim])]
    simp [h3, hcs]
  rw [move_of_collision _ _ _ _ _ _ hm hc]
  dsimp only
  have hgs : groundState cfg ext w actor time worldData
      = resolveGround cfg ext w (centred actor) (swimLevel cfg actor)
          actor.mActorRaw.inertialForce
          (loopExit cfg ext w actor time worldData).velocity
          (loopExit cfg ext w actor time worldData).newPosition
          (loopExit cfg ext w actor time worldData).log := by
    unfold groundState
    dsimp only
    rw [hin, swimLevel_centred]
  by_cases hp : probeIssued (swimLevel cfg actor) actor.mActorRaw.inertialForce
      (loopExit cfg ext w actor time worldData).newPosition
  · have hfr := hprobe hp
    have hh : ¬ hitsGround (groundProbe cfg w (centred actor)
        (loopExit cfg ext w actor time worldData).newPosition) := by
      intro hh
      exact absurd hh.1 (not_lt.mpr hfr)
    have hpa : pushAway ext (centred actor)
        (groundProbe cfg w (centred actor) (loopExit cfg ext w actor time worldData).newPosition)
        (loopExit cfg ext w actor time worldData).velocity actor.mActorRaw.inertialForce
          = actor.mActorRaw.inertialForce := by
      unfold pushAway
      rw [if_neg (fun hcon => absurd hcon.1 (not_lt.mpr hfr))]
    rw [hgs, resolveGround_miss _ _ _ _ _ _ _ _ _ hp hh, hpa]
    unfold commit
    dsimp only
    rw [hgrav _ rfl rfl rfl, centred_eq]
  · rw [hgs, resolveGround_skip _ _ _ _ _ _ _ _ _ hp]
    unfold commit
    dsimp only
    rw [hgrav _ rfl rfl rfl, centred_eq]

/-- The scenario `dropper`: it starts its loop at rest. -/
theorem dropper_startMotion :
    startMotion sampleConfig sampleMath (toCentre (resetFrame dropper)) calm
      = { velocity := ⟨0, 0, 0⟩, inertia := ⟨0, 0, 0⟩ } := by
  simp [startMotion, selectRegime, floatToSurface, applyStorm, swimLevel, toCentre, resetFrame,
    yawOnly, dropper, faller, sampleBody, sampleConfig, sampleMath, calm, Vec3.add, Vec3.scale,
    Vec3.cross]

/-- The scenario `dropper`: the first pass finds nowhere to go and the loop is left with
the position unchanged. -/
theorem dropper_loopExit :
    (loopExit sampleConfig sampleMath openWorld dropper (1 / 10) calm).newPosition
      = ⟨0, 0, 160⟩ := by
  have hb := loopBody_degenerate sampleConfig openWorld (centred dropper)
    (swimLevel sampleConfig (centred dropper))
    (startMotion sampleConfig sampleMath (toCentre (resetFrame dropper)) calm).velocity
    (loopStart (centred dropper)
      (startMotion sampleConfig sampleMath (toCentre (resetFrame dropper)) calm).velocity
      (1 / 10))
    (by
      rw [dropper_startMotion]
      simp [swimRedirect, nextpos, loopStart, centred_eq, swimLevel, dropper, faller,
        sampleBody, sampleConfig, Vec3.add, Vec3.scale]
      norm_num)
    (by
      rw [dropper_startMotion]
      simp [nextpos, loopStart, Vec3.add, Vec3.sub, Vec3.scale, Vec3.length2])
  rw [loopExit_of_exit _ _ _ _ _ _ _ (by norm_num [sampleConfig]) (by norm_num) hb]
  simp [loopStart, centred_eq, dropper, faller, sampleBody]
  norm_num

/-- The scenario `dropper` meets the conditions of free fall. -/
theorem dropper_freeFall :
    FreeFall sampleConfig sampleMath openWorld (1 / 10) calm dropper := by
  refine ⟨rfl, rfl, rfl, rfl, rfl, rfl, rfl, rfl, ?_, ?_⟩
  · rw [dropper_loopExit]
    norm_num [swimLevel, dropper, faller, sampleBody, sampleConfig]
  · intro _
    exact le_refl _

/-- The scenario `dropper` after its first tick. -/
theorem dropper_tick :
    (move sampleConfig sampleMath openWorld dropper (1 / 10) calm).actor = dropper1 := by
  rw [move_freeFall _ _ _ _ _ _ dropper_freeFall, dropper_loopExit]
  simp [dropper1, dropper, faller, sampleBody, sampleConfig]
  norm_num

/-- The scenario `dropper1`: it starts its loop falling. -/
theorem dropper1_startMotion :
    startMotion sampleConfig sampleMath (toCentre (resetFrame dropper1)) calm
      = { velocity := ⟨0, 0, -(1 / 10 * (224 / 25) * (6999125109 / 100000000))⟩
          inertia := ⟨0, 0, -(1 / 10 * (224 / 25) * (6999125109 / 100000000))⟩ } := by
  simp [startMotion, selectRegime, floatToSurface, applyStorm, swimLevel, toCentre, resetFrame,
    yawOnly, dropper1, dropper, faller, sampleBody, sampleConfig, sampleMath, calm, Vec3.add,
    Vec3.scale, Vec3.cross]
  norm_num

/-- The scenario `dropper1`: its cast is unobstructed and the loop is left at the
candidate, still far above swim level. -/
theorem dropper1_loopExit :
    (loopExit sampleConfig sampleMath openWorld dropper1 (1 / 10) calm).newPosition.z
      = 160 - 1 / 10 * (1 / 10 * (224 / 25) * (6999125109 / 100000000)) := by
  have hb := loopBody_unobstructed sampleConfig openWorld (centred dropper1)
    (swimLevel sampleConfig (centred dropper1))
    (startMotion sampleConfig sampleMath (toCentre (resetFrame dropper1)) calm).velocity
    (loopStart (centred dropper1)
      (startMotion sampleConfig sampleMath (toCentre (resetFrame dropper1)) calm).velocity
      (1 / 10))
    (by
      rw [dropper1_startMotion]
      simp [swimRedirect, nextpos, loopStart, centred_eq, swimLevel, dropper1, dropper, faller,
        sampleBody, sampleConfig, Vec3.add, Vec3.scale]
      norm_num)
    (by
      rw [dropper1_startMotion]
      simp [nextpos, loopStart, Vec3.add, Vec3.sub, Vec3.scale, Vec3.length2]
      norm_num)
    (le_refl _)
  rw [loopExit_of_exit _ _ _ _ _ _ _ (by norm_num [sampleConfig]) (by norm_num) hb,
    dropper1_startMotion]
  simp [openWorld, nextpos, loopStart, centred_eq, dropper1, dropper, faller, sampleBody,
    Vec3.add, Vec3.scale]
  norm_num

/-- The scenario `dropper1` meets the conditions of free fall. -/
theorem dropper1_freeFall :
    FreeFall sampleConfig sampleMath openWorld (1 / 10) calm dropper1 := by
  refine ⟨rfl, rfl, rfl, rfl, rfl, rfl, rfl, rfl, ?_, ?_⟩
  · rw [dropper1_loopExit]
    norm_num [swimLevel, dropper1, dropper, faller, sampleBody, sampleConfig]
  · intro _
    exact le_refl _

/-- C7, refuted as stated: the actor `dropper` is in free fall (mobile, colliding, not
flying, `slowFall == 1`, airborne, off any slope, no movement input, far above water,
nothing under it); after a tick of a tenth of a second its vertical inertia is not the
previous value minus `GravityConst * t`: line 289 subtracts
`t * GravityConst * UnitsPerMeter`. -/
theorem gravity_integration_counterexample :
    FreeFall sampleConfig sampleMath openWorld (1 / 10) calm dropper
      ∧ (0 : ℚ) < 1 / 10
      ∧ (move sampleConfig sampleMath openWorld dropper (1 / 10) calm).actor.mActorRaw.inertialForce.z
          ≠ dropper.mActorRaw.inertialForce.z - sampleConfig.GravityConst * (1 / 10) := by
  refine ⟨dropper_freeFall, by norm_num, ?_⟩
  rw [move_freeFall _ _ _ _ _ _ dropper_freeFall]
  norm_num [dropper, faller, sampleBody, sampleConfig]

/-- C7, amended: over `n` consecutive ticks of length `t`, each of them a tick of free
fall (mobile, collision enabled, not flying, `slowFall == 1`, not on the ground, not on a
slope, no horizontal movement input, not below swim level after the loop, ground probe
unobstructed), the vertical component of the inertial force committed after each tick is
the previous tick's value minus `t * GravityConst * UnitsPerMeter`; after `n` ticks it is
the initial value minus `n` times that amount; and it strictly decreases at every tick as
soon as `t * GravityConst * UnitsPerMeter` is positive. -/
theorem gravity_integration (cfg : Config) (ext : Externals) (w : CollisionWorld) (time : ℚ)
    (worldData : WorldFrameData) (actor : ActorFrameData) (n : Nat)
    (h : ∀ k, k < n →
      FreeFall cfg ext w time worldData (moveTicks cfg ext w time worldData k actor)) :
    (∀ k, k < n →
        (moveTicks cfg ext w time worldData (k + 1) actor).mActorRaw.inertialForce.z
          = (moveTicks cfg ext w time worldData k actor).mActorRaw.inertialForce.z
            - time * cfg.GravityConst * cfg.UnitsPerMeter)
      ∧ (moveTicks cfg ext w time worldData n actor).mActorRaw.inertialForce.z
          = actor.mActorRaw.inertialForce.z
            - n * (time * cfg.GravityConst * cfg.UnitsPerMeter)
      ∧ (0 < time * cfg.GravityConst * cfg.UnitsPerMeter → ∀ k, k < n →
          (moveTicks cfg ext w time worldData (k + 1) actor).mActorRaw.inertialForce.z
            < (moveTicks cfg ext w time worldData k actor).mActorRaw.inertialForce.z) := by
  have hstep : ∀ k, k < n →
      (moveTicks cfg ext w time worldData (k + 1) actor).mActorRaw.inertialForce.z
        = (moveTicks cfg ext w time worldData k actor).mActorRaw.inertialForce.z
          - time * cfg.GravityConst * cfg.UnitsPerMeter := by
    intro k hk
    show (move cfg ext w (moveTicks cfg ext w time worldData k actor) time
      worldData).actor.mActorRaw.inertialForce.z = _
    rw [move_freeFall _ _ _ _ _ _ (h k hk)]
  have hsum : ∀ m, m ≤ n →
      (moveTicks cfg ext w time worldData m actor).mActorRaw.inertialForce.z
        = actor.mActorRaw.inertialForce.z
          - m * (time * cfg.GravityConst * cfg.UnitsPerMeter) := by
    intro m
    induction m with
    | zero =>
      intro _
      simp [moveTicks]
    | succ j ih =>
      intro hj
      rw [hstep j (by omega), ih (by omega)]
      push_cast
      ring
  refine ⟨hstep, hsum n (le_refl n), ?_⟩
  intro hpos k hk
  rw [hstep k hk]
  linarith

/-- C7 (amended) at a concrete input: two consecutive ticks of a tenth of a second for the
actor `dropper` in an open world. -/
theorem gravity_integration_witness :
    FreeFall sampleConfig sampleMath openWorld (1 / 10) calm
        (moveTicks sampleConfig sampleMath openWorld (1 / 10) calm 0 dropper)
      ∧ FreeFall sampleConfig sampleMath openWorld (1 / 10) calm
        (moveTicks sampleConfig sampleMath openWorld (1 / 10) calm 1 dropper)
      ∧ (moveTicks sampleConfig sampleMath openWorld (1 / 10) calm 2
            dropper).mActorRaw.inertialForce.z
          = dropper.mActorRaw.inertialForce.z
            - (2 : ℕ) * (1 / 10 * sampleConfig.GravityConst * sampleConfig.UnitsPerMeter) := by
  have h : ∀ k, k < 2 → FreeFall sampleConfig sampleMath openWorld (1 / 10) calm
      (moveTicks sampleConfig sampleMath openWorld (1 / 10) calm k dropper) := by
    intro k hk
    interval_cases k
    · exact dropper_freeFall
    · show FreeFall _ _ _ _ _ (move sampleConfig sampleMath openWorld dropper (1 / 10) calm).actor
      rw [dropper_tick]
      exact dropper1_freeFall
  exact ⟨h 0 (by norm_num), h 1 (by norm_num),
    (gravity_integration sampleConfig sampleMath openWorld (1 / 10) calm dropper 2 h).2.1⟩

/-! ## C12: actors with collision disabled -/

/-- C12: for a mobile actor with collision disabled, `move` sets the position to the
position plus the pitch-and-yaw rotation of the movement times the elapsed time and
returns; no query is sent to the backend; the inertial force, on-ground, on-slope,
`standingOn` and `didJump` are unchanged (the only other change is the reset of
walking-on-water of line 91); and neither the constants, nor the collision world, nor the
storm data have any influence on the result, so the swim, storm, gravity and ground-probe
steps are not applied. -/
theorem move_without_collision (cfg : Config) (ext : Externals) (w : CollisionWorld)
    (actor : ActorFrameData) (time : ℚ) (worldData : WorldFrameData)
    (hm : actor.mActorRaw.isMobile = true) (hc : actor.mActorRaw.collisionMode = false) :
    (move cfg ext w actor time worldData).actor.mPosition
        = actor.mPosition.add
            ((ext.quatRotate (pitchYaw ext actor.mRefpos) actor.mMovement).scale time)
      ∧ (move cfg ext w actor time worldData).log = []
      ∧ (move cfg ext w actor time worldData).actor.mActorRaw.inertialForce
          = actor.mActorRaw.inertialForce
      ∧ (move cfg ext w actor time worldData).actor.mActorRaw.onGround = actor.mActorRaw.onGround
      ∧ (move cfg ext w actor time worldData).actor.mActorRaw.onSlope = actor.mActorRaw.onSlope
      ∧ (move cfg ext w actor time worldData).actor.mStandingOn = actor.mStandingOn
      ∧ (move cfg ext w actor time worldData).actor.mDidJump = actor.mDidJump
      ∧ (move cfg ext w actor time worldData).actor
          = { actor with
              mActorRaw := { actor.mActorRaw with walkingOnWater := false }
              mPosition := actor.mPosition.add
                ((ext.quatRotate (pitchYaw ext actor.mRefpos) actor.mMovement).scale time) }
      ∧ ∀ (cfg2 : Config) (w2 : CollisionWorld) (worldData2 : WorldFrameData),
          move cfg2 ext w2 actor time worldData2 = move cfg ext w actor time worldData := by
  have h : ∀ (c : Config) (v : CollisionWorld) (d : WorldFrameData),
      move c ext v actor time d
        = { actor := moveNoCollision ext (resetFrame actor) time, log := [] } :=
    fun c v d => move_of_noCollision c ext v actor time d hm hc
  rw [h cfg w worldData]
  refine ⟨rfl, rfl, rfl, rfl, rfl, rfl, rfl, rfl, ?_⟩
  intro cfg2 w2 worldData2
  exact h cfg2 w2 worldData2

/-- C12 at a concrete input: the actor `drifter`, pitched level and walking forward for
two seconds, ends two units further along y, and no query is made. -/
theorem move_without_collision_witness :
    drifter.mActorRaw.isMobile = true ∧ drifter.mActorRaw.collisionMode = false
      ∧ (move sampleConfig sampleMath openWorld drifter 2 calm).actor.mPosition
          = drifter.mPosition.add
              ((sampleMath.quatRotate (pitchYaw sampleMath drifter.mRefpos)
                drifter.mMovement).scale 2)
      ∧ (move sampleConfig sampleMath openWorld drifter 2 calm).log = [] :=
  ⟨rfl, rfl,
    (move_without_collision sampleConfig sampleMath openWorld drifter 2 calm rfl rfl).1,
    (move_without_collision sampleConfig sampleMath openWorld drifter 2 calm rfl rfl).2.1⟩

/-! ## C15 and C16: the ground probe `traceDown` -/

/-- The distance tested on line 65, `(hit - mEndPos + offset).length2()`, is the squared
distance between the ray's hit point and the shape cast's end position minus the offset. -/
theorem length2_sub_add (a b c : Vec3) :
    ((a.sub b).add c).length2 = (a.sub (b.sub c)).length2 := by
  simp only [Vec3.length2, Vec3.add, Vec3.sub]
  ring

/-- C15: for every candidate position, actor and `maxHeight`, if the downward shape cast
of `traceDown` is unobstructed (`mFraction >= 1`), the actor is marked not on ground and is
otherwise untouched, the only query made is the shape cast (no ray cast), and the value
returned is exactly the input position. -/
theorem traceDown_unobstructed (cfg : Config) (ext : Externals) (w : CollisionWorld)
    (ptrPosition position : Vec3) (actor : Actor) (maxHeight : ℚ)
    (h : (w.findGround (position.add (actor.collisionObjectPosition.sub ptrPosition))
          ((position.add (actor.collisionObjectPosition.sub ptrPosition)).sub
            ⟨0, 0, maxHeight⟩)).mFraction ≥ 1) :
    (traceDown cfg ext w ptrPosition position actor maxHeight).position = position
      ∧ (traceDown cfg ext w ptrPosition position actor maxHeight).actor.onGround = false
      ∧ (traceDown cfg ext w ptrPosition position actor maxHeight).actor
          = { actor with onGround := false }
      ∧ (traceDown cfg ext w ptrPosition position actor maxHeight).log
          = [Query.findGround (position.add (actor.collisionObjectPosition.sub ptrPosition))
              ((position.add (actor.collisionObjectPosition.sub ptrPosition)).sub
                ⟨0, 0, maxHeight⟩)]
      ∧ ∀ a b, Query.rayTest a b
          ∉ (traceDown cfg ext w ptrPosition position actor maxHeight).log := by
  unfold traceDown
  dsimp only
  rw [if_pos h]
  refine ⟨rfl, rfl, rfl, rfl, ?_⟩
  intro a b
  simp

/-- C15 at a concrete input: nothing under a spawn point in the open world. -/
theorem traceDown_unobstructed_witness :
    (openWorld.findGround
          ((Vec3.mk 0 0 100).add (sampleBody.collisionObjectPosition.sub ⟨0, 0, 100⟩))
          (((Vec3.mk 0 0 100).add (sampleBody.collisionObjectPosition.sub ⟨0, 0, 100⟩)).sub
            ⟨0, 0, 200⟩)).mFraction ≥ 1
      ∧ (traceDown sampleConfig sampleMath openWorld ⟨0, 0, 100⟩ ⟨0, 0, 100⟩ sampleBody
          200).position = ⟨0, 0, 100⟩
      ∧ (traceDown sampleConfig sampleMath openWorld ⟨0, 0, 100⟩ ⟨0, 0, 100⟩ sampleBody
          200).actor.onGround = false :=
  ⟨le_refl _,
    (traceDown_unobstructed sampleConfig sampleMath openWorld ⟨0, 0, 100⟩ ⟨0, 0, 100⟩
      sampleBody 200 (le_refl _)).1,
    (traceDown_unobstructed sampleConfig sampleMath openWorld ⟨0, 0, 100⟩ ⟨0, 0, 100⟩
      sampleBody 200 (le_refl _)).2.1⟩

/-- C16: when the downward shape cast of `traceDown` is obstructed (`mFraction < 1`), the
actor is marked on ground and a thin ray is cast down the same span from the input
position.  If the ray hit something and either the squared distance between the ray's hit
point and the shape cast's resting position (end position minus the collision offset)
exceeds 35 squared, or the shape cast's surface normal is not walkable, the result is the
ray's hit point raised by the ground clearance and on-slope is the negation of
`isWalkableSlope` of the ray's normal; otherwise the result is the shape cast's resting
position raised by the ground clearance and on-slope is the negation of `isWalkableSlope`
of the shape cast's normal. -/
theorem traceDown_obstructed (cfg : Config) (ext : Externals) (w : CollisionWorld)
    (ptrPosition position : Vec3) (actor : Actor) (maxHeight : ℚ)
    (h : (w.findGround (position.add (actor.collisionObjectPosition.sub ptrPosition))
          ((position.add (actor.collisionObjectPosition.sub ptrPosition)).sub
            ⟨0, 0, maxHeight⟩)).mFraction < 1) :
    (traceDown cfg ext w ptrPosition position actor maxHeight).actor.onGround = true
      ∧ (traceDown cfg ext w ptrPosition position actor maxHeight).log
          = [Query.findGround (position.add (actor.collisionObjectPosition.sub ptrPosition))
              ((position.add (actor.collisionObjectPosition.sub ptrPosition)).sub
                ⟨0, 0, maxHeight⟩),
             Query.rayTest position (position.sub ⟨0, 0, maxHeight⟩)]
      ∧ (((w.rayTest position (position.sub ⟨0, 0, maxHeight⟩)).hasHit = true
            ∧ ((((w.rayTest position (position.sub ⟨0, 0, maxHeight⟩)).m_hitPointWorld.sub
                    ((w.findGround (position.add (actor.collisionObjectPosition.sub ptrPosition))
                      ((position.add (actor.collisionObjectPosition.sub ptrPosition)).sub
                        ⟨0, 0, maxHeight⟩)).mEndPos.sub
                      (actor.collisionObjectPosition.sub ptrPosition))).length2 > 35 * 35)
              ∨ isWalkableSlope cfg ext
                  (w.findGround (position.add (actor.collisionObjectPosition.sub ptrPosition))
                    ((position.add (actor.collisionObjectPosition.sub ptrPosition)).sub
                      ⟨0, 0, maxHeight⟩)).mPlaneNormal = false)) →
          (traceDown cfg ext w ptrPosition position actor maxHeight).position
              = (w.rayTest position (position.sub ⟨0, 0, maxHeight⟩)).m_hitPointWorld.add
                  ⟨0, 0, cfg.sGroundOffset⟩
            ∧ (traceDown cfg ext w ptrPosition position actor maxHeight).actor.onSlope
              = !isWalkableSlope cfg ext
                  (w.rayTest position (position.sub ⟨0, 0, maxHeight⟩)).m_hitNormalWorld)
      ∧ (¬ ((w.rayTest position (position.sub ⟨0, 0, maxHeight⟩)).hasHit = true
            ∧ ((((w.rayTest position (position.sub ⟨0, 0, maxHeight⟩)).m_hitPointWorld.sub
                    ((w.findGround (position.add (actor.collisionObjectPosition.sub ptrPosition))
                      ((position.add (actor.collisionObjectPosition.sub ptrPosition)).sub
                        ⟨0, 0, maxHeight⟩)).mEndPos.sub
                      (actor.collisionObjectPosition.sub ptrPosition))).length2 > 35 * 35)
              ∨ isWalkableSlope cfg ext
                  (w.findGround (position.add (actor.collisionObjectPosition.sub ptrPosition))
                    ((position.add (actor.collisionObjectPosition.sub ptrPosition)).sub
                      ⟨0, 0, maxHeight⟩)).mPlaneNormal = false)) →
          (traceDown cfg ext w ptrPosition position actor maxHeight).position
              = ((w.findGround (position.add (actor.collisionObjectPosition.sub ptrPosition))
                    ((position.add (actor.collisionObjectPosition.sub ptrPosition)).sub
                      ⟨0, 0, maxHeight⟩)).mEndPos.sub
                  (actor.collisionObjectPosition.sub ptrPosition)).add
                  ⟨0, 0, cfg.sGroundOffset⟩
            ∧ (traceDown cfg ext w ptrPosition position actor maxHeight).actor.onSlope
              = !isWalkableSlope cfg ext
                  (w.findGround (position.add (actor.collisionObjectPosition.sub ptrPosition))
                    ((position.add (actor.collisionObjectPosition.sub ptrPosition)).sub
                      ⟨0, 0, maxHeight⟩)).mPlaneNormal) := by
  have hn : ¬ (w.findGround (position.add (actor.collisionObjectPosition.sub ptrPosition))
      ((position.add (actor.collisionObjectPosition.sub ptrPosition)).sub
        ⟨0, 0, maxHeight⟩)).mFraction ≥ 1 := not_le.mpr h
  unfold traceDown
  dsimp only
  rw [if_neg hn]
  simp only [length2_sub_add]
  refine ⟨?_, ?_, ?_, ?_⟩
  · split_ifs <;> rfl
  · split_ifs <;> rfl
  · intro hc
    rw [if_pos hc]
    exact ⟨rfl, rfl⟩
  · intro hc
    rw [if_neg hc]
    exact ⟨rfl, rfl⟩

/-- C16 at a concrete input: the shape cast rests at height 90, the ray hits forty units
lower, at height 50; forty squared exceeds 35 squared, so the ray's hit point is taken and
the result is `(0, 0, 51)`. -/
theorem traceDown_obstructed_witness :
    (spawnWorld.findGround
          ((Vec3.mk 0 0 100).add (sampleBody.collisionObjectPosition.sub ⟨0, 0, 100⟩))
          (((Vec3.mk 0 0 100).add (sampleBody.collisionObjectPosition.sub ⟨0, 0, 100⟩)).sub
            ⟨0, 0, 200⟩)).mFraction < 1
      ∧ (traceDown sampleConfig sampleMath spawnWorld ⟨0, 0, 100⟩ ⟨0, 0, 100⟩ sampleBody
          200).actor.onGround = true
      ∧ (traceDown sampleConfig sampleMath spawnWorld ⟨0, 0, 100⟩ ⟨0, 0, 100⟩ sampleBody
          200).position = ⟨0, 0, 51⟩ := by
  have hf : (spawnWorld.findGround
      ((Vec3.mk 0 0 100).add (sampleBody.collisionObjectPosition.sub ⟨0, 0, 100⟩))
      (((Vec3.mk 0 0 100).add (sampleBody.collisionObjectPosition.sub ⟨0, 0, 100⟩)).sub
        ⟨0, 0, 200⟩)).mFraction < 1 := by
    norm_num [spawnWorld]
  have h := traceDown_obstructed sampleConfig sampleMath spawnWorld ⟨0, 0, 100⟩ ⟨0, 0, 100⟩
    sampleBody 200 hf
  refine ⟨hf, h.1, ?_⟩
  rw [(h.2.2.1 ⟨rfl, Or.inl (by
    norm_num [spawnWorld, openWorld, sampleBody, Vec3.add, Vec3.sub, Vec3.length2])⟩).1]
  norm_num [spawnWorld, openWorld, sampleConfig, Vec3.add, Vec3.sub]

/-! ## C17: degenerate motion -/

/-- C17: in a pass of the loop body that is not redirected by the swim boundary, if the
squared distance between the current position and the candidate is not above the distance
epsilon 0.0001, the pass ends in a `break` with no query made and with position, velocity
and remaining time as they were; the loop as a whole is left in that state at once. -/
theorem degenerate_motion_ends_loop (cfg : Config) (w : CollisionWorld) (actor : ActorFrameData)
    (swimlevel : ℚ) (origVelocity : Vec3) (s : LoopState)
    (hr : ¬ swimRedirect actor swimlevel s)
    (hd : ¬ (s.newPosition.sub (nextpos s)).length2 > 1 / 10000) :
    (loopBody cfg w actor swimlevel origVelocity s).1 = Flow.exit
      ∧ (loopBody cfg w actor swimlevel origVelocity s).2.log = s.log
      ∧ (loopBody cfg w actor swimlevel origVelocity s).2.newPosition = s.newPosition
      ∧ (loopBody cfg w actor swimlevel origVelocity s).2.velocity = s.velocity
      ∧ (loopBody cfg w actor swimlevel origVelocity s).2.remainingTime = s.remainingTime
      ∧ ∀ fuel, loopGuard cfg s →
          slideLoop cfg w actor swimlevel origVelocity (fuel + 1) s
            = { s with bodyRuns := s.bodyRuns + 1, broke := true } := by
  have hb := loopBody_degenerate cfg w actor swimlevel origVelocity s hr hd
  rw [hb]
  refine ⟨rfl, rfl, rfl, rfl, rfl, ?_⟩
  intro fuel hg
  exact slideLoop_exit _ _ _ _ _ _ _ _ hg hb

/-- C17 at a concrete input: a loop state at rest (zero velocity) well above a swim level
of zero. -/
theorem degenerate_motion_ends_loop_witness :
    ¬ swimRedirect faller 0 { surfacing with newPosition := ⟨0, 0, 5⟩, velocity := ⟨0, 0, 0⟩ }
      ∧ (loopBody sampleConfig openWorld faller 0 ⟨0, 0, 0⟩
          { surfacing with newPosition := ⟨0, 0, 5⟩, velocity := ⟨0, 0, 0⟩ }).1 = Flow.exit
      ∧ (loopBody sampleConfig openWorld faller 0 ⟨0, 0, 0⟩
          { surfacing with newPosition := ⟨0, 0, 5⟩, velocity := ⟨0, 0, 0⟩ }).2.log = [] := by
  have hr : ¬ swimRedirect faller 0
      { surfacing with newPosition := ⟨0, 0, 5⟩, velocity := ⟨0, 0, 0⟩ } := by
    simp [swimRedirect, nextpos, surfacing, Vec3.add, Vec3.scale]
  have h := degenerate_motion_ends_loop sampleConfig openWorld faller 0 ⟨0, 0, 0⟩
    { surfacing with newPosition := ⟨0, 0, 5⟩, velocity := ⟨0, 0, 0⟩ } hr
    (by simp [nextpos, surfacing, Vec3.add, Vec3.sub, Vec3.scale, Vec3.length2])
  exact ⟨hr, h.1, h.2.1⟩

/-! ## C20: the three cases of the ground regime -/

/-- The ground branch of regime selection, written out (lines 122-131). -/
theorem selectRegime_ground_eq (ext : Externals) (a : ActorFrameData) (swimlevel : ℚ)
    (h : ¬ (a.mPosition.z < swimlevel ∨ a.mFlying = true)) :
    selectRegime ext a swimlevel
      = if ((ext.quatRotate (yawOnly ext a.mRefpos) a.mMovement).z > 0
            ∧ a.mActorRaw.onGround = true ∧ a.mActorRaw.onSlope = false)
          ∨ ((ext.quatRotate (yawOnly ext a.mRefpos) a.mMovement).z > 0
            ∧ (ext.quatRotate (yawOnly ext a.mRefpos) a.mMovement).z + a.mActorRaw.inertialForce.z
              ≤ -(ext.quatRotate (yawOnly ext a.mRefpos) a.mMovement).z
            ∧ a.mActorRaw.onSlope = true) then
          { velocity := ext.quatRotate (yawOnly ext a.mRefpos) a.mMovement
            inertia := ext.quatRotate (yawOnly ext a.mRefpos) a.mMovement }
        else if a.mActorRaw.onGround = false ∨ a.mActorRaw.onSlope = true then
          { velocity := (ext.quatRotate (yawOnly ext a.mRefpos) a.mMovement).add
              a.mActorRaw.inertialForce
            inertia := a.mActorRaw.inertialForce }
        else
          { velocity := ext.quatRotate (yawOnly ext a.mRefpos) a.mMovement
            inertia := a.mActorRaw.inertialForce } := by
  unfold selectRegime
  dsimp only
  rw [if_neg h]

/-- C20: in the ground regime of `move` (centre not below swim level and not flying), with
`v` the yaw-rotated movement and `i` the stored inertia: (1) if `v.z > 0` and either the
actor was on the ground and not on a slope, or it was on a slope and `v.z + i.z <= -v.z`,
the inertia becomes `v` and the velocity is `v`; (2) otherwise, if it was not on the ground
or was on a slope, the velocity is `v + i` and the inertia is unchanged; (3) otherwise the
velocity is `v` and the inertia is unchanged, and then the actor was on the ground, not on
a slope, with `v.z <= 0`.  Exactly one of the three cases applies. -/
theorem ground_regime_cases (cfg : Config) (ext : Externals) (actor : ActorFrameData)
    (hg : ¬ (actor.mPosition.z + actor.mActorRaw.halfExtents.z < swimLevel cfg actor
      ∨ actor.mFlying = true)) :
    (((ext.quatRotate (yawOnly ext actor.mRefpos) actor.mMovement).z > 0
            ∧ (actor.mActorRaw.onGround = true ∧ actor.mActorRaw.onSlope = false
              ∨ actor.mActorRaw.onSlope = true
                ∧ (ext.quatRotate (yawOnly ext actor.mRefpos) actor.mMovement).z + (actor.mActorRaw.inertialForce).z
                  ≤ -(ext.quatRotate (yawOnly ext actor.mRefpos) actor.mMovement).z)) →
        selectRegime ext (toCentre (resetFrame actor))
            (swimLevel cfg (toCentre (resetFrame actor)))
          = { velocity := ext.quatRotate (yawOnly ext actor.mRefpos) actor.mMovement
              inertia := ext.quatRotate (yawOnly ext actor.mRefpos) actor.mMovement })
      ∧ (¬ ((ext.quatRotate (yawOnly ext actor.mRefpos) actor.mMovement).z > 0
            ∧ (actor.mActorRaw.onGround = true ∧ actor.mActorRaw.onSlope = false
              ∨ actor.mActorRaw.onSlope = true
                ∧ (ext.quatRotate (yawOnly ext actor.mRefpos) actor.mMovement).z + (actor.mActorRaw.inertialForce).z
                  ≤ -(ext.quatRotate (yawOnly ext actor.mRefpos) actor.mMovement).z)) →
          (actor.mActorRaw.onGround = false ∨ actor.mActorRaw.onSlope = true) →
        selectRegime ext (toCentre (resetFrame actor))
            (swimLevel cfg (toCentre (resetFrame actor)))
          = { velocity := (ext.quatRotate (yawOnly ext actor.mRefpos) actor.mMovement).add actor.mActorRaw.inertialForce
              inertia := actor.mActorRaw.inertialForce })
      ∧ (¬ ((ext.quatRotate (yawOnly ext actor.mRefpos) actor.mMovement).z > 0
            ∧ (actor.mActorRaw.onGround = true ∧ actor.mActorRaw.onSlope = false
              ∨ actor.mActorRaw.onSlope = true
                ∧ (ext.quatRotate (yawOnly ext actor.mRefpos) actor.mMovement).z + (actor.mActorRaw.inertialForce).z
                  ≤ -(ext.quatRotate (yawOnly ext actor.mRefpos) actor.mMovement).z)) →
          ¬ (actor.mActorRaw.onGround = false ∨ actor.mActorRaw.onSlope = true) →
        selectRegime ext (toCentre (resetFrame actor))
            (swimLevel cfg (toCentre (resetFrame actor)))
            = { velocity := ext.quatRotate (yawOnly ext actor.mRefpos) actor.mMovement
                inertia := actor.mActorRaw.inertialForce }
          ∧ (actor.mActorRaw.onGround = true ∧ actor.mActorRaw.onSlope = false
            ∧ (ext.quatRotate (yawOnly ext actor.mRefpos) actor.mMovement).z ≤ 0))
      ∧ ((((ext.quatRotate (yawOnly ext actor.mRefpos) actor.mMovement).z > 0
            ∧ (actor.mActorRaw.onGround = true ∧ actor.mActorRaw.onSlope = false
              ∨ actor.mActorRaw.onSlope = true
                ∧ (ext.quatRotate (yawOnly ext actor.mRefpos) actor.mMovement).z + (actor.mActorRaw.inertialForce).z
                  ≤ -(ext.quatRotate (yawOnly ext actor.mRefpos) actor.mMovement).z))
          ∨ (¬ ((ext.quatRotate (yawOnly ext actor.mRefpos) actor.mMovement).z > 0
            ∧ (actor.mActorRaw.onGround = true ∧ actor.mActorRaw.onSlope = false
              ∨ actor.mActorRaw.onSlope = true
                ∧ (ext.quatRotate (yawOnly ext actor.mRefpos) actor.mMovement).z + (actor.mActorRaw.inertialForce).z
                  ≤ -(ext.quatRotate (yawOnly ext actor.mRefpos) actor.mMovement).z))
            ∧ (actor.mActorRaw.onGround = false ∨ actor.mActorRaw.onSlope = true))
          ∨ (actor.mActorRaw.onGround = true ∧ actor.mActorRaw.onSlope = false
            ∧ (ext.quatRotate (yawOnly ext actor.mRefpos) actor.mMovement).z ≤ 0))
        ∧ ¬ (((ext.quatRotate (yawOnly ext actor.mRefpos) actor.mMovement).z > 0
            ∧ (actor.mActorRaw.onGround = true ∧ actor.mActorRaw.onSlope = false
              ∨ actor.mActorRaw.onSlope = true
                ∧ (ext.quatRotate (yawOnly ext actor.mRefpos) actor.mMovement).z + (actor.mActorRaw.inertialForce).z
                  ≤ -(ext.quatRotate (yawOnly ext actor.mRefpos) actor.mMovement).z))
          ∧ (actor.mActorRaw.onGround = true ∧ actor.mActorRaw.onSlope = false
            ∧ (ext.quatRotate (yawOnly ext actor.mRefpos) actor.mMovement).z ≤ 0))
        ∧ ¬ ((actor.mActorRaw.onGround = false ∨ actor.mActorRaw.onSlope = true)
          ∧ (actor.mActorRaw.onGround = true ∧ actor.mActorRaw.onSlope = false
            ∧ (ext.quatRotate (yawOnly ext actor.mRefpos) actor.mMovement).z ≤ 0))) := by
  have hs : selectRegime ext (toCentre (resetFrame actor))
        (swimLevel cfg (toCentre (resetFrame actor)))
      = if ((ext.quatRotate (yawOnly ext actor.mRefpos) actor.mMovement).z > 0
            ∧ actor.mActorRaw.onGround = true ∧ actor.mActorRaw.onSlope = false)
          ∨ ((ext.quatRotate (yawOnly ext actor.mRefpos) actor.mMovement).z > 0
            ∧ (ext.quatRotate (yawOnly ext actor.mRefpos) actor.mMovement).z + (actor.mActorRaw.inertialForce).z
              ≤ -(ext.quatRotate (yawOnly ext actor.mRefpos) actor.mMovement).z
            ∧ actor.mActorRaw.onSlope = true) then
          { velocity := ext.quatRotate (yawOnly ext actor.mRefpos) actor.mMovement
            inertia := ext.quatRotate (yawOnly ext actor.mRefpos) actor.mMovement }
        else if actor.mActorRaw.onGround = false ∨ actor.mActorRaw.onSlope = true then
          { velocity := (ext.quatRotate (yawOnly ext actor.mRefpos) actor.mMovement).add actor.mActorRaw.inertialForce
            inertia := actor.mActorRaw.inertialForce }
        else
          { velocity := ext.quatRotate (yawOnly ext actor.mRefpos) actor.mMovement
            inertia := actor.mActorRaw.inertialForce } :=
    selectRegime_ground_eq ext (toCentre (resetFrame actor)) _ hg
  have hiff : ((ext.quatRotate (yawOnly ext actor.mRefpos) actor.mMovement).z > 0
        ∧ (actor.mActorRaw.onGround = true ∧ actor.mActorRaw.onSlope = false
          ∨ actor.mActorRaw.onSlope = true
            ∧ (ext.quatRotate (yawOnly ext actor.mRefpos) actor.mMovement).z + (actor.mActorRaw.inertialForce).z
              ≤ -(ext.quatRotate (yawOnly ext actor.mRefpos) actor.mMovement).z))
      ↔ (((ext.quatRotate (yawOnly ext actor.mRefpos) actor.mMovement).z > 0
            ∧ actor.mActorRaw.onGround = true ∧ actor.mActorRaw.onSlope = false)
          ∨ ((ext.quatRotate (yawOnly ext actor.mRefpos) actor.mMovement).z > 0
            ∧ (ext.quatRotate (yawOnly ext actor.mRefpos) actor.mMovement).z + (actor.mActorRaw.inertialForce).z
              ≤ -(ext.quatRotate (yawOnly ext actor.mRefpos) actor.mMovement).z
            ∧ actor.mActorRaw.onSlope = true)) := by
    tauto
  refine ⟨?_, ?_, ?_, ?_⟩
  · intro h1
    rw [hs, if_pos (hiff.mp h1)]
  · intro h1 h2
    rw [hs, if_neg (fun hh => h1 (hiff.mpr hh)), if_pos h2]
  · intro h1 h2
    rw [hs, if_neg (fun hh => h1 (hiff.mpr hh)), if_neg h2]
    refine ⟨rfl, ?_⟩
    have hgr : actor.mActorRaw.onGround = true := by
      cases hb : actor.mActorRaw.onGround
      · exact absurd (Or.inl hb) h2
      · rfl
    have hsl : actor.mActorRaw.onSlope = false := by
      cases hb : actor.mActorRaw.onSlope
      · rfl
      · exact absurd (Or.inr hb) h2
    refine ⟨hgr, hsl, ?_⟩
    by_contra hz
    exact h1 ⟨lt_of_not_ge hz, Or.inl ⟨hgr, hsl⟩⟩
  · refine ⟨?_, ?_, ?_⟩
    · by_cases h1 : ((ext.quatRotate (yawOnly ext actor.mRefpos) actor.mMovement).z > 0
            ∧ (actor.mActorRaw.onGround = true ∧ actor.mActorRaw.onSlope = false
              ∨ actor.mActorRaw.onSlope = true
                ∧ (ext.quatRotate (yawOnly ext actor.mRefpos) actor.mMovement).z + (actor.mActorRaw.inertialForce).z
                  ≤ -(ext.quatRotate (yawOnly ext actor.mRefpos) actor.mMovement).z))
      · exact Or.inl h1
      · by_cases h2 : (actor.mActorRaw.onGround = false ∨ actor.mActorRaw.onSlope = true)
        · exact Or.inr (Or.inl ⟨h1, h2⟩)
        · right; right
          have hgr : actor.mActorRaw.onGround = true := by
            cases hb : actor.mActorRaw.onGround
            · exact absurd (Or.inl hb) h2
            · rfl
          have hsl : actor.mActorRaw.onSlope = false := by
            cases hb : actor.mActorRaw.onSlope
            · rfl
            · exact absurd (Or.inr hb) h2
          refine ⟨hgr, hsl, ?_⟩
          by_contra hz
          exact h1 ⟨lt_of_not_ge hz, Or.inl ⟨hgr, hsl⟩⟩
    · rintro ⟨⟨hz, _⟩, ⟨_, _, hz2⟩⟩
      exact absurd hz (not_lt.mpr hz2)
    · rintro ⟨h2, ⟨hgr, hsl, _⟩⟩
      rcases h2 with h2 | h2
      · rw [hgr] at h2
        exact Bool.noConfusion h2
      · rw [hsl] at h2
        exact Bool.noConfusion h2

/-- C20 at a concrete input: the airborne actor `faller` is in the ground regime, its
yaw-rotated movement `(0,1,0)` does not point up, and it was not on the ground: case (2),
the stored inertia is added to the velocity. -/
theorem ground_regime_cases_witness :
    ¬ (faller.mPosition.z + faller.mActorRaw.halfExtents.z < swimLevel sampleConfig faller
        ∨ faller.mFlying = true)
      ∧ selectRegime sampleMath (toCentre (resetFrame faller))
          (swimLevel sampleConfig (toCentre (resetFrame faller)))
        = { velocity := (sampleMath.quatRotate (yawOnly sampleMath faller.mRefpos)
              faller.mMovement).add faller.mActorRaw.inertialForce
            inertia := faller.mActorRaw.inertialForce } := by
  have hg : ¬ (faller.mPosition.z + faller.mActorRaw.halfExtents.z
      < swimLevel sampleConfig faller ∨ faller.mFlying = true) := by
    norm_num [swimLevel, faller, sampleBody, sampleConfig]
  have hv : sampleMath.quatRotate (yawOnly sampleMath faller.mRefpos) faller.mMovement
      = ⟨0, 1, 0⟩ := by
    simp [yawOnly, faller, sampleMath, Vec3.add, Vec3.scale, Vec3.cross]
  refine ⟨hg, (ground_regime_cases sampleConfig sampleMath faller hg).2.1 ?_ (Or.inl rfl)⟩
  rw [hv]
  norm_num

/-! ## C18: forced surfacing -/

/-- C18, refuted as stated: the actor `floater` is mobile, collides, has `floatToSurface`
set and its centre one unit below swim level, but its movement input has no upward
component; the velocity handed to the wind step, and in calm weather to the loop, is the
pitch-and-yaw rotation of the movement, `(0, 7/25, -24/25)`, not `(0, 0, 25)`: line 135
also asks for `mMovement.z() > 0`. -/
theorem forced_surfacing_counterexample :
    floater.mActorRaw.isMobile = true ∧ floater.mActorRaw.collisionMode = true
      ∧ floater.mFloatToSurface = true
      ∧ floater.mPosition.z + floater.mActorRaw.halfExtents.z < swimLevel sampleConfig floater
      ∧ floatToSurface (toCentre (resetFrame floater))
            (swimLevel sampleConfig (toCentre (resetFrame floater)))
            (selectRegime sampleMath (toCentre (resetFrame floater))
              (swimLevel sampleConfig (toCentre (resetFrame floater)))).velocity
          ≠ ⟨0, 0, 25⟩
      ∧ (startMotion sampleConfig sampleMath (toCentre (resetFrame floater)) calm).velocity
          ≠ ⟨0, 0, 25⟩ := by
  have hb : floater.mPosition.z + floater.mActorRaw.halfExtents.z
      < swimLevel sampleConfig floater := by
    norm_num [swimLevel, floater, swimmer, faller, sampleBody, sampleConfig]
  have hs : (startMotion sampleConfig sampleMath (toCentre (resetFrame floater)) calm).velocity
      = ⟨0, 7 / 25, -24 / 25⟩ := by
    unfold startMotion
    dsimp only
    rw [selectRegime_free _ _ _ (Or.inl hb)]
    simp [applyStorm, floatToSurface, calm, pitchYaw, toCentre, resetFrame, floater, swimmer,
      faller, sampleMath, Vec3.add, Vec3.scale, Vec3.cross]
    norm_num
  have hne : (⟨0, 7 / 25, -24 / 25⟩ : Vec3) ≠ ⟨0, 0, 25⟩ := by
    intro h
    have h2 := congrArg Vec3.z h
    norm_num at h2
  refine ⟨rfl, rfl, rfl, hb, ?_, ?_⟩
  · have he : floatToSurface (toCentre (resetFrame floater))
        (swimLevel sampleConfig (toCentre (resetFrame floater)))
        (selectRegime sampleMath (toCentre (resetFrame floater))
          (swimLevel sampleConfig (toCentre (resetFrame floater)))).velocity
        = (startMotion sampleConfig sampleMath (toCentre (resetFrame floater)) calm).velocity := by
      simp [startMotion, applyStorm, calm]
    rw [he, hs]
    exact hne
  · rw [hs]
    exact hne

/-- C18, amended: for an actor with `floatToSurface` set whose centre is below swim level
and whose movement input points up (`mMovement.z > 0`), the velocity handed to the wind
step is the fixed vector `(0,0,25)`, whatever the rest of the movement input, the stored
inertia and the regime chosen before, and the loop starts with what the wind step makes of
that vector; when the movement input does not point up, the velocity of regime selection,
the pitch-and-yaw rotation of the movement, is kept. -/
theorem forced_surfacing (cfg : Config) (ext : Externals) (actor : ActorFrameData)
    (worldData : WorldFrameData) (hf : actor.mFloatToSurface = true)
    (hb : actor.mPosition.z + actor.mActorRaw.halfExtents.z < swimLevel cfg actor) :
    (actor.mMovement.z > 0 →
        floatToSurface (toCentre (resetFrame actor)) (swimLevel cfg (toCentre (resetFrame actor)))
            (selectRegime ext (toCentre (resetFrame actor))
              (swimLevel cfg (toCentre (resetFrame actor)))).velocity
          = ⟨0, 0, 25⟩
        ∧ (startMotion cfg ext (toCentre (resetFrame actor)) worldData).velocity
          = applyStorm cfg ext worldData ⟨0, 0, 25⟩
        ∧ (worldData.mIsInStorm = false →
            (startMotion cfg ext (toCentre (resetFrame actor)) worldData).velocity
              = ⟨0, 0, 25⟩))
      ∧ (¬ actor.mMovement.z > 0 →
        floatToSurface (toCentre (resetFrame actor)) (swimLevel cfg (toCentre (resetFrame actor)))
            (selectRegime ext (toCentre (resetFrame actor))
              (swimLevel cfg (toCentre (resetFrame actor)))).velocity
          = ext.quatRotate (pitchYaw ext actor.mRefpos) actor.mMovement) := by
  have hb2 : (toCentre (resetFrame actor)).mPosition.z
      < swimLevel cfg (toCentre (resetFrame actor)) := hb
  have hf2 : (toCentre (resetFrame actor)).mFloatToSurface = true := hf
  constructor
  · intro hz
    have hz2 : (toCentre (resetFrame actor)).mMovement.z > 0 := hz
    have h1 : ∀ v : Vec3, floatToSurface (toCentre (resetFrame actor))
        (swimLevel cfg (toCentre (resetFrame actor))) v = ⟨0, 0, 25⟩ := by
      intro v
      unfold floatToSurface
      rw [if_pos ⟨hz2, hf2, hb2⟩]
      simp [Vec3.scale]
    refine ⟨h1 _, ?_, ?_⟩
    · unfold startMotion
      dsimp only
      rw [h1]
    · intro hs
      unfold startMotion
      dsimp only
      rw [h1]
      simp [applyStorm, hs]
  · intro hz
    have hz2 : ¬ (toCentre (resetFrame actor)).mMovement.z > 0 := hz
    unfold floatToSurface
    rw [if_neg (fun hh => hz2 hh.1), selectRegime_free _ _ _ (Or.inl hb2)]
    rfl

/-- C18 (amended) at a concrete input: the actor `floaterUp`, submerged, told to float and
with a movement input that points up, is handed `(0,0,25)`. -/
theorem forced_surfacing_witness :
    floaterUp.mFloatToSurface = true
      ∧ floaterUp.mPosition.z + floaterUp.mActorRaw.halfExtents.z
          < swimLevel sampleConfig floaterUp
      ∧ floaterUp.mMovement.z > 0
      ∧ (startMotion sampleConfig sampleMath (toCentre (resetFrame floaterUp)) calm).velocity
          = ⟨0, 0, 25⟩ := by
  have hb : floaterUp.mPosition.z + floaterUp.mActorRaw.halfExtents.z
      < swimLevel sampleConfig floaterUp := by
    norm_num [swimLevel, floaterUp, floater, swimmer, faller, sampleBody, sampleConfig]
  have hz : floaterUp.mMovement.z > 0 := by
    norm_num [floaterUp]
  exact ⟨rfl, hb, hz,
    ((forced_surfacing sampleConfig sampleMath floaterUp calm rfl hb).1 hz).2.2 rfl⟩

/-! ## The ground resolution as `move` runs it -/

theorem groundState_eq (cfg : Config) (ext : Externals) (w : CollisionWorld)
    (actor : ActorFrameData) (time : ℚ) (worldData : WorldFrameData) :
    groundState cfg ext w actor time worldData
      = resolveGround cfg ext w (centred actor) (swimLevel cfg actor)
          (startMotion cfg ext (toCentre (resetFrame actor)) worldData).inertia
          (loopExit cfg ext w actor time worldData).velocity
          (loopExit cfg ext w actor time worldData).newPosition
          (loopExit cfg ext w actor time worldData).log := by
  unfold groundState
  dsimp only
  rw [swimLevel_centred]

theorem groundState_hit (cfg : Config) (ext : Externals) (w : CollisionWorld)
    (actor : ActorFrameData) (time : ℚ) (worldData : WorldFrameData)
    (hp : finalProbeIssued cfg ext w actor time worldData)
    (hh : hitsGround (finalProbe cfg ext w actor time worldData)) :
    groundState cfg ext w actor time worldData
      = landOn cfg ext (centred actor) (finalProbe cfg ext w actor time worldData)
          (startMotion cfg ext (toCentre (resetFrame actor)) worldData).inertia
          (loopExit cfg ext w actor time worldData).newPosition
          ((loopExit cfg ext w actor time worldData).log
            ++ [Query.doTrace (loopExit cfg ext w actor time worldData).newPosition
              (probeTarget cfg (centred actor)
                (loopExit cfg ext w actor time worldData).newPosition)]) := by
  rw [groundState_eq]
  exact resolveGround_hit _ _ _ _ _ _ _ _ _ hp hh

theorem groundState_miss (cfg : Config) (ext : Externals) (w : CollisionWorld)
    (actor : ActorFrameData) (time : ℚ) (worldData : WorldFrameData)
    (hp : finalProbeIssued cfg ext w actor time worldData)
    (hh : ¬ hitsGround (finalProbe cfg ext w actor time worldData)) :
    groundState cfg ext w actor time worldData
      = { actor := centred actor
          newPosition := (loopExit cfg ext w actor time worldData).newPosition
          inertia := pushAway ext (centred actor) (finalProbe cfg ext w actor time worldData)
            (loopExit cfg ext w actor time worldData).velocity
            (startMotion cfg ext (toCentre (resetFrame actor)) worldData).inertia
          isOnGround := false
          isOnSlope := false
          log := (loopExit cfg ext w actor time worldData).log
            ++ [Query.doTrace (loopExit cfg ext w actor time worldData).newPosition
              (probeTarget cfg (centred actor)
                (loopExit cfg ext w actor time worldData).newPosition)] } := by
  rw [groundState_eq]
  exact resolveGround_miss _ _ _ _ _ _ _ _ _ hp hh

theorem groundState_skip (cfg : Config) (ext : Externals) (w : CollisionWorld)
    (actor : ActorFrameData) (time : ℚ) (worldData : WorldFrameData)
    (hp : ¬ finalProbeIssued cfg ext w actor time worldData) :
    groundState cfg ext w actor time worldData
      = { actor := centred actor
          newPosition := (loopExit cfg ext w actor time worldData).newPosition
          inertia := (startMotion cfg ext (toCentre (resetFrame actor)) worldData).inertia
          isOnGround := false
          isOnSlope := false
          log := (loopExit cfg ext w actor time worldData).log } := by
  rw [groundState_eq]
  exact resolveGround_skip _ _ _ _ _ _ _ _ _ hp

/-- The entity `landOn` records as `standingOn`: the owner of the hit object when it has
one, the previous value otherwise (lines 250-252). -/
theorem landOn_standingOn (cfg : Config) (ext : Externals) (actor : ActorFrameData)
    (tracer : ActorTracer) (inertia newPosition : Vec3) (log : List Query) :
    (landOn cfg ext actor tracer inertia newPosition log).actor.mStandingOn
      = tracer.mHitObject.userPointer.getD actor.mStandingOn := by
  unfold landOn
  dsimp only
  cases tracer.mHitObject.userPointer <;> split_ifs <;> rfl

/-- The scenario of `faller` over the floor with zero elapsed time: the probe is made and
hits the floor. -/
theorem faller_lands :
    finalProbeIssued sampleConfig sampleMath floorWorld faller 0 calm
      ∧ hitsGround (finalProbe sampleConfig sampleMath floorWorld faller 0 calm) := by
  constructor
  · unfold finalProbeIssued
    rw [loopExit_zero_time]
    simp [probeIssued, loopStart, startMotion, selectRegime, toCentre, resetFrame, centred_eq,
      swimLevel, faller, sampleBody, sampleConfig]
    norm_num
  · unfold finalProbe
    simp [hitsGround, groundProbe, floorWorld, isActor, worldObject]
    norm_num

/-! ## C14: when the inertia is zeroed -/

/-- C14: for a mobile actor with collision enabled, the inertial force committed by `move`
is the zero vector whenever the committed flags are on-ground and not on-slope, or the
resolved centre position is below swim level, or the actor is flying, whatever the stored
inertia, the movement input and the push-away of the ground resolution; the committed
position is that resolved centre lowered by `halfExtents.z`. -/
theorem inertia_zeroed (cfg : Config) (ext : Externals) (w : CollisionWorld)
    (actor : ActorFrameData) (time : ℚ) (worldData : WorldFrameData)
    (hm : actor.mActorRaw.isMobile = true) (hc : actor.mActorRaw.collisionMode = true)
    (h : ((move cfg ext w actor time worldData).actor.mActorRaw.onGround = true
          ∧ (move cfg ext w actor time worldData).actor.mActorRaw.onSlope = false)
        ∨ (groundState cfg ext w actor time worldData).newPosition.z < swimLevel cfg actor
        ∨ actor.mFlying = true) :
    (move cfg ext w actor time worldData).actor.mActorRaw.inertialForce = ⟨0, 0, 0⟩
      ∧ (move cfg ext w actor time worldData).actor.mPosition.z
          = (groundState cfg ext w actor time worldData).newPosition.z
            - actor.mActorRaw.halfExtents.z := by
  rw [move_of_collision _ _ _ _ _ _ hm hc] at h ⊢
  have hfl : (centred actor).mFlying = actor.mFlying := by rw [centred_eq]
  have hhe : (centred actor).mActorRaw.halfExtents = actor.mActorRaw.halfExtents := by
    rw [centred_eq]
  unfold commit at h ⊢
  dsimp only at h ⊢
  refine ⟨?_, by rw [hhe]⟩
  unfold integrateGravity
  rw [hfl, if_pos h]

/-- C14 at a concrete input: the actor `flyer`, falling or not, is left without inertia. -/
theorem inertia_zeroed_witness :
    flyer.mActorRaw.isMobile = true ∧ flyer.mActorRaw.collisionMode = true
      ∧ flyer.mFlying = true
      ∧ (move sampleConfig sampleMath openWorld flyer 1 calm).actor.mActorRaw.inertialForce
          = ⟨0, 0, 0⟩ :=
  ⟨rfl, rfl, rfl,
    (inertia_zeroed sampleConfig sampleMath openWorld flyer 1 calm rfl rfl
      (Or.inr (Or.inr rfl))).1⟩

/-! ## C13: standing on -/

/-- The physics actor and `standingOn` that `commit` leaves: `standingOn` is whatever the
ground resolution left, on-ground is the local `isOnGround`. -/
theorem commit_standingOn (cfg : Config) (actor : ActorFrameData) (time swimlevel : ℚ)
    (g : GroundState) :
    (commit cfg actor time swimlevel g).mStandingOn = g.actor.mStandingOn
      ∧ (commit cfg actor time swimlevel g).mActorRaw.onGround = g.isOnGround := by
  unfold commit
  exact ⟨rfl, rfl⟩

/-- C13: `move` changes `standingOn` in one place only.  When the downward ground probe is
made and hits an object that is not an actor, `standingOn` becomes the owner of that object
(it keeps its value if the object has no owner) and on-ground is committed true.  In every
other case of a mobile, colliding actor (the probe is skipped, finds nothing, or hits an
actor) `standingOn` keeps its value and on-ground is committed false.  So whenever the
value of `standingOn` changes, for any actor, the probe was made, was obstructed, the hit
object is not of the actor category, and the new value is the owner of that object. -/
theorem standing_on_non_actor (cfg : Config) (ext : Externals) (w : CollisionWorld)
    (actor : ActorFrameData) (time : ℚ) (worldData : WorldFrameData) :
    (actor.mActorRaw.isMobile = true → actor.mActorRaw.collisionMode = true →
        finalProbeIssued cfg ext w actor time worldData →
        hitsGround (finalProbe cfg ext w actor time worldData) →
        (move cfg ext w actor time worldData).actor.mStandingOn
            = (finalProbe cfg ext w actor time worldData).mHitObject.userPointer.getD
                actor.mStandingOn
          ∧ (finalProbe cfg ext w actor time worldData).mHitObject.collisionFilterGroup
              ≠ CollisionType.Actor
          ∧ (move cfg ext w actor time worldData).actor.mActorRaw.onGround = true)
      ∧ (actor.mActorRaw.isMobile = true → actor.mActorRaw.collisionMode = true →
        ¬ (finalProbeIssued cfg ext w actor time worldData
          ∧ hitsGround (finalProbe cfg ext w actor time worldData)) →
        (move cfg ext w actor time worldData).actor.mStandingOn = actor.mStandingOn
          ∧ (move cfg ext w actor time worldData).actor.mActorRaw.onGround = false)
      ∧ ((move cfg ext w actor time worldData).actor.mStandingOn ≠ actor.mStandingOn →
        actor.mActorRaw.isMobile = true ∧ actor.mActorRaw.collisionMode = true
          ∧ finalProbeIssued cfg ext w actor time worldData
          ∧ (finalProbe cfg ext w actor time worldData).mFraction < 1
          ∧ (finalProbe cfg ext w actor time worldData).mHitObject.collisionFilterGroup
              ≠ CollisionType.Actor
          ∧ (finalProbe cfg ext w actor time worldData).mHitObject.userPointer
              = some (move cfg ext w actor time worldData).actor.mStandingOn) := by
  have hcs : (centred actor).mStandingOn = actor.mStandingOn := by rw [centred_eq]
  have hhit : actor.mActorRaw.isMobile = true → actor.mActorRaw.collisionMode = true →
      finalProbeIssued cfg ext w actor time worldData →
      hitsGround (finalProbe cfg ext w actor time worldData) →
      (move cfg ext w actor time worldData).actor.mStandingOn
          = (finalProbe cfg ext w actor time worldData).mHitObject.userPointer.getD
              actor.mStandingOn
        ∧ (finalProbe cfg ext w actor time worldData).mHitObject.collisionFilterGroup
            ≠ CollisionType.Actor
        ∧ (move cfg ext w actor time worldData).actor.mActorRaw.onGround = true := by
    intro hm hc hp hh
    rw [move_of_collision _ _ _ _ _ _ hm hc]
    dsimp only
    rw [(commit_standingOn _ _ _ _ _).1, (commit_standingOn _ _ _ _ _).2,
      groundState_hit _ _ _ _ _ _ hp hh, landOn_standingOn, hcs]
    refine ⟨rfl, ?_, (landOn_fields _ _ _ _ _ _ _).1⟩
    have h2 := hh.2
    intro hcon
    simp [isActor, hcon] at h2
  have hmiss : actor.mActorRaw.isMobile = true → actor.mActorRaw.collisionMode = true →
      ¬ (finalProbeIssued cfg ext w actor time worldData
        ∧ hitsGround (finalProbe cfg ext w actor time worldData)) →
      (move cfg ext w actor time worldData).actor.mStandingOn = actor.mStandingOn
        ∧ (move cfg ext w actor time worldData).actor.mActorRaw.onGround = false := by
    intro hm hc hn
    rw [move_of_collision _ _ _ _ _ _ hm hc]
    dsimp only
    rw [(commit_standingOn _ _ _ _ _).1, (commit_standingOn _ _ _ _ _).2]
    by_cases hp : finalProbeIssued cfg ext w actor time worldData
    · rw [groundState_miss _ _ _ _ _ _ hp (fun hh => hn ⟨hp, hh⟩)]
      exact ⟨hcs, rfl⟩
    · rw [groundState_skip _ _ _ _ _ _ hp]
      exact ⟨hcs, rfl⟩
  refine ⟨hhit, hmiss, ?_⟩
  intro hne
  cases hm : actor.mActorRaw.isMobile with
  | false =>
    exfalso
    apply hne
    unfold move
    rw [if_pos hm]
  | true =>
    cases hc : actor.mActorRaw.collisionMode with
    | false =>
      exfalso
      apply hne
      rw [move_of_noCollision _ _ _ _ _ _ hm hc]
      rfl
    | true =>
      by_cases hph : finalProbeIssued cfg ext w actor time worldData
          ∧ hitsGround (finalProbe cfg ext w actor time worldData)
      · have h1 := hhit hm hc hph.1 hph.2
        refine ⟨rfl, rfl, hph.1, hph.2.1, h1.2.1, ?_⟩
        cases hu : (finalProbe cfg ext w actor time worldData).mHitObject.userPointer with
        | none =>
          exfalso
          apply hne
          rw [h1.1, hu]
          rfl
        | some q =>
          rw [h1.1, hu]
          rfl
      · exact absurd (hmiss hm hc hph).1 hne

/-- C13 at a concrete input: the actor `faller` over the floor, whose geometry is owned by
entity 7, comes out standing on entity 7 and on the ground. -/
theorem standing_on_non_actor_witness :
    faller.mActorRaw.isMobile = true ∧ faller.mActorRaw.collisionMode = true
      ∧ finalProbeIssued sampleConfig sampleMath floorWorld faller 0 calm
      ∧ hitsGround (finalProbe sampleConfig sampleMath floorWorld faller 0 calm)
      ∧ (move sampleConfig sampleMath floorWorld faller 0 calm).actor.mStandingOn = 7
      ∧ (move sampleConfig sampleMath floorWorld faller 0 calm).actor.mActorRaw.onGround
          = true := by
  have h := (standing_on_non_actor sampleConfig sampleMath floorWorld faller 0 calm).1 rfl rfl
    faller_lands.1 faller_lands.2
  refine ⟨rfl, rfl, faller_lands.1, faller_lands.2, ?_, h.2.2⟩
  rw [h.1]
  simp [finalProbe, groundProbe, floorWorld, worldObject]

/-! ## C19: the half height is added once and taken away once -/

theorem headAt_append (p : Vec3) (l l2 : List Query) (h : HeadAt p l) : HeadAt p (l ++ l2) := by
  obtain ⟨t, rest, hl⟩ := h
  exact ⟨t, rest ++ l2, by rw [hl]; rfl⟩

theorem firstCastFrom_cast (p0 p p2 target : Vec3) (l : List Query)
    (h : FirstCastFrom p0 p l) : FirstCastFrom p0 p2 (l ++ [Query.doTrace p target]) := by
  right
  rcases h with ⟨hl, hp⟩ | hh
  · rw [hl, hp]
    exact ⟨target, [], rfl⟩
  · exact headAt_append _ _ _ hh

theorem afterHit_log (cfg : Config) (w : CollisionWorld) (actor : ActorFrameData)
    (swimlevel : ℚ) (origVelocity : Vec3) (tracer : ActorTracer) (s : LoopState) :
    (afterHit cfg w actor swimlevel origVelocity tracer s).2.log
      = stepLog cfg actor tracer (backOff tracer s.newPosition) s.velocity s.remainingTime
          s.log := by
  unfold afterHit
  dsimp only
  split_ifs <;> rfl

theorem stepLog_headAt (cfg : Config) (actor : ActorFrameData) (tracer : ActorTracer)
    (position velocity : Vec3) (remainingTime : ℚ) (log : List Query) (p : Vec3)
    (h : HeadAt p log) :
    HeadAt p (stepLog cfg actor tracer position velocity remainingTime log) := by
  unfold stepLog
  split_ifs
  · exact headAt_append _ _ _ h
  · exact h

/-- A pass of the loop body asks nothing but a `doTrace` from the position it starts with,
possibly followed by a call of the stepper. -/
theorem loopBody_queries (cfg : Config) (w : CollisionWorld) (actor : ActorFrameData)
    (swimlevel : ℚ) (origVelocity : Vec3) (s : LoopState) (q : Query)
    (hq : q ∈ (loopBody cfg w actor swimlevel origVelocity s).2.log) :
    q ∈ s.log ∨ q = Query.doTrace s.newPosition (nextpos s) ∨ q.isStep = true := by
  unfold loopBody at hq
  dsimp only at hq
  split_ifs at hq
  · exact Or.inl hq
  · rcases List.mem_append.mp hq with h | h
    · exact Or.inl h
    · exact Or.inr (Or.inl (List.mem_singleton.mp h))
  · rw [afterHit_log] at hq
    unfold stepLog at hq
    dsimp only at hq
    split_ifs at hq
    · rcases List.mem_append.mp hq with h | h
      · rcases List.mem_append.mp h with h2 | h2
        · exact Or.inl h2
        · exact Or.inr (Or.inl (List.mem_singleton.mp h2))
      · right; right
        rw [List.mem_singleton.mp h]
        rfl
    · rcases List.mem_append.mp hq with h | h
      · exact Or.inl h
      · exact Or.inr (Or.inl (List.mem_singleton.mp h))
  · exact Or.inl hq

theorem loopBody_firstCast (cfg : Config) (w : CollisionWorld) (actor : ActorFrameData)
    (swimlevel : ℚ) (origVelocity : Vec3) (s : LoopState) (p : Vec3)
    (h : FirstCastFrom p s.newPosition s.log) :
    FirstCastFrom p (loopBody cfg w actor swimlevel origVelocity s).2.newPosition
      (loopBody cfg w actor swimlevel origVelocity s).2.log := by
  unfold loopBody
  dsimp only
  split_ifs
  · exact h
  · exact firstCastFrom_cast _ _ _ _ _ h
  · right
    rw [afterHit_log]
    apply stepLog_headAt
    rcases firstCastFrom_cast p s.newPosition s.newPosition (nextpos s) s.log h with ⟨hl, _⟩ | hh
    · simp at hl
    · exact hh
  · exact h

theorem slideLoop_firstCast (cfg : Config) (w : CollisionWorld) (actor : ActorFrameData)
    (swimlevel : ℚ) (origVelocity : Vec3) (p : Vec3) :
    ∀ (fuel : Nat) (s : LoopState), FirstCastFrom p s.newPosition s.log →
      FirstCastFrom p (slideLoop cfg w actor swimlevel origVelocity fuel s).newPosition
        (slideLoop cfg w actor swimlevel origVelocity fuel s).log := by
  intro fuel
  induction fuel with
  | zero =>
    intro s h
    exact h
  | succ n ih =>
    intro s h
    by_cases hg : loopGuard cfg s
    · cases hb : loopBody cfg w actor swimlevel origVelocity s with
      | mk f s1 =>
        have hf := loopBody_firstCast cfg w actor swimlevel origVelocity s p h
        rw [hb] at hf
        cases f with
        | exit =>
          rw [slideLoop_exit _ _ _ _ _ _ _ _ hg hb]
          exact hf
        | next =>
          rw [slideLoop_next _ _ _ _ _ _ _ _ hg hb]
          exact ih _ hf
    · rw [slideLoop_stop _ _ _ _ _ _ _ hg]
      exact h

/-- What the ground resolution adds to the log: nothing, or one `doTrace` from the
position it was given. -/
theorem resolveGround_log (cfg : Config) (ext : Externals) (w : CollisionWorld)
    (actor : ActorFrameData) (swimlevel : ℚ) (inertia velocity newPosition : Vec3)
    (log : List Query) :
    (resolveGround cfg ext w actor swimlevel inertia velocity newPosition log).log = log
      ∨ (resolveGround cfg ext w actor swimlevel inertia velocity newPosition log).log
        = log ++ [Query.doTrace newPosition (probeTarget cfg actor newPosition)] := by
  by_cases hp : probeIssued swimlevel inertia newPosition
  · by_cases hh : hitsGround (groundProbe cfg w actor newPosition)
    · rw [resolveGround_hit _ _ _ _ _ _ _ _ _ hp hh]
      exact Or.inr (landOn_fields _ _ _ _ _ _ _).2.2.2.1
    · rw [resolveGround_miss _ _ _ _ _ _ _ _ _ hp hh]
      exact Or.inr rfl
  · rw [resolveGround_skip _ _ _ _ _ _ _ _ _ hp]
    exact Or.inl rfl

/-- C19: for a mobile actor with collision enabled, `move` raises the position by
`halfExtents.z` once before any query and lowers it once when committing.  The loop starts
from the raised position, the volume centre; the first query of the tick, if there is one,
is a cast from that centre; every pass of the loop casts from the position it starts with
and the ground probe is cast from the position the loop resolved; the committed position is
the resolved centre minus `(0, 0, halfExtents.z)`; and when the resolved centre is the
centre the tick started from (neither the loop nor the ground snap moved the actor), the
committed position is the input anchor position. -/
theorem centre_and_anchor (cfg : Config) (ext : Externals) (w : CollisionWorld)
    (actor : ActorFrameData) (time : ℚ) (worldData : WorldFrameData)
    (hm : actor.mActorRaw.isMobile = true) (hc : actor.mActorRaw.collisionMode = true) :
    (loopStart (centred actor)
          (startMotion cfg ext (toCentre (resetFrame actor)) worldData).velocity
          time).newPosition
        = (Vec3.mk actor.mPosition.x actor.mPosition.y
              (actor.mPosition.z + actor.mActorRaw.halfExtents.z))
      ∧ (∀ q rest, (move cfg ext w actor time worldData).log = q :: rest →
          ∃ target, q = Query.doTrace
            (Vec3.mk actor.mPosition.x actor.mPosition.y
              (actor.mPosition.z + actor.mActorRaw.halfExtents.z)) target)
      ∧ (∀ (a : ActorFrameData) (swimlevel : ℚ) (origVelocity : Vec3) (s : LoopState)
          (q : Query), q ∈ (loopBody cfg w a swimlevel origVelocity s).2.log →
          q ∈ s.log ∨ q = Query.doTrace s.newPosition (nextpos s) ∨ q.isStep = true)
      ∧ ((move cfg ext w actor time worldData).log = (loopExit cfg ext w actor time worldData).log
          ∨ (move cfg ext w actor time worldData).log
            = (loopExit cfg ext w actor time worldData).log
              ++ [Query.doTrace (loopExit cfg ext w actor time worldData).newPosition
                (probeTarget cfg (centred actor) (loopExit cfg ext w actor time worldData).newPosition)])
      ∧ (move cfg ext w actor time worldData).actor.mPosition
          = (groundState cfg ext w actor time worldData).newPosition.sub
              ⟨0, 0, actor.mActorRaw.halfExtents.z⟩
      ∧ ((groundState cfg ext w actor time worldData).newPosition
            = (Vec3.mk actor.mPosition.x actor.mPosition.y
              (actor.mPosition.z + actor.mActorRaw.halfExtents.z)) →
          (move cfg ext w actor time worldData).actor.mPosition = actor.mPosition) := by
  have hcp : (centred actor).mPosition
      = (Vec3.mk actor.mPosition.x actor.mPosition.y
              (actor.mPosition.z + actor.mActorRaw.halfExtents.z)) := by
    rw [centred_eq]
  have hhe : (centred actor).mActorRaw.halfExtents = actor.mActorRaw.halfExtents := by
    rw [centred_eq]
  have hmv := move_of_collision cfg ext w actor time worldData hm hc
  have hlog : (move cfg ext w actor time worldData).log = (groundState cfg ext w actor time worldData).log := by
    rw [hmv]
  have hpos : (move cfg ext w actor time worldData).actor.mPosition
      = (groundState cfg ext w actor time worldData).newPosition.sub
          ⟨0, 0, actor.mActorRaw.halfExtents.z⟩ := by
    rw [hmv]
    unfold commit
    dsimp only
    rw [hhe]
    simp [Vec3.sub]
  have hglog := resolveGround_log cfg ext w (centred actor) (swimLevel cfg actor)
    (startMotion cfg ext (toCentre (resetFrame actor)) worldData).inertia
    (loopExit cfg ext w actor time worldData).velocity
    (loopExit cfg ext w actor time worldData).newPosition
    (loopExit cfg ext w actor time worldData).log
  rw [← groundState_eq] at hglog
  have hfirst : FirstCastFrom (Vec3.mk actor.mPosition.x actor.mPosition.y
              (actor.mPosition.z + actor.mActorRaw.halfExtents.z))
      (loopExit cfg ext w actor time worldData).newPosition
      (loopExit cfg ext w actor time worldData).log := by
    unfold loopExit
    dsimp only
    apply slideLoop_firstCast
    left
    exact ⟨rfl, hcp⟩
  refine ⟨hcp, ?_, fun a swimlevel origVelocity s q hq =>
    loopBody_queries cfg w a swimlevel origVelocity s q hq, ?_, hpos, ?_⟩
  · intro q rest hq
    rw [hlog] at hq
    have hall : FirstCastFrom (Vec3.mk actor.mPosition.x actor.mPosition.y
              (actor.mPosition.z + actor.mActorRaw.halfExtents.z))
        (loopExit cfg ext w actor time worldData).newPosition
        (groundState cfg ext w actor time worldData).log := by
      rcases hglog with h | h
      · rw [h]
        exact hfirst
      · rw [h]
        exact firstCastFrom_cast _ _ _ _ _ hfirst
    rcases hall with ⟨hl, _⟩ | ⟨t, r, hl⟩
    · rw [hl] at hq
      exact absurd hq (List.cons_ne_nil _ _).symm
    · rw [hl] at hq
      exact ⟨t, (List.cons.inj hq).1.symm⟩
  · rw [hlog]
    exact hglog
  · intro hg
    rw [hpos, hg]
    cases hp : actor.mPosition
    simp [Vec3.sub]

/-- C19 at a concrete input: the actor `faller` with zero elapsed time in the open world
is not moved by the loop or the ground resolution, and its committed position is its
input position. -/
theorem centre_and_anchor_witness :
    faller.mActorRaw.isMobile = true ∧ faller.mActorRaw.collisionMode = true
      ∧ (groundState sampleConfig sampleMath openWorld faller 0 calm).newPosition
          = (Vec3.mk faller.mPosition.x faller.mPosition.y
              (faller.mPosition.z + faller.mActorRaw.halfExtents.z))
      ∧ (move sampleConfig sampleMath openWorld faller 0 calm).actor.mPosition
          = faller.mPosition := by
  have hp : finalProbeIssued sampleConfig sampleMath openWorld faller 0 calm := by
    unfold finalProbeIssued
    rw [loopExit_zero_time]
    simp [probeIssued, loopStart, startMotion, selectRegime, toCentre, resetFrame, centred_eq,
      swimLevel, faller, sampleBody, sampleConfig]
    norm_num
  have hh : ¬ hitsGround (finalProbe sampleConfig sampleMath openWorld faller 0 calm) := by
    unfold finalProbe
    simp [hitsGround, groundProbe, openWorld]
  have hg : (groundState sampleConfig sampleMath openWorld faller 0 calm).newPosition
      = (Vec3.mk faller.mPosition.x faller.mPosition.y
          (faller.mPosition.z + faller.mActorRaw.halfExtents.z)) := by
    rw [groundState_miss _ _ _ _ _ _ hp hh]
    dsimp only
    rw [loopExit_zero_time]
    simp [loopStart, centred_eq]
  exact ⟨rfl, rfl, hg,
    (centre_and_anchor sampleConfig sampleMath openWorld faller 0 calm rfl rfl).2.2.2.2.2 hg⟩

/-! ## C11: stepping comes before sliding -/

/-- A pass of the loop body whose cast is obstructed goes on with lines 196-237. -/
theorem loopBody_obstructed (cfg : Config) (w : CollisionWorld) (actor : ActorFrameData)
    (swimlevel : ℚ) (origVelocity : Vec3) (s : LoopState)
    (hr : ¬ swimRedirect actor swimlevel s)
    (hd : (s.newPosition.sub (nextpos s)).length2 > 1 / 10000)
    (hfr : (w.doTrace s.newPosition (nextpos s)).mFraction < 1) :
    loopBody cfg w actor swimlevel origVelocity s
      = afterHit cfg w actor swimlevel origVelocity (w.doTrace s.newPosition (nextpos s))
          { s with
            bodyRuns := s.bodyRuns + 1
            log := s.log ++ [Query.doTrace s.newPosition (nextpos s)] } := by
  unfold loopBody
  dsimp only
  rw [if_neg hr, if_pos hd, if_neg (not_le.mpr hfr)]

/-- C11: in a pass of the loop body whose cast is obstructed (`mFraction < 1`), the
stepper is called if and only if the obstruction height `mHitPoint.z - mEndPos.z +
halfExtents.z` is below `sStepSizeUp` and the hit object is not an actor: the queries of
the pass are the cast followed by the call of the stepper in that case, and the cast alone
otherwise.  The stepper is called with the velocity the pass started with, so no slide has
happened before it.  When the stepper was called and reported success, the velocity is
left as it was and the loop goes on to its next pass: no slide is taken.  Whenever the pass
does change the velocity, the stepper was not called or reported failure, and the new
velocity is the slide velocity. -/
theorem step_before_slide (cfg : Config) (w : CollisionWorld) (actor : ActorFrameData)
    (swimlevel : ℚ) (origVelocity : Vec3) (s : LoopState)
    (hr : ¬ swimRedirect actor swimlevel s)
    (hd : (s.newPosition.sub (nextpos s)).length2 > 1 / 10000)
    (hfr : (w.doTrace s.newPosition (nextpos s)).mFraction < 1) :
    (stepAttempted cfg actor (w.doTrace s.newPosition (nextpos s)) = true
        ↔ (w.doTrace s.newPosition (nextpos s)).mHitPoint.z - (w.doTrace s.newPosition (nextpos s)).mEndPos.z
              + actor.mActorRaw.halfExtents.z < cfg.sStepSizeUp
            ∧ isActor (w.doTrace s.newPosition (nextpos s)).mHitObject = false)
      ∧ (stepAttempted cfg actor (w.doTrace s.newPosition (nextpos s)) = true →
          (loopBody cfg w actor swimlevel origVelocity s).2.log
            = s.log ++ [Query.doTrace s.newPosition (nextpos s),
                Query.step (backOff (w.doTrace s.newPosition (nextpos s)) s.newPosition)
                  (s.velocity.scale s.remainingTime) s.remainingTime])
      ∧ (stepAttempted cfg actor (w.doTrace s.newPosition (nextpos s)) = false →
          (loopBody cfg w actor swimlevel origVelocity s).2.log
            = s.log ++ [Query.doTrace s.newPosition (nextpos s)])
      ∧ (stepAttempted cfg actor (w.doTrace s.newPosition (nextpos s)) = true →
          (w.step (backOff (w.doTrace s.newPosition (nextpos s)) s.newPosition)
            (s.velocity.scale s.remainingTime) s.remainingTime).result = true →
          (loopBody cfg w actor swimlevel origVelocity s).1 = Flow.next
            ∧ (loopBody cfg w actor swimlevel origVelocity s).2.velocity = s.velocity)
      ∧ ((loopBody cfg w actor swimlevel origVelocity s).2.velocity ≠ s.velocity →
          (stepAttempted cfg actor (w.doTrace s.newPosition (nextpos s)) = false
            ∨ (w.step (backOff (w.doTrace s.newPosition (nextpos s)) s.newPosition)
            (s.velocity.scale s.remainingTime) s.remainingTime).result = false)
          ∧ (loopBody cfg w actor swimlevel origVelocity s).2.velocity
            = slideVelocity actor swimlevel (w.doTrace s.newPosition (nextpos s)) s.velocity
                (loopBody cfg w actor swimlevel origVelocity s).2.newPosition) := by
  rw [loopBody_obstructed cfg w actor swimlevel origVelocity s hr hd hfr]
  refine ⟨?_, ?_, ?_, ?_, ?_⟩
  · simp [stepAttempted]
  · intro ha
    rw [afterHit_log]
    simp [stepLog, ha]
  · intro ha
    rw [afterHit_log]
    simp [stepLog, ha]
  · intro ha hres
    unfold afterHit
    dsimp only
    have hso : stepOutcome cfg w actor (w.doTrace s.newPosition (nextpos s))
        (backOff (w.doTrace s.newPosition (nextpos s)) s.newPosition) s.velocity s.remainingTime
        = (w.step (backOff (w.doTrace s.newPosition (nextpos s)) s.newPosition)
            (s.velocity.scale s.remainingTime) s.remainingTime) := by
      unfold stepOutcome
      rw [if_pos ha]
    rw [hso, if_pos hres]
    exact ⟨rfl, rfl⟩
  · intro hne
    unfold afterHit at hne ⊢
    dsimp only at hne ⊢
    by_cases hres : (stepOutcome cfg w actor (w.doTrace s.newPosition (nextpos s))
        (backOff (w.doTrace s.newPosition (nextpos s)) s.newPosition) s.velocity s.remainingTime).result = true
    · rw [if_pos hres] at hne
      exact absurd rfl hne
    · rw [if_neg hres] at hne ⊢
      constructor
      · cases ha : stepAttempted cfg actor (w.doTrace s.newPosition (nextpos s))
        · exact Or.inl rfl
        · right
          unfold stepOutcome at hres
          rw [if_pos ha] at hres
          simpa using hres
      · split_ifs at hne ⊢
        · exact absurd rfl hne
        · exact absurd rfl hne
        · rfl

/-- C11 at a concrete input: against the low ledge the pass asks for the cast and then for
the step, which succeeds, and the velocity is not changed. -/
theorem step_before_slide_witness :
    ¬ swimRedirect faller 0 walking
      ∧ (ledgeWorld.doTrace walking.newPosition (nextpos walking)).mFraction < 1
      ∧ stepAttempted sampleConfig faller
          (ledgeWorld.doTrace walking.newPosition (nextpos walking)) = true
      ∧ (loopBody sampleConfig ledgeWorld faller 0 ⟨0, 1, 0⟩ walking).2.log
          = [Query.doTrace walking.newPosition (nextpos walking),
              Query.step
                (backOff (ledgeWorld.doTrace walking.newPosition (nextpos walking))
                  walking.newPosition)
                (walking.velocity.scale walking.remainingTime) walking.remainingTime]
      ∧ (loopBody sampleConfig ledgeWorld faller 0 ⟨0, 1, 0⟩ walking).2.velocity
          = walking.velocity := by
  have hr : ¬ swimRedirect faller 0 walking := by
    simp [swimRedirect, nextpos, walking, Vec3.add, Vec3.scale]
  have hd : (walking.newPosition.sub (nextpos walking)).length2 > 1 / 10000 := by
    simp [nextpos, walking, Vec3.add, Vec3.sub, Vec3.scale, Vec3.length2]
    norm_num
  have hfr : (ledgeWorld.doTrace walking.newPosition (nextpos walking)).mFraction < 1 := by
    norm_num [ledgeWorld]
  have ha : stepAttempted sampleConfig faller
      (ledgeWorld.doTrace walking.newPosition (nextpos walking)) = true := by
    simp [stepAttempted, ledgeWorld, isActor, worldObject, faller, sampleBody, sampleConfig]
    norm_num
  have h := step_before_slide sampleConfig ledgeWorld faller 0 ⟨0, 1, 0⟩ walking hr hd hfr
  exact ⟨hr, hfr, ha, h.2.1 ha, (h.2.2.2.1 ha rfl).2⟩

/-! ## C21 and C22: the ground resolution, landing and skipping -/

/-- The walking-on-water flag `landOn` leaves: set when the hit object is water, as it was
otherwise (lines 254-255). -/
theorem landOn_walkingOnWater (cfg : Config) (ext : Externals) (actor : ActorFrameData)
    (tracer : ActorTracer) (inertia newPosition : Vec3) (log : List Query) :
    (landOn cfg ext actor tracer inertia newPosition log).actor.mActorRaw.walkingOnWater
      = (decide (tracer.mHitObject.collisionFilterGroup = CollisionType.Water)
          || actor.mActorRaw.walkingOnWater) := by
  unfold landOn
  dsimp only
  cases tracer.mHitObject.userPointer <;> split_ifs with h <;> simp [h]

/-- The flags `commit` writes: on-slope is the local `isOnSlope`, walking-on-water is what
the ground resolution left. -/
theorem commit_flags (cfg : Config) (actor : ActorFrameData) (time swimlevel : ℚ)
    (g : GroundState) :
    (commit cfg actor time swimlevel g).mActorRaw.onSlope = g.isOnSlope
      ∧ (commit cfg actor time swimlevel g).mActorRaw.walkingOnWater
          = g.actor.mActorRaw.walkingOnWater
      ∧ (commit cfg actor time swimlevel g).mPosition
          = g.newPosition.sub ⟨0, 0, actor.mActorRaw.halfExtents.z⟩ := by
  unfold commit
  refine ⟨rfl, rfl, ?_⟩
  simp [Vec3.sub]

/-- C21: for a mobile actor with collision enabled, when the ground probe is made and hits
an object that is not an actor (`mFraction < 1`), the tick ends with on-ground true,
on-slope equal to the negation of `isWalkableSlope` of the probe's normal, and
walking-on-water true if and only if the hit object is of the water category.  Unless the
actor is flying, the resolved centre keeps the x and y the loop produced and takes the
probe's end z plus the ground clearance as z (the committed position is that, lowered by
`halfExtents.z`); for a flying actor the resolved centre is the one the loop produced. -/
theorem ground_probe_lands (cfg : Config) (ext : Externals) (w : CollisionWorld)
    (actor : ActorFrameData) (time : ℚ) (worldData : WorldFrameData)
    (hm : actor.mActorRaw.isMobile = true) (hc : actor.mActorRaw.collisionMode = true)
    (hp : finalProbeIssued cfg ext w actor time worldData)
    (hh : hitsGround (finalProbe cfg ext w actor time worldData)) :
    (move cfg ext w actor time worldData).actor.mActorRaw.onGround = true
      ∧ (move cfg ext w actor time worldData).actor.mActorRaw.onSlope
          = !isWalkableSlope cfg ext (finalProbe cfg ext w actor time worldData).mPlaneNormal
      ∧ ((move cfg ext w actor time worldData).actor.mActorRaw.walkingOnWater = true
          ↔ (finalProbe cfg ext w actor time worldData).mHitObject.collisionFilterGroup
              = CollisionType.Water)
      ∧ (actor.mFlying = false →
          (groundState cfg ext w actor time worldData).newPosition
              = ⟨(loopExit cfg ext w actor time worldData).newPosition.x,
                  (loopExit cfg ext w actor time worldData).newPosition.y,
                  (finalProbe cfg ext w actor time worldData).mEndPos.z + cfg.sGroundOffset⟩
            ∧ (move cfg ext w actor time worldData).actor.mPosition
              = ⟨(loopExit cfg ext w actor time worldData).newPosition.x,
                  (loopExit cfg ext w actor time worldData).newPosition.y,
                  (finalProbe cfg ext w actor time worldData).mEndPos.z + cfg.sGroundOffset
                    - actor.mActorRaw.halfExtents.z⟩)
      ∧ (actor.mFlying = true →
          (groundState cfg ext w actor time worldData).newPosition
              = (loopExit cfg ext w actor time worldData).newPosition
            ∧ (move cfg ext w actor time worldData).actor.mPosition
              = (loopExit cfg ext w actor time worldData).newPosition.sub
                  ⟨0, 0, actor.mActorRaw.halfExtents.z⟩) := by
  have hcf : (centred actor).mFlying = actor.mFlying := by rw [centred_eq]
  have hcw : (centred actor).mActorRaw.walkingOnWater = false := by rw [centred_eq]
  have hhe : (centred actor).mActorRaw.halfExtents = actor.mActorRaw.halfExtents := by
    rw [centred_eq]
  have hg := groundState_hit cfg ext w actor time worldData hp hh
  have hf := landOn_fields cfg ext (centred actor) (finalProbe cfg ext w actor time worldData)
    (startMotion cfg ext (toCentre (resetFrame actor)) worldData).inertia
    (loopExit cfg ext w actor time worldData).newPosition
    ((loopExit cfg ext w actor time worldData).log
      ++ [Query.doTrace (loopExit cfg ext w actor time worldData).newPosition
        (probeTarget cfg (centred actor) (loopExit cfg ext w actor time worldData).newPosition)])
  have hw := landOn_walkingOnWater cfg ext (centred actor) (finalProbe cfg ext w actor time worldData)
    (startMotion cfg ext (toCentre (resetFrame actor)) worldData).inertia
    (loopExit cfg ext w actor time worldData).newPosition
    ((loopExit cfg ext w actor time worldData).log
      ++ [Query.doTrace (loopExit cfg ext w actor time worldData).newPosition
        (probeTarget cfg (centred actor) (loopExit cfg ext w actor time worldData).newPosition)])
  rw [← hg] at hf hw
  obtain ⟨h1, h2, _, _, h5, h6, h7, h8⟩ := hf
  rw [move_of_collision _ _ _ _ _ _ hm hc]
  dsimp only
  rw [(commit_standingOn _ _ _ _ _).2, (commit_flags _ _ _ _ _).1, (commit_flags _ _ _ _ _).2.1,
    (commit_flags _ _ _ _ _).2.2, hhe]
  refine ⟨h1, h2, ?_, ?_, ?_⟩
  · rw [hw, hcw]
    simp
  · intro hfl
    have hz := h8 (by rw [hcf]; exact hfl)
    have hpos : (groundState cfg ext w actor time worldData).newPosition
        = ⟨(loopExit cfg ext w actor time worldData).newPosition.x,
            (loopExit cfg ext w actor time worldData).newPosition.y,
            (finalProbe cfg ext w actor time worldData).mEndPos.z + cfg.sGroundOffset⟩ := by
      cases hgp : (groundState cfg ext w actor time worldData).newPosition with
      | mk x y z =>
        rw [hgp] at h5 h6 hz
        simp only at h5 h6 hz
        rw [h5, h6, hz]
    refine ⟨hpos, ?_⟩
    rw [hpos]
    simp [Vec3.sub]
  · intro hfl
    have hpos := h7 (by rw [hcf]; exact hfl)
    exact ⟨hpos, by rw [hpos]⟩

/-- C21 at a concrete input: the actor `faller` over the floor is put on the ground, off
any slope and not on water. -/
theorem ground_probe_lands_witness :
    faller.mActorRaw.isMobile = true ∧ faller.mActorRaw.collisionMode = true
      ∧ finalProbeIssued sampleConfig sampleMath floorWorld faller 0 calm
      ∧ hitsGround (finalProbe sampleConfig sampleMath floorWorld faller 0 calm)
      ∧ (move sampleConfig sampleMath floorWorld faller 0 calm).actor.mActorRaw.onGround
          = true
      ∧ (move sampleConfig sampleMath floorWorld faller 0 calm).actor.mActorRaw.onSlope
          = !isWalkableSlope sampleConfig sampleMath
              (finalProbe sampleConfig sampleMath floorWorld faller 0 calm).mPlaneNormal :=
  ⟨rfl, rfl, faller_lands.1, faller_lands.2,
    (ground_probe_lands sampleConfig sampleMath floorWorld faller 0 calm rfl rfl
      faller_lands.1 faller_lands.2).1,
    (ground_probe_lands sampleConfig sampleMath floorWorld faller 0 calm rfl rfl
      faller_lands.1 faller_lands.2).2.1⟩

/-- C22: for a mobile actor with collision enabled, if the inertia left by regime
selection points up (`inertia.z > 0`) or the centre position the loop resolved is below
swim level, `move` makes no ground probe (its queries are those of the loop), leaves
`standingOn` as it was, keeps the position the loop resolved (committed lowered by
`halfExtents.z`), and commits on-ground, on-slope and walking-on-water all false. -/
theorem ground_probe_skipped (cfg : Config) (ext : Externals) (w : CollisionWorld)
    (actor : ActorFrameData) (time : ℚ) (worldData : WorldFrameData)
    (hm : actor.mActorRaw.isMobile = true) (hc : actor.mActorRaw.collisionMode = true)
    (h : (startMotion cfg ext (toCentre (resetFrame actor)) worldData).inertia.z > 0
      ∨ (loopExit cfg ext w actor time worldData).newPosition.z < swimLevel cfg actor) :
    (move cfg ext w actor time worldData).log = (loopExit cfg ext w actor time worldData).log
      ∧ (move cfg ext w actor time worldData).actor.mStandingOn = actor.mStandingOn
      ∧ (groundState cfg ext w actor time worldData).newPosition = (loopExit cfg ext w actor time worldData).newPosition
      ∧ (move cfg ext w actor time worldData).actor.mPosition
          = (loopExit cfg ext w actor time worldData).newPosition.sub ⟨0, 0, actor.mActorRaw.halfExtents.z⟩
      ∧ (move cfg ext w actor time worldData).actor.mActorRaw.onGround = false
      ∧ (move cfg ext w actor time worldData).actor.mActorRaw.onSlope = false
      ∧ (move cfg ext w actor time worldData).actor.mActorRaw.walkingOnWater = false := by
  have hp : ¬ finalProbeIssued cfg ext w actor time worldData := by
    unfold finalProbeIssued probeIssued
    rintro ⟨h1, h2⟩
    rcases h with h | h
    · exact h1 h
    · exact h2 h
  have hg := groundState_skip cfg ext w actor time worldData hp
  have hhe : (centred actor).mActorRaw.halfExtents = actor.mActorRaw.halfExtents := by
    rw [centred_eq]
  rw [move_of_collision _ _ _ _ _ _ hm hc]
  dsimp only
  rw [(commit_standingOn _ _ _ _ _).1, (commit_standingOn _ _ _ _ _).2,
    (commit_flags _ _ _ _ _).1, (commit_flags _ _ _ _ _).2.1, (commit_flags _ _ _ _ _).2.2,
    hhe, hg]
  dsimp only
  rw [centred_eq]
  exact ⟨rfl, rfl, rfl, rfl, rfl, rfl, rfl⟩

/-- C22 at a concrete input: the actor `swimmer`, whose centre is below swim level, gets
no ground probe with zero elapsed time. -/
theorem ground_probe_skipped_witness :
    swimmer.mActorRaw.isMobile = true ∧ swimmer.mActorRaw.collisionMode = true
      ∧ (loopExit sampleConfig sampleMath openWorld swimmer 0 calm).newPosition.z
          < swimLevel sampleConfig swimmer
      ∧ (move sampleConfig sampleMath openWorld swimmer 0 calm).log
          = (loopExit sampleConfig sampleMath openWorld swimmer 0 calm).log
      ∧ (move sampleConfig sampleMath openWorld swimmer 0 calm).actor.mActorRaw.onGround
          = false := by
  have h : (loopExit sampleConfig sampleMath openWorld swimmer 0 calm).newPosition.z
      < swimLevel sampleConfig swimmer := by
    rw [loopExit_zero_time]
    simp [loopStart, centred_eq, swimLevel, swimmer, faller, sampleBody, sampleConfig]
    norm_num
  exact ⟨rfl, rfl, h,
    (ground_probe_skipped sampleConfig sampleMath openWorld swimmer 0 calm rfl rfl
      (Or.inr h)).1,
    (ground_probe_skipped sampleConfig sampleMath openWorld swimmer 0 calm rfl rfl
      (Or.inr h)).2.2.2.2.1⟩

/-! ## C23: pushed away from an actor underneath -/

/-- A probe that hit an actor did not hit ground (line 247). -/
theorem not_hitsGround_of_actor (tracer : ActorTracer)
    (ha : isActor tracer.mHitObject = true) : ¬ hitsGround tracer := by
  intro hh
  have h2 := hh.2
  rw [ha] at h2
  exact Bool.noConfusion h2

/-- The push of lines 270-278 when the probe is blocked by an actor. -/
theorem pushAway_actor (ext : Externals) (actor : ActorFrameData) (tracer : ActorTracer)
    (velocity inertia : Vec3) (hfr : tracer.mFraction < 1)
    (ha : isActor tracer.mHitObject = true) :
    pushAway ext actor tracer velocity inertia
      = if (Vec3.mk velocity.x velocity.y 0).length2 < 100 * 100 then
          ((pushOffset actor tracer).normalize ext).scale 100
        else inertia := by
  unfold pushAway
  rw [if_pos ⟨hfr, ha⟩]
  rfl

/-- A horizontal vector, normalised with a function that is a positive square root at its
squared length and then scaled by 100, has zero vertical component, squared length 100
squared, and is a positive multiple of the vector. -/
theorem normalize_scale (ext : Externals) (x y : ℚ)
    (hpos : 0 < ext.sqrt (Vec3.mk x y 0).length2)
    (hsq : ext.sqrt (Vec3.mk x y 0).length2 * ext.sqrt (Vec3.mk x y 0).length2
      = (Vec3.mk x y 0).length2) :
    ((Vec3.mk x y 0).normalize ext).scale 100
        = ⟨x * (100 / ext.sqrt (Vec3.mk x y 0).length2),
            y * (100 / ext.sqrt (Vec3.mk x y 0).length2), 0⟩
      ∧ (((Vec3.mk x y 0).normalize ext).scale 100).length2 = 100 * 100
      ∧ 0 < 100 / ext.sqrt (Vec3.mk x y 0).length2 := by
  have hne : ext.sqrt (Vec3.mk x y 0).length2 ≠ 0 := ne_of_gt hpos
  have hn : (Vec3.mk x y 0).normalize ext
      = (Vec3.mk x y 0).scale (1 / ext.sqrt (Vec3.mk x y 0).length2) := by
    unfold Vec3.normalize Vec3.length
    dsimp only
    rw [if_pos hpos]
  have hL : (Vec3.mk x y 0).length2 = x * x + y * y := by
    simp [Vec3.length2]
  refine ⟨?_, ?_, by positivity⟩
  · rw [hn]
    simp only [Vec3.scale, Vec3.mk.injEq]
    refine ⟨by ring, by ring, by ring⟩
  · have key : ∀ n : ℚ, 0 < n → n * n = x * x + y * y →
        (((Vec3.mk x y 0).scale (1 / n)).scale 100).length2 = 100 * 100 := by
      intro n hn0 hnn
      have hn1 : n ≠ 0 := ne_of_gt hn0
      simp only [Vec3.scale, Vec3.length2]
      field_simp
      nlinarith [hnn]
    rw [hn]
    exact key _ hpos (by rw [hsq, hL])

/-- The vertical component of the push is zero, whatever the square root does. -/
theorem normalize_scale_z (ext : Externals) (x y : ℚ) :
    (((Vec3.mk x y 0).normalize ext).scale 100).z = 0 := by
  unfold Vec3.normalize
  dsimp only
  split_ifs <;> simp [Vec3.scale]

/-- The scenario of `faller` with zero elapsed time, in any world: the probe is made, from
the centre `(0, 0, 160)`, and the velocity left by the loop is `(0, 1, 0)`. -/
theorem faller_probe (w : CollisionWorld) :
    finalProbeIssued sampleConfig sampleMath w faller 0 calm
      ∧ (loopExit sampleConfig sampleMath w faller 0 calm).newPosition = ⟨0, 0, 160⟩
      ∧ (loopExit sampleConfig sampleMath w faller 0 calm).velocity = ⟨0, 1, 0⟩ := by
  refine ⟨?_, ?_, ?_⟩
  · unfold finalProbeIssued
    rw [loopExit_zero_time]
    simp [probeIssued, loopStart, startMotion, selectRegime, toCentre, resetFrame, centred_eq,
      swimLevel, faller, sampleBody, sampleConfig]
    norm_num
  · rw [loopExit_zero_time, faller_loopStart]
  · rw [loopExit_zero_time, faller_loopStart]

/-- C23, where the code fails it: the actor `faller` comes to rest exactly above the centre
of the bounding box of another actor; the probe is blocked by that actor and the horizontal
speed is 1, below 100; the inertia handed to gravity integration is the zero vector, not a
vector of length 100 pointing away from that centre: the offset of lines 275-277 is zero,
`normalize` leaves it alone and nothing guards this case, so the push that the comment of
lines 265-267 announces ("so that we do not stay suspended in air indefinitely") does not
happen. -/
theorem actor_push_away_counterexample :
    faller.mActorRaw.isMobile = true ∧ faller.mActorRaw.collisionMode = true
      ∧ finalProbeIssued sampleConfig sampleMath (crowdWorld actorBelow) faller 0 calm
      ∧ (finalProbe sampleConfig sampleMath (crowdWorld actorBelow) faller 0 calm).mFraction < 1
      ∧ isActor (finalProbe sampleConfig sampleMath (crowdWorld actorBelow) faller 0 calm).mHitObject = true
      ∧ (Vec3.mk (loopExit sampleConfig sampleMath (crowdWorld actorBelow) faller 0 calm).velocity.x
            (loopExit sampleConfig sampleMath (crowdWorld actorBelow) faller 0 calm).velocity.y 0).length2 < 100 * 100
      ∧ (groundState sampleConfig sampleMath (crowdWorld actorBelow) faller 0 calm).inertia = ⟨0, 0, 0⟩
      ∧ (groundState sampleConfig sampleMath (crowdWorld actorBelow) faller 0 calm).inertia.length2 ≠ 100 * 100 := by
  have hq := faller_probe (crowdWorld actorBelow)
  have hfr : (finalProbe sampleConfig sampleMath (crowdWorld actorBelow) faller 0 calm).mFraction < 1 := by
    norm_num [finalProbe, groundProbe, crowdWorld]
  have ha : isActor (finalProbe sampleConfig sampleMath (crowdWorld actorBelow) faller 0 calm).mHitObject = true := by
    simp [finalProbe, groundProbe, crowdWorld, isActor, actorBelow]
  have hs : (Vec3.mk (loopExit sampleConfig sampleMath (crowdWorld actorBelow) faller 0 calm).velocity.x
      (loopExit sampleConfig sampleMath (crowdWorld actorBelow) faller 0 calm).velocity.y 0).length2 < 100 * 100 := by
    rw [hq.2.2]
    norm_num [Vec3.length2]
  have hi : (groundState sampleConfig sampleMath (crowdWorld actorBelow) faller 0 calm).inertia = ⟨0, 0, 0⟩ := by
    rw [groundState_miss _ _ _ _ _ _ hq.1 (not_hitsGround_of_actor _ ha)]
    dsimp only
    rw [pushAway_actor _ _ _ _ _ hfr ha, if_pos hs]
    simp [pushOffset, finalProbe, groundProbe, crowdWorld, actorBelow, centred_eq, faller,
      Vec3.normalize, Vec3.length, Vec3.length2, Vec3.add, Vec3.divide, Vec3.scale, sampleMath]
  refine ⟨rfl, rfl, hq.1, hfr, ha, hs, hi, ?_⟩
  rw [hi]
  norm_num [Vec3.length2]

/-- Lines 264-282 away from that input: for a mobile actor with collision enabled whose
ground probe is made and is blocked by another actor, on-ground is committed false and the
inertia handed to gravity integration is as follows.  If the squared horizontal speed of the velocity the
loop ended with is below 100 squared, it is 100 times the normalised horizontal offset of
the actor's position (the centre the tick started from) from the centre of the blocking
actor's bounding box; its vertical component is zero, and when the length of that offset
is positive (its square root is a positive number whose square is the squared length) it
is a positive multiple of the offset and has length 100.  If the horizontal speed is not
below 100, the inertia is the one regime selection left. -/
theorem actor_push_away (cfg : Config) (ext : Externals) (w : CollisionWorld)
    (actor : ActorFrameData) (time : ℚ) (worldData : WorldFrameData)
    (hm : actor.mActorRaw.isMobile = true) (hc : actor.mActorRaw.collisionMode = true)
    (hp : finalProbeIssued cfg ext w actor time worldData)
    (hfr : (finalProbe cfg ext w actor time worldData).mFraction < 1)
    (ha : isActor (finalProbe cfg ext w actor time worldData).mHitObject = true) :
    (move cfg ext w actor time worldData).actor.mActorRaw.onGround = false
      ∧ (move cfg ext w actor time worldData).actor.mActorRaw.inertialForce
          = integrateGravity cfg (centred actor) time (swimLevel cfg actor)
              (groundState cfg ext w actor time worldData)
      ∧ (pushOffset (centred actor)
              (finalProbe cfg ext w actor time worldData))
          = ⟨actor.mPosition.x
                - ((finalProbe cfg ext w actor time worldData).mHitObject.aabbMin.x
                  + (finalProbe cfg ext w actor time worldData).mHitObject.aabbMax.x) / 2,
              actor.mPosition.y
                - ((finalProbe cfg ext w actor time worldData).mHitObject.aabbMin.y
                  + (finalProbe cfg ext w actor time worldData).mHitObject.aabbMax.y) / 2,
              0⟩
      ∧ ((Vec3.mk (loopExit cfg ext w actor time worldData).velocity.x
            (loopExit cfg ext w actor time worldData).velocity.y 0).length2 < 100 * 100 →
          (groundState cfg ext w actor time worldData).inertia
              = ((pushOffset (centred actor)
              (finalProbe cfg ext w actor time worldData)).normalize ext).scale 100
            ∧ (groundState cfg ext w actor time worldData).inertia.z = 0
            ∧ (0 < ext.sqrt (pushOffset (centred actor)
              (finalProbe cfg ext w actor time worldData)).length2 →
                ext.sqrt (pushOffset (centred actor)
              (finalProbe cfg ext w actor time worldData)).length2
                    * ext.sqrt (pushOffset (centred actor)
              (finalProbe cfg ext w actor time worldData)).length2
                  = (pushOffset (centred actor)
              (finalProbe cfg ext w actor time worldData)).length2 →
                (groundState cfg ext w actor time worldData).inertia
                    = (pushOffset (centred actor)
              (finalProbe cfg ext w actor time worldData)).scale
                        (100 / ext.sqrt (pushOffset (centred actor)
              (finalProbe cfg ext w actor time worldData)).length2)
                  ∧ 0 < 100 / ext.sqrt (pushOffset (centred actor)
              (finalProbe cfg ext w actor time worldData)).length2
                  ∧ (groundState cfg ext w actor time worldData).inertia.length2 = 100 * 100))
      ∧ (¬ (Vec3.mk (loopExit cfg ext w actor time worldData).velocity.x
            (loopExit cfg ext w actor time worldData).velocity.y 0).length2 < 100 * 100 →
          (groundState cfg ext w actor time worldData).inertia
            = (startMotion cfg ext (toCentre (resetFrame actor)) worldData).inertia) := by
  have hh : ¬ hitsGround (finalProbe cfg ext w actor time worldData) := by
    exact not_hitsGround_of_actor _ ha
  have hg := groundState_miss cfg ext w actor time worldData hp hh
  have hpo : (pushOffset (centred actor)
              (finalProbe cfg ext w actor time worldData))
      = ⟨actor.mPosition.x
            - ((finalProbe cfg ext w actor time worldData).mHitObject.aabbMin.x
              + (finalProbe cfg ext w actor time worldData).mHitObject.aabbMax.x) / 2,
          actor.mPosition.y
            - ((finalProbe cfg ext w actor time worldData).mHitObject.aabbMin.y
              + (finalProbe cfg ext w actor time worldData).mHitObject.aabbMax.y) / 2,
          0⟩ := by
    simp [pushOffset, centred_eq, Vec3.add, Vec3.divide]
  have hin : (groundState cfg ext w actor time worldData).inertia
      = if (Vec3.mk (loopExit cfg ext w actor time worldData).velocity.x
            (loopExit cfg ext w actor time worldData).velocity.y 0).length2 < 100 * 100 then
          ((pushOffset (centred actor)
              (finalProbe cfg ext w actor time worldData)).normalize ext).scale 100
        else (startMotion cfg ext (toCentre (resetFrame actor)) worldData).inertia := by
    rw [hg]
    dsimp only
    exact pushAway_actor _ _ _ _ _ hfr ha
  refine ⟨?_, ?_, hpo, ?_, ?_⟩
  · rw [move_of_collision _ _ _ _ _ _ hm hc]
    dsimp only
    rw [(commit_standingOn _ _ _ _ _).2, hg]
  · rw [move_of_collision _ _ _ _ _ _ hm hc]
    rfl
  · intro hs
    rw [hin, if_pos hs]
    refine ⟨rfl, ?_, ?_⟩
    · rw [hpo]
      exact normalize_scale_z ext _ _
    · intro hpos hsq
      rw [hpo] at hpos hsq ⊢
      have hn := normalize_scale ext _ _ hpos hsq
      refine ⟨?_, hn.2.2, hn.2.1⟩
      rw [hn.1]
      simp [Vec3.scale]
  · intro hs
    rw [hin, if_neg hs]

/-- The push at a concrete input with a non-zero offset: the actor `faller` comes to rest
one unit to the side of the centre of the actor below it and is handed the inertia
`(100, 0, 0)`. -/
theorem actor_push_away_witness :
    faller.mActorRaw.isMobile = true ∧ faller.mActorRaw.collisionMode = true
      ∧ finalProbeIssued sampleConfig sampleMath (crowdWorld actorAside) faller 0 calm
      ∧ (finalProbe sampleConfig sampleMath (crowdWorld actorAside) faller 0 calm).mFraction < 1
      ∧ isActor (finalProbe sampleConfig sampleMath (crowdWorld actorAside) faller 0 calm).mHitObject = true
      ∧ (move sampleConfig sampleMath (crowdWorld actorAside) faller 0 calm).actor.mActorRaw.onGround = false
      ∧ (groundState sampleConfig sampleMath (crowdWorld actorAside) faller 0 calm).inertia = ⟨100, 0, 0⟩ := by
  have hq := faller_probe (crowdWorld actorAside)
  have hfr : (finalProbe sampleConfig sampleMath (crowdWorld actorAside) faller 0 calm).mFraction < 1 := by
    norm_num [finalProbe, groundProbe, crowdWorld]
  have ha : isActor (finalProbe sampleConfig sampleMath (crowdWorld actorAside) faller 0 calm).mHitObject = true := by
    simp [finalProbe, groundProbe, crowdWorld, isActor, actorAside]
  have hs : (Vec3.mk (loopExit sampleConfig sampleMath (crowdWorld actorAside) faller 0 calm).velocity.x
      (loopExit sampleConfig sampleMath (crowdWorld actorAside) faller 0 calm).velocity.y 0).length2 < 100 * 100 := by
    rw [hq.2.2]
    norm_num [Vec3.length2]
  have h := actor_push_away sampleConfig sampleMath (crowdWorld actorAside) faller 0 calm
    rfl rfl hq.1 hfr ha
  refine ⟨rfl, rfl, hq.1, hfr, ha, h.1, ?_⟩
  rw [(h.2.2.2.1 hs).1]
  simp [pushOffset, finalProbe, groundProbe, crowdWorld, actorAside, centred_eq, faller,
    Vec3.normalize, Vec3.length, Vec3.length2, Vec3.add, Vec3.divide, Vec3.scale, sampleMath]
  norm_num

/-! ## C24: a successful step and pure water creatures -/

/-- C24: in a pass of the loop body whose cast is obstructed and in which the stepper is
called and reports success: if the actor is a pure water creature and the stepped position
would put it above water (`newPosition.z + halfExtents.z > waterlevel`), the position
becomes the one held just before the step attempt (the position of the pass after the
back-off of lines 197-202, which is the position of the pass itself unless the cast made no
progress at all); in every other case the stepped position is kept.  In both cases the
velocity is unchanged, no slide is taken, and the loop goes on to its next pass. -/
theorem step_success (cfg : Config) (w : CollisionWorld) (actor : ActorFrameData)
    (swimlevel : ℚ) (origVelocity : Vec3) (s : LoopState)
    (hr : ¬ swimRedirect actor swimlevel s)
    (hd : (s.newPosition.sub (nextpos s)).length2 > 1 / 10000)
    (hfr : (w.doTrace s.newPosition (nextpos s)).mFraction < 1)
    (ha : stepAttempted cfg actor (w.doTrace s.newPosition (nextpos s)) = true)
    (hres : (w.step (backOff (w.doTrace s.newPosition (nextpos s)) s.newPosition)
          (s.velocity.scale s.remainingTime) s.remainingTime).result = true) :
    ((actor.mActorRaw.isPureWaterCreature = true
          ∧ (w.step (backOff (w.doTrace s.newPosition (nextpos s)) s.newPosition)
          (s.velocity.scale s.remainingTime) s.remainingTime).position.z + actor.mActorRaw.halfExtents.z > actor.mWaterlevel) →
        (loopBody cfg w actor swimlevel origVelocity s).2.newPosition = backOff (w.doTrace s.newPosition (nextpos s)) s.newPosition)
      ∧ (¬ (actor.mActorRaw.isPureWaterCreature = true
          ∧ (w.step (backOff (w.doTrace s.newPosition (nextpos s)) s.newPosition)
          (s.velocity.scale s.remainingTime) s.remainingTime).position.z + actor.mActorRaw.halfExtents.z > actor.mWaterlevel) →
        (loopBody cfg w actor swimlevel origVelocity s).2.newPosition
          = (w.step (backOff (w.doTrace s.newPosition (nextpos s)) s.newPosition)
          (s.velocity.scale s.remainingTime) s.remainingTime).position)
      ∧ (¬ (w.doTrace s.newPosition (nextpos s)).mFraction < 1 / 1000000000 →
          backOff (w.doTrace s.newPosition (nextpos s)) s.newPosition = s.newPosition)
      ∧ (loopBody cfg w actor swimlevel origVelocity s).2.velocity = s.velocity
      ∧ (loopBody cfg w actor swimlevel origVelocity s).1 = Flow.next
      ∧ (loopBody cfg w actor swimlevel origVelocity s).2.broke = s.broke := by
  rw [loopBody_obstructed cfg w actor swimlevel origVelocity s hr hd hfr]
  have hso : stepOutcome cfg w actor (w.doTrace s.newPosition (nextpos s))
      (backOff (w.doTrace s.newPosition (nextpos s)) s.newPosition) s.velocity s.remainingTime
      = (w.step (backOff (w.doTrace s.newPosition (nextpos s)) s.newPosition)
          (s.velocity.scale s.remainingTime) s.remainingTime) := by
    unfold stepOutcome
    rw [if_pos ha]
  unfold afterHit
  dsimp only
  rw [hso, if_pos hres]
  refine ⟨?_, ?_, ?_, rfl, rfl, rfl⟩
  · intro h
    dsimp only
    rw [if_pos h]
  · intro h
    dsimp only
    rw [if_neg h]
  · intro h
    unfold backOff
    rw [if_neg h]

/-- C24 at a concrete input: the creature `fish` is carried by the stepper to a position
above the water surface and is put back where it was before the step. -/
theorem step_success_witness :
    ¬ swimRedirect fish 0 walking
      ∧ stepAttempted sampleConfig fish
          (ledgeWorld.doTrace walking.newPosition (nextpos walking)) = true
      ∧ (ledgeWorld.step
            (backOff (ledgeWorld.doTrace walking.newPosition (nextpos walking))
              walking.newPosition)
            (walking.velocity.scale walking.remainingTime) walking.remainingTime).result = true
      ∧ (loopBody sampleConfig ledgeWorld fish 0 ⟨0, 1, 0⟩ walking).2.newPosition
          = walking.newPosition
      ∧ (loopBody sampleConfig ledgeWorld fish 0 ⟨0, 1, 0⟩ walking).2.velocity
          = walking.velocity := by
  have hr : ¬ swimRedirect fish 0 walking := by
    simp [swimRedirect, nextpos, walking, Vec3.add, Vec3.scale]
  have hd : (walking.newPosition.sub (nextpos walking)).length2 > 1 / 10000 := by
    simp [nextpos, walking, Vec3.add, Vec3.sub, Vec3.scale, Vec3.length2]
    norm_num
  have hfr : (ledgeWorld.doTrace walking.newPosition (nextpos walking)).mFraction < 1 := by
    norm_num [ledgeWorld]
  have ha : stepAttempted sampleConfig fish
      (ledgeWorld.doTrace walking.newPosition (nextpos walking)) = true := by
    simp [stepAttempted, ledgeWorld, isActor, worldObject, fish, sampleBody, sampleConfig]
    norm_num
  have h := step_success sampleConfig ledgeWorld fish 0 ⟨0, 1, 0⟩ walking hr hd hfr ha rfl
  refine ⟨hr, ha, rfl, ?_, h.2.2.2.1⟩
  rw [h.1 ⟨rfl, by
    simp [ledgeWorld, backOff, walking, fish, sampleBody]
    norm_num⟩]
  exact h.2.2.1 (by norm_num [ledgeWorld])

/-! ## C25: the velocities adopted from a slide -/

/-- The slide velocity never points up when the actor is neither below swim level nor
flying (lines 228-229). -/
theorem slideVelocity_clamped (actor : ActorFrameData) (swimlevel : ℚ) (tracer : ActorTracer)
    (velocity newPosition : Vec3)
    (h : ¬ (newPosition.z < swimlevel ∨ actor.mFlying = true)) :
    (slideVelocity actor swimlevel tracer velocity newPosition).z ≤ 0 := by
  unfold slideVelocity
  dsimp only
  rw [if_pos h]
  exact min_le_right _ _

/-- What lines 223-236 do once the step was not taken or has failed. -/
theorem afterHit_slide (cfg : Config) (w : CollisionWorld) (actor : ActorFrameData)
    (swimlevel : ℚ) (origVelocity : Vec3) (tracer : ActorTracer) (s : LoopState)
    (hres : ¬ (stepOutcome cfg w actor tracer (backOff tracer s.newPosition) s.velocity
      s.remainingTime).result = true) :
    (afterHit cfg w actor swimlevel origVelocity tracer s).2.newPosition
        = (stepOutcome cfg w actor tracer (backOff tracer s.newPosition) s.velocity
            s.remainingTime).position
      ∧ (((slideVelocity actor swimlevel tracer s.velocity
              (stepOutcome cfg w actor tracer (backOff tracer s.newPosition) s.velocity
                s.remainingTime).position).sub s.velocity).length2 < 1 / 100
          ∨ (slideVelocity actor swimlevel tracer s.velocity
              (stepOutcome cfg w actor tracer (backOff tracer s.newPosition) s.velocity
                s.remainingTime).position).dot origVelocity ≤ 0 →
        (afterHit cfg w actor swimlevel origVelocity tracer s).1 = Flow.exit
          ∧ (afterHit cfg w actor swimlevel origVelocity tracer s).2.velocity = s.velocity
          ∧ (afterHit cfg w actor swimlevel origVelocity tracer s).2.broke = true)
      ∧ (¬ (((slideVelocity actor swimlevel tracer s.velocity
              (stepOutcome cfg w actor tracer (backOff tracer s.newPosition) s.velocity
                s.remainingTime).position).sub s.velocity).length2 < 1 / 100
          ∨ (slideVelocity actor swimlevel tracer s.velocity
              (stepOutcome cfg w actor tracer (backOff tracer s.newPosition) s.velocity
                s.remainingTime).position).dot origVelocity ≤ 0) →
        (afterHit cfg w actor swimlevel origVelocity tracer s).1 = Flow.next
          ∧ (afterHit cfg w actor swimlevel origVelocity tracer s).2.velocity
            = slideVelocity actor swimlevel tracer s.velocity
                (stepOutcome cfg w actor tracer (backOff tracer s.newPosition) s.velocity
                  s.remainingTime).position) := by
  unfold afterHit
  dsimp only
  rw [if_neg hres]
  refine ⟨?_, ?_, ?_⟩
  · split_ifs <;> rfl
  · intro h
    by_cases h1 : ((slideVelocity actor swimlevel tracer s.velocity
        (stepOutcome cfg w actor tracer (backOff tracer s.newPosition) s.velocity
          s.remainingTime).position).sub s.velocity).length2 < 1 / 100
    · rw [if_pos h1]
      exact ⟨rfl, rfl, rfl⟩
    · rw [if_neg h1]
      have h2 := h.resolve_left h1
      rw [if_pos h2]
      exact ⟨rfl, rfl, rfl⟩
  · intro h
    rw [if_neg (fun h1 => h (Or.inl h1)), if_neg (fun h2 => h (Or.inr h2))]
    exact ⟨rfl, rfl⟩

/-- C25: in a pass of the loop body whose cast is obstructed, either the velocity is left
as it was, or the loop goes on with the slide velocity, and then that velocity (a) has a
strictly positive dot product with `origVelocity`, the velocity the loop started with,
(b) differs from the velocity it replaces by a squared length of at least 0.01, and (c)
has a vertical component that is not positive unless the current centre position is below
swim level or the actor is flying.  When the step was not taken or failed and (a) or (b)
fails for the slide velocity, the loop is left through `break` and the velocity is not
replaced. -/
theorem slide_velocity_adopted (cfg : Config) (w : CollisionWorld) (actor : ActorFrameData)
    (swimlevel : ℚ) (origVelocity : Vec3) (s : LoopState)
    (hr : ¬ swimRedirect actor swimlevel s)
    (hd : (s.newPosition.sub (nextpos s)).length2 > 1 / 10000)
    (hfr : (w.doTrace s.newPosition (nextpos s)).mFraction < 1) :
    ((loopBody cfg w actor swimlevel origVelocity s).2.velocity = s.velocity
        ∨ ((loopBody cfg w actor swimlevel origVelocity s).1 = Flow.next
          ∧ (loopBody cfg w actor swimlevel origVelocity s).2.velocity
            = (slideVelocity actor swimlevel (w.doTrace s.newPosition (nextpos s)) s.velocity
            (loopBody cfg w actor swimlevel origVelocity s).2.newPosition)
          ∧ (loopBody cfg w actor swimlevel origVelocity s).2.velocity.dot origVelocity > 0
          ∧ ((loopBody cfg w actor swimlevel origVelocity s).2.velocity.sub s.velocity).length2
              ≥ 1 / 100
          ∧ (¬ ((loopBody cfg w actor swimlevel origVelocity s).2.newPosition.z < swimlevel
                ∨ actor.mFlying = true) →
              (loopBody cfg w actor swimlevel origVelocity s).2.velocity.z ≤ 0)))
      ∧ ((stepAttempted cfg actor (w.doTrace s.newPosition (nextpos s)) = false
            ∨ (w.step (backOff (w.doTrace s.newPosition (nextpos s)) s.newPosition)
            (s.velocity.scale s.remainingTime) s.remainingTime).result = false) →
          (((slideVelocity actor swimlevel (w.doTrace s.newPosition (nextpos s)) s.velocity
            (loopBody cfg w actor swimlevel origVelocity s).2.newPosition).sub s.velocity).length2 < 1 / 100
            ∨ (slideVelocity actor swimlevel (w.doTrace s.newPosition (nextpos s)) s.velocity
            (loopBody cfg w actor swimlevel origVelocity s).2.newPosition).dot origVelocity ≤ 0) →
          (loopBody cfg w actor swimlevel origVelocity s).1 = Flow.exit
            ∧ (loopBody cfg w actor swimlevel origVelocity s).2.velocity = s.velocity
            ∧ (loopBody cfg w actor swimlevel origVelocity s).2.broke = true) := by
  rw [loopBody_obstructed cfg w actor swimlevel origVelocity s hr hd hfr]
  by_cases hres : (stepOutcome cfg w actor (w.doTrace s.newPosition (nextpos s))
      (backOff (w.doTrace s.newPosition (nextpos s)) s.newPosition) s.velocity
      s.remainingTime).result = true
  · constructor
    · left
      unfold afterHit
      dsimp only
      rw [if_pos hres]
    · intro hfail
      exfalso
      unfold stepOutcome at hres
      rcases hfail with h | h
      · rw [if_neg (by rw [h]; exact Bool.noConfusion)] at hres
        exact Bool.noConfusion hres
      · split_ifs at hres
        · rw [h] at hres
          exact Bool.noConfusion hres
  · have hs := afterHit_slide cfg w actor swimlevel origVelocity (w.doTrace s.newPosition (nextpos s))
      { s with bodyRuns := s.bodyRuns + 1, log := s.log ++ [Query.doTrace s.newPosition (nextpos s)] } hres
    obtain ⟨hp, hex, hnx⟩ := hs
    rw [hp]
    constructor
    · by_cases hc : (((slideVelocity actor swimlevel (w.doTrace s.newPosition (nextpos s)) s.velocity
            (stepOutcome cfg w actor (w.doTrace s.newPosition (nextpos s))
              (backOff (w.doTrace s.newPosition (nextpos s)) s.newPosition) s.velocity
              s.remainingTime).position).sub s.velocity).length2 < 1 / 100
          ∨ (slideVelocity actor swimlevel (w.doTrace s.newPosition (nextpos s)) s.velocity
            (stepOutcome cfg w actor (w.doTrace s.newPosition (nextpos s))
              (backOff (w.doTrace s.newPosition (nextpos s)) s.newPosition) s.velocity
              s.remainingTime).position).dot origVelocity ≤ 0)
      · exact Or.inl (hex hc).2.1
      · right
        have hn := hnx hc
        rw [hn.2]
        refine ⟨hn.1, rfl, ?_, ?_, ?_⟩
        · exact lt_of_not_ge (fun h => hc (Or.inr h))
        · exact le_of_not_lt (fun h => hc (Or.inl h))
        · intro hcl
          exact slideVelocity_clamped _ _ _ _ _ hcl
    · intro _ hc
      exact hex hc

/-- C25 at a concrete input: walking diagonally into a wall across the y direction, the
pass adopts the slide velocity `(1, 0, 0)` along the wall. -/
theorem slide_velocity_adopted_witness :
    ¬ swimRedirect faller 0 strolling
      ∧ (wallWorld.doTrace strolling.newPosition (nextpos strolling)).mFraction < 1
      ∧ (loopBody sampleConfig wallWorld faller 0 ⟨1, 1, 0⟩ strolling).2.velocity = ⟨1, 0, 0⟩
      ∧ (loopBody sampleConfig wallWorld faller 0 ⟨1, 1, 0⟩ strolling).2.velocity.dot
          ⟨1, 1, 0⟩ > 0 := by
  have hr : ¬ swimRedirect faller 0 strolling := by
    simp [swimRedirect, nextpos, strolling, Vec3.add, Vec3.scale]
  have hd : (strolling.newPosition.sub (nextpos strolling)).length2 > 1 / 10000 := by
    simp [nextpos, strolling, Vec3.add, Vec3.sub, Vec3.scale, Vec3.length2]
    norm_num
  have hfr : (wallWorld.doTrace strolling.newPosition (nextpos strolling)).mFraction < 1 := by
    norm_num [wallWorld]
  have hv : (loopBody sampleConfig wallWorld faller 0 ⟨1, 1, 0⟩ strolling).2.velocity
      = ⟨1, 0, 0⟩ := by
    rw [loopBody_obstructed _ _ _ _ _ _ hr hd hfr]
    simp [afterHit, stepOutcome, stepAttempted, slideVelocity, slide, project, backOff,
      wallWorld, openWorld, isActor, worldObject, strolling, faller, sampleBody, sampleConfig,
      nextpos, Vec3.add, Vec3.sub, Vec3.scale, Vec3.dot, Vec3.length2]
    norm_num
  have h := (slide_velocity_adopted sampleConfig wallWorld faller 0 ⟨1, 1, 0⟩ strolling
    hr hd hfr).1
  rcases h with h | h
  · rw [hv] at h
    have hx := congrArg Vec3.y h
    norm_num [strolling] at hx
  · exact ⟨hr, hfr, hv, h.2.2.1⟩

/-! ## C26: gravity integration with slow fall -/

/-- The scenario `feather`: regime selection leaves its inertia alone and moves it with
that inertia. -/
theorem feather_startMotion :
    startMotion sampleConfig sampleMath (toCentre (resetFrame feather)) calm
      = { velocity := ⟨4, 0, -10⟩, inertia := ⟨4, 0, -10⟩ } := by
  simp [startMotion, selectRegime, floatToSurface, applyStorm, swimLevel, toCentre, resetFrame,
    yawOnly, feather, dropper, faller, sampleBody, sampleConfig, sampleMath, calm, Vec3.add,
    Vec3.scale, Vec3.cross]
  norm_num

/-- The scenario `feather`: its cast is unobstructed and the loop is left at the
candidate. -/
theorem feather_loopExit :
    (loopExit sampleConfig sampleMath openWorld feather (1 / 10) calm).newPosition
      = ⟨2 / 5, 0, 159⟩ := by
  have hb := loopBody_unobstructed sampleConfig openWorld (centred feather)
    (swimLevel sampleConfig (centred feather))
    (startMotion sampleConfig sampleMath (toCentre (resetFrame feather)) calm).velocity
    (loopStart (centred feather)
      (startMotion sampleConfig sampleMath (toCentre (resetFrame feather)) calm).velocity
      (1 / 10))
    (by
      rw [feather_startMotion]
      simp [swimRedirect, nextpos, loopStart, centred_eq, swimLevel, feather, dropper, faller,
        sampleBody, sampleConfig, Vec3.add, Vec3.scale]
      norm_num)
    (by
      rw [feather_startMotion]
      simp [nextpos, loopStart, Vec3.add, Vec3.sub, Vec3.scale, Vec3.length2]
      norm_num)
    (le_refl _)
  rw [loopExit_of_exit _ _ _ _ _ _ _ (by norm_num [sampleConfig]) (by norm_num) hb,
    feather_startMotion]
  simp [openWorld, nextpos, loopStart, centred_eq, feather, dropper, faller, sampleBody,
    Vec3.add, Vec3.scale]
  norm_num

/-- C26: for a mobile actor with collision enabled, when line 285 does not zero the inertia
(after ground resolution the actor is not on the ground off a slope, its centre is not
below swim level, and it is not flying), the committed inertial force is computed from the
inertia `i` left by ground resolution as follows: with `z1 = i.z - gravity * time`, where
gravity is `GravityConst * UnitsPerMeter`, the vertical component is `z1 * slowFall` when
`z1 < 0` and `z1` otherwise; the horizontal components are `i.x * slowFall` and
`i.y * slowFall` when `slowFall < 1` and `i.x`, `i.y` otherwise.  The committed ground and
slope flags are the ones the test of line 285 read. -/
theorem gravity_with_slowFall (cfg : Config) (ext : Externals) (w : CollisionWorld)
    (actor : ActorFrameData) (time : ℚ) (worldData : WorldFrameData)
    (hm : actor.mActorRaw.isMobile = true) (hc : actor.mActorRaw.collisionMode = true)
    (hn : ¬ (((groundState cfg ext w actor time worldData).isOnGround = true ∧ (groundState cfg ext w actor time worldData).isOnSlope = false)
      ∨ (groundState cfg ext w actor time worldData).newPosition.z < swimLevel cfg actor
      ∨ actor.mFlying = true)) :
    ((groundState cfg ext w actor time worldData).inertia.z
          - cfg.GravityConst * cfg.UnitsPerMeter * time < 0 →
        (move cfg ext w actor time worldData).actor.mActorRaw.inertialForce.z
          = ((groundState cfg ext w actor time worldData).inertia.z
          - cfg.GravityConst * cfg.UnitsPerMeter * time)
            * actor.mSlowFall)
      ∧ (¬ ((groundState cfg ext w actor time worldData).inertia.z
          - cfg.GravityConst * cfg.UnitsPerMeter * time < 0) →
        (move cfg ext w actor time worldData).actor.mActorRaw.inertialForce.z
          = (groundState cfg ext w actor time worldData).inertia.z
          - cfg.GravityConst * cfg.UnitsPerMeter * time)
      ∧ (actor.mSlowFall < 1 →
        (move cfg ext w actor time worldData).actor.mActorRaw.inertialForce.x
            = (groundState cfg ext w actor time worldData).inertia.x * actor.mSlowFall
          ∧ (move cfg ext w actor time worldData).actor.mActorRaw.inertialForce.y
            = (groundState cfg ext w actor time worldData).inertia.y * actor.mSlowFall)
      ∧ (¬ (actor.mSlowFall < 1) →
        (move cfg ext w actor time worldData).actor.mActorRaw.inertialForce.x
            = (groundState cfg ext w actor time worldData).inertia.x
          ∧ (move cfg ext w actor time worldData).actor.mActorRaw.inertialForce.y
            = (groundState cfg ext w actor time worldData).inertia.y)
      ∧ (move cfg ext w actor time worldData).actor.mActorRaw.onGround
          = (groundState cfg ext w actor time worldData).isOnGround
      ∧ (move cfg ext w actor time worldData).actor.mActorRaw.onSlope
          = (groundState cfg ext w actor time worldData).isOnSlope := by
  have hcf : (centred actor).mFlying = actor.mFlying := by rw [centred_eq]
  have hcs : (centred actor).mSlowFall = actor.mSlowFall := by rw [centred_eq]
  have hz : time * cfg.GravityConst * cfg.UnitsPerMeter
      = cfg.GravityConst * cfg.UnitsPerMeter * time := by ring
  rw [move_of_collision _ _ _ _ _ _ hm hc]
  unfold commit integrateGravity
  dsimp only
  rw [hcf, hcs, if_neg hn, hz]
  refine ⟨?_, ?_, ?_, ?_, rfl, rfl⟩
  · intro h
    rw [if_pos h]
    split_ifs <;> rfl
  · intro h
    rw [if_neg h]
    split_ifs <;> rfl
  · intro h
    rw [if_pos h]
    exact ⟨rfl, rfl⟩
  · intro h
    rw [if_neg h]
    exact ⟨rfl, rfl⟩

/-- C26 at a concrete input: the actor `feather` (slow fall one half, inertia
`(4, 0, -10)`) falls for a tenth of a second with nothing under it; the committed inertia
is half of `(4, 0, -10 - gravity / 10)`. -/
theorem gravity_with_slowFall_witness :
    ¬ (((groundState sampleConfig sampleMath openWorld feather (1 / 10) calm).isOnGround = true
          ∧ (groundState sampleConfig sampleMath openWorld feather (1 / 10) calm).isOnSlope
            = false)
        ∨ (groundState sampleConfig sampleMath openWorld feather (1 / 10) calm).newPosition.z
          < swimLevel sampleConfig feather
        ∨ feather.mFlying = true)
      ∧ (move sampleConfig sampleMath openWorld feather (1 / 10) calm).actor.mActorRaw.inertialForce.x
          = 2
      ∧ (move sampleConfig sampleMath openWorld feather (1 / 10) calm).actor.mActorRaw.inertialForce.z
          = (-10 - 224 / 25 * (6999125109 / 100000000) * (1 / 10)) * (1 / 2) := by
  have hp : finalProbeIssued sampleConfig sampleMath openWorld feather (1 / 10) calm := by
    unfold finalProbeIssued
    rw [feather_loopExit, feather_startMotion]
    norm_num [probeIssued, swimLevel, feather, dropper, faller, sampleBody, sampleConfig]
  have hh : ¬ hitsGround (finalProbe sampleConfig sampleMath openWorld feather (1 / 10) calm) := by
    intro h
    have h1 := h.1
    simp [finalProbe, groundProbe, openWorld] at h1
  have hg := groundState_miss _ _ _ _ _ _ hp hh
  have hi : (groundState sampleConfig sampleMath openWorld feather (1 / 10) calm).inertia
      = ⟨4, 0, -10⟩ := by
    rw [hg]
    simp [pushAway, finalProbe, groundProbe, openWorld, feather_startMotion]
  have hn : ¬ (((groundState sampleConfig sampleMath openWorld feather (1 / 10) calm).isOnGround
          = true
        ∧ (groundState sampleConfig sampleMath openWorld feather (1 / 10) calm).isOnSlope = false)
      ∨ (groundState sampleConfig sampleMath openWorld feather (1 / 10) calm).newPosition.z
        < swimLevel sampleConfig feather
      ∨ feather.mFlying = true) := by
    rw [hg]
    dsimp only
    rw [feather_loopExit]
    norm_num [swimLevel, feather, dropper, faller, sampleBody, sampleConfig]
  have h := gravity_with_slowFall sampleConfig sampleMath openWorld feather (1 / 10) calm rfl rfl hn
  rw [hi] at h
  refine ⟨hn, ?_, ?_⟩
  · rw [(h.2.2.1 (by norm_num [feather])).1]
    norm_num [feather]
  · rw [h.1 (by norm_num [sampleConfig])]
    norm_num [feather, sampleConfig]

end MWPhysics

namespace ESM

/-! ## The order on reference numbers (C27) -/

/-- C27: `operator<` on reference numbers is the lexicographic order on
`(mIndex, mContentFile)`; `operator==` holds exactly for equal reference numbers;
`operator<` is irreflexive and transitive; and of `a < b`, `a == b`, `b < a` exactly one
holds. -/
theorem refNum_strict_total_order (a b d : RefNum) :
    (RefNum.operatorLt a b = true ↔
        a.mIndex < b.mIndex ∨ (a.mIndex = b.mIndex ∧ a.mContentFile < b.mContentFile))
      ∧ (RefNum.operatorEq a b = true ↔ a = b)
      ∧ RefNum.operatorLt a a = false
      ∧ (RefNum.operatorLt a b = true → RefNum.operatorLt b d = true →
          RefNum.operatorLt a d = true)
      ∧ ((RefNum.operatorLt a b = true ∧ RefNum.operatorEq a b = false
            ∧ RefNum.operatorLt b a = false)
          ∨ (RefNum.operatorLt a b = false ∧ RefNum.operatorEq a b = true
            ∧ RefNum.operatorLt b a = false)
          ∨ (RefNum.operatorLt a b = false ∧ RefNum.operatorEq a b = false
            ∧ RefNum.operatorLt b a = true)) := by
  obtain ⟨ai, ac⟩ := a
  obtain ⟨bi, bc⟩ := b
  obtain ⟨di, dc⟩ := d
  refine ⟨?_, ?_, ?_, ?_, ?_⟩
  · simp only [RefNum.operatorLt]
    split_ifs <;> simp <;> omega
  · simp [RefNum.operatorEq]
  · simp [RefNum.operatorLt]
  · simp only [RefNum.operatorLt]
    split_ifs <;> simp <;> omega
  · simp only [RefNum.operatorLt, RefNum.operatorEq]
    split_ifs <;> simp <;> omega

/-- C27 at a concrete input: `(1, 0) < (1, 2)` and `(1, 2) < (2, -1)`, hence
`(1, 0) < (2, -1)`. -/
theorem refNum_strict_total_order_witness :
    RefNum.operatorLt ⟨1, 0⟩ ⟨1, 2⟩ = true ∧ RefNum.operatorLt ⟨1, 2⟩ ⟨2, -1⟩ = true
      ∧ RefNum.operatorLt ⟨1, 0⟩ ⟨2, -1⟩ = true :=
  ⟨by decide, by decide,
    (refNum_strict_total_order ⟨1, 0⟩ ⟨1, 2⟩ ⟨2, -1⟩).2.2.2.1 (by decide) (by decide)⟩

/-! ## Saving and loading a cell reference (C28) -/

/-- The loop of `loadData` over a subrecord `UNAM` that `save` may have written. -/
theorem loadSubs_UNAM (c : Codec) (b : Prop) [Decidable b] (v : Int) (rest : List SubRecord)
    (r : CellRef) (h : c.getChar (c.putChar v) = Except.ok v) :
    CellRef.loadSubs c ((if b then writeHNT "UNAM" (c.putChar v) else []) ++ rest) r
      = CellRef.loadSubs c rest { r with mReferenceBlocked := if b then v else r.mReferenceBlocked } := by
  by_cases hb : b
  · simp [hb, writeHNT, CellRef.loadSubs, h]
  · simp [hb]

/-- The loop of `loadData` over a subrecord `XSCL` that `save` may have written. -/
theorem loadSubs_XSCL (c : Codec) (b : Prop) [Decidable b] (v : ℚ) (rest : List SubRecord)
    (r : CellRef) (h : c.getFloat (c.putFloat v) = Except.ok v) :
    CellRef.loadSubs c ((if b then writeHNT "XSCL" (c.putFloat v) else []) ++ rest) r
      = CellRef.loadSubs c rest { r with mScale := if b then v else r.mScale } := by
  by_cases hb : b
  · simp [hb, writeHNT, CellRef.loadSubs, h]
  · simp [hb]

/-- The loop of `loadData` over a subrecord `INDX` that `save` may have written. -/
theorem loadSubs_INDX (c : Codec) (b : Prop) [Decidable b] (v : Int) (rest : List SubRecord)
    (r : CellRef) (h : c.getInt (c.putInt v) = Except.ok v) :
    CellRef.loadSubs c ((if b then writeHNT "INDX" (c.putInt v) else []) ++ rest) r
      = CellRef.loadSubs c rest { r with mFactionRank := if b then v else r.mFactionRank } := by
  by_cases hb : b
  · simp [hb, writeHNT, CellRef.loadSubs, h]
  · simp [hb]

/-- The loop of `loadData` over a subrecord `XCHG` that `save` may have written. -/
theorem loadSubs_XCHG (c : Codec) (b : Prop) [Decidable b] (v : ℚ) (rest : List SubRecord)
    (r : CellRef) (h : c.getFloat (c.putFloat v) = Except.ok v) :
    CellRef.loadSubs c ((if b then writeHNT "XCHG" (c.putFloat v) else []) ++ rest) r
      = CellRef.loadSubs c rest { r with mEnchantmentCharge := if b then v else r.mEnchantmentCharge } := by
  by_cases hb : b
  · simp [hb, writeHNT, CellRef.loadSubs, h]
  · simp [hb]

/-- The loop of `loadData` over a subrecord `INTV` that `save` may have written. -/
theorem loadSubs_INTV (c : Codec) (b : Prop) [Decidable b] (v : Int) (rest : List SubRecord)
    (r : CellRef) (h : c.getInt (c.putInt v) = Except.ok v) :
    CellRef.loadSubs c ((if b then writeHNT "INTV" (c.putInt v) else []) ++ rest) r
      = CellRef.loadSubs c rest { r with mChargeInt := if b then v else r.mChargeInt } := by
  by_cases hb : b
  · simp [hb, writeHNT, CellRef.loadSubs, h]
  · simp [hb]

/-- The loop of `loadData` over a subrecord `NAM9` that `save` may have written. -/
theorem loadSubs_NAM9 (c : Codec) (b : Prop) [Decidable b] (v : Int) (rest : List SubRecord)
    (r : CellRef) (h : c.getInt (c.putInt v) = Except.ok v) :
    CellRef.loadSubs c ((if b then writeHNT "NAM9" (c.putInt v) else []) ++ rest) r
      = CellRef.loadSubs c rest { r with mGoldValue := if b then v else r.mGoldValue } := by
  by_cases hb : b
  · simp [hb, writeHNT, CellRef.loadSubs, h]
  · simp [hb]

/-- The loop of `loadData` over a subrecord `FLTV` that `save` may have written. -/
theorem loadSubs_FLTV (c : Codec) (b : Prop) [Decidable b] (v : Int) (rest : List SubRecord)
    (r : CellRef) (h : c.getInt (c.putInt v) = Except.ok v) :
    CellRef.loadSubs c ((if b then writeHNT "FLTV" (c.putInt v) else []) ++ rest) r
      = CellRef.loadSubs c rest { r with mLockLevel := if b then v else r.mLockLevel } := by
  by_cases hb : b
  · simp [hb, writeHNT, CellRef.loadSubs, h]
  · simp [hb]

/-- The loop of `loadData` over the subrecord `DATA` that `save` writes. -/
theorem loadSubs_DATA (c : Codec) (v : MWPhysics.Position) (rest : List SubRecord)
    (r : CellRef) (h : c.getPosition (c.putPosition v) = Except.ok v) :
    CellRef.loadSubs c (writeHNT "DATA" (c.putPosition v) ++ rest) r
      = CellRef.loadSubs c rest { r with mPos := v } := by
  simp [writeHNT, CellRef.loadSubs, h]

/-- The loop of `loadData` over a subrecord `ANAM` that `save` may have written. -/
theorem loadSubs_ANAM (c : Codec) (s : String) (rest : List SubRecord) (r : CellRef) :
    CellRef.loadSubs c (writeHNOCString c "ANAM" s ++ rest) r
      = CellRef.loadSubs c rest
          { r with mOwner := if c.writesOptional s = true then c.getString (c.putCString s)
              else r.mOwner } := by
  by_cases hb : c.writesOptional s = true
  · simp [hb, writeHNOCString, writeHNCString, CellRef.loadSubs]
  · simp [hb, writeHNOCString]

/-- The loop of `loadData` over a subrecord `BNAM` that `save` may have written. -/
theorem loadSubs_BNAM (c : Codec) (s : String) (rest : List SubRecord) (r : CellRef) :
    CellRef.loadSubs c (writeHNOCString c "BNAM" s ++ rest) r
      = CellRef.loadSubs c rest
          { r with mGlobalVariable := if c.writesOptional s = true then c.getString (c.putCString s)
              else r.mGlobalVariable } := by
  by_cases hb : c.writesOptional s = true
  · simp [hb, writeHNOCString, writeHNCString, CellRef.loadSubs]
  · simp [hb, writeHNOCString]

/-- The loop of `loadData` over a subrecord `XSOL` that `save` may have written. -/
theorem loadSubs_XSOL (c : Codec) (s : String) (rest : List SubRecord) (r : CellRef) :
    CellRef.loadSubs c (writeHNOCString c "XSOL" s ++ rest) r
      = CellRef.loadSubs c rest
          { r with mSoul := if c.writesOptional s = true then c.getString (c.putCString s)
              else r.mSoul } := by
  by_cases hb : c.writesOptional s = true
  · simp [hb, writeHNOCString, writeHNCString, CellRef.loadSubs]
  · simp [hb, writeHNOCString]

/-- The loop of `loadData` over a subrecord `CNAM` that `save` may have written. -/
theorem loadSubs_CNAM (c : Codec) (s : String) (rest : List SubRecord) (r : CellRef) :
    CellRef.loadSubs c (writeHNOCString c "CNAM" s ++ rest) r
      = CellRef.loadSubs c rest
          { r with mFaction := if c.writesOptional s = true then c.getString (c.putCString s)
              else r.mFaction } := by
  by_cases hb : c.writesOptional s = true
  · simp [hb, writeHNOCString, writeHNCString, CellRef.loadSubs]
  · simp [hb, writeHNOCString]

/-- The loop of `loadData` over a subrecord `KNAM` that `save` may have written. -/
theorem loadSubs_KNAM (c : Codec) (s : String) (rest : List SubRecord) (r : CellRef) :
    CellRef.loadSubs c (writeHNOCString c "KNAM" s ++ rest) r
      = CellRef.loadSubs c rest
          { r with mKey := if c.writesOptional s = true then c.getString (c.putCString s)
              else r.mKey } := by
  by_cases hb : c.writesOptional s = true
  · simp [hb, writeHNOCString, writeHNCString, CellRef.loadSubs]
  · simp [hb, writeHNOCString]

/-- The loop of `loadData` over a subrecord `TNAM` that `save` may have written. -/
theorem loadSubs_TNAM (c : Codec) (s : String) (rest : List SubRecord) (r : CellRef) :
    CellRef.loadSubs c (writeHNOCString c "TNAM" s ++ rest) r
      = CellRef.loadSubs c rest
          { r with mTrap := if c.writesOptional s = true then c.getString (c.putCString s)
              else r.mTrap } := by
  by_cases hb : c.writesOptional s = true
  · simp [hb, writeHNOCString, writeHNCString, CellRef.loadSubs]
  · simp [hb, writeHNOCString]

/-- The loop of `loadData` over the subrecords `DODT` and `DNAM` that `save` writes for a
teleporting door. -/
theorem loadSubs_DODT (c : Codec) (b : Prop) [Decidable b] (v p : MWPhysics.Position)
    (s : String) (rest : List SubRecord) (r : CellRef)
    (h : c.getPosition (c.putPosition v) = Except.ok p) :
    CellRef.loadSubs c
        ((if b then writeHNT "DODT" (c.putPosition v) ++ writeHNOCString c "DNAM" s else [])
          ++ rest) r
      = CellRef.loadSubs c rest
          { r with
            mDoorDest := if b then p else r.mDoorDest
            mTeleport := if b then true else r.mTeleport
            mDestCell := if b ∧ c.writesOptional s = true then c.getString (c.putCString s)
              else r.mDestCell } := by
  by_cases hb : b
  · by_cases hs : c.writesOptional s = true
    · simp [hb, hs, writeHNT, writeHNOCString, writeHNCString, CellRef.loadSubs, h]
    · simp [hb, hs, writeHNT, writeHNOCString, CellRef.loadSubs, h]
  · simp [hb]

/-- The loop of `loadData` over the subrecord `DELE` that `save` writes for a deleted
reference. -/
theorem loadSubs_DELE (c : Codec) (b : Prop) [Decidable b] (rest : List SubRecord)
    (r : CellRef) :
    CellRef.loadSubs c ((if b then writeHNCString c "DELE" "" else []) ++ rest) r
      = CellRef.loadSubs c rest { r with mIsDeleted := if b then true else r.mIsDeleted } := by
  by_cases hb : b
  · simp [hb, writeHNCString, CellRef.loadSubs]
  · simp [hb]

/-- The loop of `loadData` stops where the reference ends. -/
theorem loadSubs_end (c : Codec) (rest : List SubRecord) (r : CellRef)
    (h : CellRef.EndsAt rest) :
    CellRef.loadSubs c rest r = Except.ok (r, rest) := by
  cases rest with
  | nil => rfl
  | cons sub esm =>
    have hn := h sub rfl
    simp only [CellRef.handled, List.mem_cons, List.mem_singleton, List.not_mem_nil,
      or_false, not_or] at hn
    obtain ⟨h1, h2, h3, h4, h5, h6, h7, h8, h9, h10, h11, h12, h13, h14, h15, h16, h17,
      h18⟩ := hn
    simp [CellRef.loadSubs, h1, h2, h3, h4, h5, h6, h7, h8, h9, h10, h11, h12, h13, h14, h15,
      h16, h17, h18]

/-- What `loadId` makes of the two subrecords `save` starts with. -/
theorem loadId_save (c : Codec) (self : CellRef) (n : RefNum) (d : Bytes)
    (esm : List SubRecord) (hnum : c.getRefNum (c.putRefNum n) = Except.ok n) :
    self.loadId c (⟨"FRMR", c.putRefNum n⟩ :: ⟨"NAME", d⟩ :: esm) true
      = Except.ok ({ self with mRefNum := n, mRefID := c.getString d, mIsDeleted := false },
          esm) := by
  simp [CellRef.loadId, isNextSub, RefNum.load, getHNT, getHNString, hnum]

/-- What `load` makes of a reference written by `save` (wide reference number, not in an
inventory), for any reference loaded into. -/
theorem load_save (c : Codec) (ref self : CellRef) (door : MWPhysics.Position)
    (rest : List SubRecord)
    (htag : c.defaultTag = "FRMR")
    (hnum : c.getRefNum (c.putRefNum ref.mRefNum) = Except.ok ref.mRefNum)
    (hscale : c.getFloat (c.putFloat ref.mScale) = Except.ok ref.mScale)
    (hrank : c.getInt (c.putInt ref.mFactionRank) = Except.ok ref.mFactionRank)
    (hcharge : c.getInt (c.putInt ref.mChargeInt) = Except.ok ref.mChargeInt)
    (hench : c.getFloat (c.putFloat ref.mEnchantmentCharge) = Except.ok ref.mEnchantmentCharge)
    (hgold : c.getInt (c.putInt ref.mGoldValue) = Except.ok ref.mGoldValue)
    (hdoor : c.getPosition (c.putPosition ref.mDoorDest) = Except.ok door)
    (hlock : c.getInt (c.putInt ref.mLockLevel) = Except.ok ref.mLockLevel)
    (hblocked : c.getChar (c.putChar ref.mReferenceBlocked) = Except.ok ref.mReferenceBlocked)
    (hpos : c.getPosition (c.putPosition ref.mPos) = Except.ok ref.mPos)
    (hrest : CellRef.EndsAt rest) :
    ∃ out, self.load c (ref.save c true false ++ rest) true = Except.ok (out, rest)
      ∧ out.mRefNum = ref.mRefNum
      ∧ out.mRefID = c.getString (c.putCString ref.mRefID)
      ∧ out.mScale = ref.mScale
      ∧ out.mFactionRank = ref.mFactionRank
      ∧ out.mChargeInt = ref.mChargeInt
      ∧ out.mEnchantmentCharge = ref.mEnchantmentCharge
      ∧ out.mGoldValue = ref.mGoldValue
      ∧ out.mLockLevel = ref.mLockLevel
      ∧ out.mReferenceBlocked = ref.mReferenceBlocked
      ∧ out.mPos = ref.mPos
      ∧ out.mTeleport = ref.mTeleport
      ∧ out.mIsDeleted = ref.mIsDeleted := by
  have hsave : ref.save c true false ++ rest
      = ⟨"FRMR", c.putRefNum ref.mRefNum⟩ :: ⟨"NAME", c.putCString ref.mRefID⟩ ::
        ((if ref.mScale ≠ 1 then writeHNT "XSCL" (c.putFloat ref.mScale) else [])
        ++ (writeHNOCString c "ANAM" ref.mOwner
        ++ (writeHNOCString c "BNAM" ref.mGlobalVariable
        ++ (writeHNOCString c "XSOL" ref.mSoul
        ++ (writeHNOCString c "CNAM" ref.mFaction
        ++ ((if ref.mFactionRank ≠ -2 then writeHNT "INDX" (c.putInt ref.mFactionRank) else [])
        ++ ((if ref.mEnchantmentCharge ≠ -1 then writeHNT "XCHG" (c.putFloat ref.mEnchantmentCharge) else [])
        ++ ((if ref.mChargeInt ≠ -1 then writeHNT "INTV" (c.putInt ref.mChargeInt) else [])
        ++ ((if ref.mGoldValue ≠ 1 then writeHNT "NAM9" (c.putInt ref.mGoldValue) else [])
        ++ ((if ref.mTeleport = true then writeHNT "DODT" (c.putPosition ref.mDoorDest) ++ writeHNOCString c "DNAM" ref.mDestCell else [])
        ++ ((if ref.mLockLevel ≠ 0 then writeHNT "FLTV" (c.putInt ref.mLockLevel) else [])
        ++ (writeHNOCString c "KNAM" ref.mKey
        ++ (writeHNOCString c "TNAM" ref.mTrap
        ++ ((if ref.mReferenceBlocked ≠ -1 then writeHNT "UNAM" (c.putChar ref.mReferenceBlocked) else [])
        ++ (writeHNT "DATA" (c.putPosition ref.mPos)
        ++ ((if ref.mIsDeleted = true then writeHNCString c "DELE" "" else [])
        ++ rest)))))))))))))))) := by
    simp [CellRef.save, RefNum.save, writeHNT, writeHNCString, htag, List.append_assoc]
  rw [hsave]
  unfold CellRef.load
  rw [loadId_save c self ref.mRefNum _ _ hnum]
  dsimp only [CellRef.loadData, CellRef.reset]
  rw [loadSubs_XSCL _ _ _ _ _ hscale]
  dsimp only
  rw [loadSubs_ANAM]
  dsimp only
  rw [loadSubs_BNAM]
  dsimp only
  rw [loadSubs_XSOL]
  dsimp only
  rw [loadSubs_CNAM]
  dsimp only
  rw [loadSubs_INDX _ _ _ _ _ hrank]
  dsimp only
  rw [loadSubs_XCHG _ _ _ _ _ hench]
  dsimp only
  rw [loadSubs_INTV _ _ _ _ _ hcharge]
  dsimp only
  rw [loadSubs_NAM9 _ _ _ _ _ hgold]
  dsimp only
  rw [loadSubs_DODT _ _ _ _ _ _ _ hdoor]
  dsimp only
  rw [loadSubs_FLTV _ _ _ _ _ hlock]
  dsimp only
  rw [loadSubs_KNAM]
  dsimp only
  rw [loadSubs_TNAM]
  dsimp only
  rw [loadSubs_UNAM _ _ _ _ _ hblocked]
  dsimp only
  rw [loadSubs_DATA _ _ _ _ hpos]
  dsimp only
  rw [loadSubs_DELE]
  dsimp only
  rw [loadSubs_end _ _ _ hrest]
  refine ⟨_, rfl, ?_, ?_, ?_, ?_, ?_, ?_, ?_, ?_, ?_, ?_, ?_, ?_⟩
  all_goals dsimp only
  all_goals first
    | rfl
    | (split_ifs with h1 <;> first | rfl | (push_neg at h1; exact h1.symm) | simp_all)

/-- No subrecord of a sequence carries a name exactly when the name is not among the names
of the sequence. -/
theorem forall_name_ne (l : List SubRecord) (n : String) :
    (∀ sub ∈ l, sub.name ≠ n) ↔ n ∉ l.map SubRecord.name := by
  simp only [List.mem_map, not_exists, not_and]

/-- The names of the subrecords `save` writes (wide reference number, not in an
inventory), in order. -/
theorem save_names (c : Codec) (ref : CellRef) (htag : c.defaultTag = "FRMR") :
    (ref.save c true false).map SubRecord.name
      = ["FRMR", "NAME"]
        ++ (if ref.mScale ≠ 1 then ["XSCL"] else [])
        ++ (if c.writesOptional ref.mOwner = true then ["ANAM"] else [])
        ++ (if c.writesOptional ref.mGlobalVariable = true then ["BNAM"] else [])
        ++ (if c.writesOptional ref.mSoul = true then ["XSOL"] else [])
        ++ (if c.writesOptional ref.mFaction = true then ["CNAM"] else [])
        ++ (if ref.mFactionRank ≠ -2 then ["INDX"] else [])
        ++ (if ref.mEnchantmentCharge ≠ -1 then ["XCHG"] else [])
        ++ (if ref.mChargeInt ≠ -1 then ["INTV"] else [])
        ++ (if ref.mGoldValue ≠ 1 then ["NAM9"] else [])
        ++ (if ref.mTeleport = true then
              "DODT" :: (if c.writesOptional ref.mDestCell = true then ["DNAM"] else [])
            else [])
        ++ (if ref.mLockLevel ≠ 0 then ["FLTV"] else [])
        ++ (if c.writesOptional ref.mKey = true then ["KNAM"] else [])
        ++ (if c.writesOptional ref.mTrap = true then ["TNAM"] else [])
        ++ (if ref.mReferenceBlocked ≠ -1 then ["UNAM"] else [])
        ++ ["DATA"]
        ++ (if ref.mIsDeleted = true then ["DELE"] else []) := by
  simp only [CellRef.save, RefNum.save, writeHNT, writeHNCString, writeHNOCString, htag,
    List.map_append, apply_ite (List.map SubRecord.name), List.map_cons, List.map_nil,
    if_true, true_and, List.cons_append, List.nil_append, List.append_assoc]

/-- C28: a reference written by `save` (wide reference number, not in an inventory) and
read by `load` into a default-constructed reference comes back with the same reference
number, id, scale, faction rank, charge, enchantment charge, gold value, lock level,
reference-blocked value, position, teleport flag and deleted flag, and the reader is left
at what followed the reference.  `save` leaves out the subrecord of a scalar exactly when
the member has the value `loadData` resets it to: scale 1, faction rank -2, charge -1,
enchantment charge -1, gold value 1, lock level 0, reference-blocked -1, teleport false.
The payloads written are assumed to be read back as the values written, the tag `save`
hands to `RefNum::save` to be `FRMR`, and the reference to be followed by nothing or by a
subrecord `loadData` does not know. -/
theorem cellRef_save_load (c : Codec) (ref uninit : CellRef) (door : MWPhysics.Position)
    (rest : List SubRecord)
    (htag : c.defaultTag = "FRMR")
    (hnum : c.getRefNum (c.putRefNum ref.mRefNum) = Except.ok ref.mRefNum)
    (hid : c.getString (c.putCString ref.mRefID) = ref.mRefID)
    (hscale : c.getFloat (c.putFloat ref.mScale) = Except.ok ref.mScale)
    (hrank : c.getInt (c.putInt ref.mFactionRank) = Except.ok ref.mFactionRank)
    (hcharge : c.getInt (c.putInt ref.mChargeInt) = Except.ok ref.mChargeInt)
    (hench : c.getFloat (c.putFloat ref.mEnchantmentCharge) = Except.ok ref.mEnchantmentCharge)
    (hgold : c.getInt (c.putInt ref.mGoldValue) = Except.ok ref.mGoldValue)
    (hdoor : c.getPosition (c.putPosition ref.mDoorDest) = Except.ok door)
    (hlock : c.getInt (c.putInt ref.mLockLevel) = Except.ok ref.mLockLevel)
    (hblocked : c.getChar (c.putChar ref.mReferenceBlocked) = Except.ok ref.mReferenceBlocked)
    (hpos : c.getPosition (c.putPosition ref.mPos) = Except.ok ref.mPos)
    (hrest : CellRef.EndsAt rest) :
    (∃ out, (CellRef.ctor uninit).load c (ref.save c true false ++ rest) true
          = Except.ok (out, rest)
        ∧ out.mRefNum = ref.mRefNum ∧ out.mRefID = ref.mRefID ∧ out.mScale = ref.mScale
        ∧ out.mFactionRank = ref.mFactionRank ∧ out.mChargeInt = ref.mChargeInt
        ∧ out.mEnchantmentCharge = ref.mEnchantmentCharge ∧ out.mGoldValue = ref.mGoldValue
        ∧ out.mLockLevel = ref.mLockLevel ∧ out.mReferenceBlocked = ref.mReferenceBlocked
        ∧ out.mPos = ref.mPos ∧ out.mTeleport = ref.mTeleport
        ∧ out.mIsDeleted = ref.mIsDeleted)
      ∧ ((∀ sub ∈ ref.save c true false, sub.name ≠ "XSCL") ↔ ref.mScale = 1)
      ∧ ((∀ sub ∈ ref.save c true false, sub.name ≠ "INDX") ↔ ref.mFactionRank = -2)
      ∧ ((∀ sub ∈ ref.save c true false, sub.name ≠ "INTV") ↔ ref.mChargeInt = -1)
      ∧ ((∀ sub ∈ ref.save c true false, sub.name ≠ "XCHG") ↔ ref.mEnchantmentCharge = -1)
      ∧ ((∀ sub ∈ ref.save c true false, sub.name ≠ "NAM9") ↔ ref.mGoldValue = 1)
      ∧ ((∀ sub ∈ ref.save c true false, sub.name ≠ "FLTV") ↔ ref.mLockLevel = 0)
      ∧ ((∀ sub ∈ ref.save c true false, sub.name ≠ "UNAM") ↔ ref.mReferenceBlocked = -1)
      ∧ ((∀ sub ∈ ref.save c true false, sub.name ≠ "DODT") ↔ ref.mTeleport = false)
      ∧ (∀ r : CellRef, ∃ out, r.loadData c [] = Except.ok (out, [])
          ∧ out.mScale = 1 ∧ out.mFactionRank = -2 ∧ out.mChargeInt = -1
          ∧ out.mEnchantmentCharge = -1 ∧ out.mGoldValue = 1 ∧ out.mLockLevel = 0
          ∧ out.mReferenceBlocked = -1 ∧ out.mTeleport = false) := by
  refine ⟨?_, ?_, ?_, ?_, ?_, ?_, ?_, ?_, ?_, ?_⟩
  · obtain ⟨out, h⟩ := load_save c ref (CellRef.ctor uninit) door rest htag hnum hscale hrank
      hcharge hench hgold hdoor hlock hblocked hpos hrest
    rw [hid] at h
    exact ⟨out, h⟩
  · rw [forall_name_ne, save_names c ref htag]
    simp
  · rw [forall_name_ne, save_names c ref htag]
    simp
  · rw [forall_name_ne, save_names c ref htag]
    simp
  · rw [forall_name_ne, save_names c ref htag]
    simp
  · rw [forall_name_ne, save_names c ref htag]
    simp
  · rw [forall_name_ne, save_names c ref htag]
    simp
  · rw [forall_name_ne, save_names c ref htag]
    simp
  · rw [forall_name_ne, save_names c ref htag]
    simp
  · intro r
    exact ⟨r.reset, rfl, rfl, rfl, rfl, rfl, rfl, rfl, rfl, rfl⟩

/-- C28 at a concrete input: the reference `sampleRef`, written with the codec of the
examples and followed by the start of the next reference, is read back into a
default-constructed reference; the reader stops at the next reference. -/
theorem cellRef_save_load_witness :
    ∃ out, (CellRef.ctor otherRef).load sampleCodec
          (sampleRef.save sampleCodec true false ++ [⟨"FRMR", [6, 0, 0]⟩]) true
        = Except.ok (out, [⟨"FRMR", [6, 0, 0]⟩])
      ∧ out.mRefNum = ⟨5, 0⟩ ∧ out.mRefID = "door" ∧ out.mScale = 2 ∧ out.mLockLevel = 50
      ∧ out.mTeleport = true ∧ out.mIsDeleted = true := by
  have hf : ∀ n : Nat, sampleGetFloat (samplePutFloat (n : ℚ)) = Except.ok (n : ℚ) := by
    intro n
    have h0 : ¬ ((n : ℚ) < 0) := not_lt.mpr (Nat.cast_nonneg n)
    simp [samplePutFloat, sampleGetFloat, h0]
  have hp : ∀ x y z : Nat,
      sampleGetPosition (samplePutPosition ⟨⟨(x : ℚ), (y : ℚ), (z : ℚ)⟩, 0, 0, 0⟩)
        = Except.ok ⟨⟨(x : ℚ), (y : ℚ), (z : ℚ)⟩, 0, 0, 0⟩ := by
    intro x y z
    have hx : ¬ ((x : ℚ) < 0) := not_lt.mpr (Nat.cast_nonneg x)
    have hy : ¬ ((y : ℚ) < 0) := not_lt.mpr (Nat.cast_nonneg y)
    have hz : ¬ ((z : ℚ) < 0) := not_lt.mpr (Nat.cast_nonneg z)
    simp [samplePutPosition, samplePutFloat, sampleGetPosition, hx, hy, hz]
  obtain ⟨out, h⟩ := (cellRef_save_load sampleCodec sampleRef otherRef sampleRef.mDoorDest
    [⟨"FRMR", [6, 0, 0]⟩] rfl rfl (by decide)
    (by simpa [sampleRef] using hf 2)
    rfl rfl
    (by simp [sampleCodec, sampleRef, samplePutFloat, sampleGetFloat])
    rfl
    (by simpa [sampleRef] using hp 1 2 3)
    rfl rfl
    (by simpa [sampleRef] using hp 10 20 30)
    (by
      intro sub hs
      simp only [List.head?_cons, Option.some.injEq] at hs
      rw [← hs]
      decide)).1
  exact ⟨out, h.1, h.2.1, h.2.2.1, h.2.2.2.1, h.2.2.2.2.2.2.2.2.1, h.2.2.2.2.2.2.2.2.2.2.2.1,
    h.2.2.2.2.2.2.2.2.2.2.2.2⟩

/-! ## Loading apparatus and repair records (C29) -/

/-! ### `Apparatus::load` -/

/-- The loop of `Apparatus::load` on a sequence in which every name is one the `switch`
lists and every `AADT` payload can be read: it ends without failure, `hasName` and
`hasData` record whether a `NAME` and a `AADT` subrecord were met, and `mIsDeleted` is set
when a `DELE` subrecord was met. -/
theorem apparatus_loadSubs_known (c : Codec) (esm : List SubRecord) :
    ∀ (self : Apparatus) (hasName hasData : Bool),
      (∀ sub ∈ esm, sub.name ∈ Apparatus.names) →
      (∀ sub ∈ esm, sub.name = "AADT" → ∃ d, c.getAADT sub.data = Except.ok d) →
      ∃ out, Apparatus.loadSubs c esm self hasName hasData
          = Except.ok (out, hasName || esm.any (fun sub => decide (sub.name = "NAME")),
              hasData || esm.any (fun sub => decide (sub.name = "AADT")))
        ∧ out.mIsDeleted
          = (self.mIsDeleted || esm.any (fun sub => decide (sub.name = "DELE"))) := by
  induction esm with
  | nil =>
    intro self hasName hasData _ _
    exact ⟨self, by simp [Apparatus.loadSubs], by simp⟩
  | cons sub esm ih =>
    intro self hasName hasData hk hd
    have hsub := hk sub (List.mem_cons_self _ _)
    have hk1 : ∀ s ∈ esm, s.name ∈ Apparatus.names := fun s hs => hk s (List.mem_cons_of_mem _ hs)
    have hd1 : ∀ s ∈ esm, s.name = "AADT" → ∃ d, c.getAADT s.data = Except.ok d :=
      fun s hs => hd s (List.mem_cons_of_mem _ hs)
    simp only [Apparatus.names, List.mem_cons, List.mem_singleton, List.not_mem_nil,
      or_false] at hsub
    rcases hsub with h | h | h | h | h | h | h
    · simpa [Apparatus.loadSubs, h]
        using ih { self with mId := c.getString sub.data } true hasData hk1 hd1
    · simpa [Apparatus.loadSubs, h]
        using ih { self with mIsDeleted := true } hasName hasData hk1 hd1
    · simpa [Apparatus.loadSubs, h]
        using ih { self with mModel := c.getString sub.data } hasName hasData hk1 hd1
    · simpa [Apparatus.loadSubs, h]
        using ih { self with mName := c.getString sub.data } hasName hasData hk1 hd1
    · obtain ⟨d, hd0⟩ := hd sub (List.mem_cons_self _ _) h
      simpa [Apparatus.loadSubs, h, hd0]
        using ih { self with mData := d } hasName true hk1 hd1
    · simpa [Apparatus.loadSubs, h]
        using ih { self with mScript := c.getString sub.data } hasName hasData hk1 hd1
    · simpa [Apparatus.loadSubs, h]
        using ih { self with mIcon := c.getString sub.data } hasName hasData hk1 hd1

/-- The loop of `Apparatus::load` on a sequence holding a subrecord with a name the
`switch` does not list: it fails. -/
theorem apparatus_loadSubs_unknown (c : Codec) (esm : List SubRecord) :
    ∀ (self : Apparatus) (hasName hasData : Bool),
      (∃ sub ∈ esm, sub.name ∉ Apparatus.names) →
      ∃ e, Apparatus.loadSubs c esm self hasName hasData = Except.error e := by
  induction esm with
  | nil =>
    intro self hasName hasData hu
    obtain ⟨sub, hs, _⟩ := hu
    exact absurd hs (List.not_mem_nil sub)
  | cons sub esm ih =>
    intro self hasName hasData hu
    by_cases hsub : sub.name ∈ Apparatus.names
    · have hu1 : ∃ s ∈ esm, s.name ∉ Apparatus.names := by
        obtain ⟨s, hs, hn⟩ := hu
        rcases List.mem_cons.mp hs with h1 | h1
        · rw [h1] at hn
          exact absurd hsub hn
        · exact ⟨s, h1, hn⟩
      simp only [Apparatus.names, List.mem_cons, List.mem_singleton, List.not_mem_nil,
        or_false] at hsub
      rcases hsub with h | h | h | h | h | h | h
      · simpa [Apparatus.loadSubs, h]
          using ih { self with mId := c.getString sub.data } true hasData hu1
      · simpa [Apparatus.loadSubs, h]
          using ih { self with mIsDeleted := true } hasName hasData hu1
      · simpa [Apparatus.loadSubs, h]
          using ih { self with mModel := c.getString sub.data } hasName hasData hu1
      · simpa [Apparatus.loadSubs, h]
          using ih { self with mName := c.getString sub.data } hasName hasData hu1
      · cases hg : c.getAADT sub.data with
        | error e => exact ⟨e, by simp [Apparatus.loadSubs, h, hg]⟩
        | ok d =>
          simpa [Apparatus.loadSubs, h, hg]
            using ih { self with mData := d } hasName true hu1
      · simpa [Apparatus.loadSubs, h]
          using ih { self with mScript := c.getString sub.data } hasName hasData hu1
      · simpa [Apparatus.loadSubs, h]
          using ih { self with mIcon := c.getString sub.data } hasName hasData hu1
    · simp only [Apparatus.names, List.mem_cons, List.mem_singleton, List.not_mem_nil,
        or_false, not_or] at hsub
      obtain ⟨h1, h2, h3, h4, h5, h6, h7⟩ := hsub
      exact ⟨"Unknown subrecord", by simp [Apparatus.loadSubs, h1, h2, h3, h4, h5, h6, h7]⟩

/-! ### `Repair::load` -/

/-- The loop of `Repair::load` on a sequence in which every name is one the `switch`
lists and every `RIDT` payload can be read: it ends without failure, `hasName` and
`hasData` record whether a `NAME` and a `RIDT` subrecord were met, and `mIsDeleted` is set
when a `DELE` subrecord was met. -/
theorem repair_loadSubs_known (c : Codec) (esm : List SubRecord) :
    ∀ (self : Repair) (hasName hasData : Bool),
      (∀ sub ∈ esm, sub.name ∈ Repair.names) →
      (∀ sub ∈ esm, sub.name = "RIDT" → ∃ d, c.getRIDT sub.data = Except.ok d) →
      ∃ out, Repair.loadSubs c esm self hasName hasData
          = Except.ok (out, hasName || esm.any (fun sub => decide (sub.name = "NAME")),
              hasData || esm.any (fun sub => decide (sub.name = "RIDT")))
        ∧ out.mIsDeleted
          = (self.mIsDeleted || esm.any (fun sub => decide (sub.name = "DELE"))) := by
  induction esm with
  | nil =>
    intro self hasName hasData _ _
    exact ⟨self, by simp [Repair.loadSubs], by simp⟩
  | cons sub esm ih =>
    intro self hasName hasData hk hd
    have hsub := hk sub (List.mem_cons_self _ _)
    have hk1 : ∀ s ∈ esm, s.name ∈ Repair.names := fun s hs => hk s (List.mem_cons_of_mem _ hs)
    have hd1 : ∀ s ∈ esm, s.name = "RIDT" → ∃ d, c.getRIDT s.data = Except.ok d :=
      fun s hs => hd s (List.mem_cons_of_mem _ hs)
    simp only [Repair.names, List.mem_cons, List.mem_singleton, List.not_mem_nil,
      or_false] at hsub
    rcases hsub with h | h | h | h | h | h | h
    · simpa [Repair.loadSubs, h]
        using ih { self with mId := c.getString sub.data } true hasData hk1 hd1
    · simpa [Repair.loadSubs, h]
        using ih { self with mIsDeleted := true } hasName hasData hk1 hd1
    · simpa [Repair.loadSubs, h]
        using ih { self with mModel := c.getString sub.data } hasName hasData hk1 hd1
    · simpa [Repair.loadSubs, h]
        using ih { self with mName := c.getString sub.data } hasName hasData hk1 hd1
    · obtain ⟨d, hd0⟩ := hd sub (List.mem_cons_self _ _) h
      simpa [Repair.loadSubs, h, hd0]
        using ih { self with mData := d } hasName true hk1 hd1
    · simpa [Repair.loadSubs, h]
        using ih { self with mScript := c.getString sub.data } hasName hasData hk1 hd1
    · simpa [Repair.loadSubs, h]
        using ih { self with mIcon := c.getString sub.data } hasName hasData hk1 hd1

/-- The loop of `Repair::load` on a sequence holding a subrecord with a name the
`switch` does not list: it fails. -/
theorem repair_loadSubs_unknown (c : Codec) (esm : List SubRecord) :
    ∀ (self : Repair) (hasName hasData : Bool),
      (∃ sub ∈ esm, sub.name ∉ Repair.names) →
      ∃ e, Repair.loadSubs c esm self hasName hasData = Except.error e := by
  induction esm with
  | nil =>
    intro self hasName hasData hu
    obtain ⟨sub, hs, _⟩ := hu
    exact absurd hs (List.not_mem_nil sub)
  | cons sub esm ih =>
    intro self hasName hasData hu
    by_cases hsub : sub.name ∈ Repair.names
    · have hu1 : ∃ s ∈ esm, s.name ∉ Repair.names := by
        obtain ⟨s, hs, hn⟩ := hu
        rcases List.mem_cons.mp hs with h1 | h1
        · rw [h1] at hn
          exact absurd hsub hn
        · exact ⟨s, h1, hn⟩
      simp only [Repair.names, List.mem_cons, List.mem_singleton, List.not_mem_nil,
        or_false] at hsub
      rcases hsub with h | h | h | h | h | h | h
      · simpa [Repair.loadSubs, h]
          using ih { self with mId := c.getString sub.data } true hasData hu1
      · simpa [Repair.loadSubs, h]
          using ih { self with mIsDeleted := true } hasName hasData hu1
      · simpa [Repair.loadSubs, h]
          using ih { self with mModel := c.getString sub.data } hasName hasData hu1
      · simpa [Repair.loadSubs, h]
          using ih { self with mName := c.getString sub.data } hasName hasData hu1
      · cases hg : c.getRIDT sub.data with
        | error e => exact ⟨e, by simp [Repair.loadSubs, h, hg]⟩
        | ok d =>
          simpa [Repair.loadSubs, h, hg]
            using ih { self with mData := d } hasName true hu1
      · simpa [Repair.loadSubs, h]
          using ih { self with mScript := c.getString sub.data } hasName hasData hu1
      · simpa [Repair.loadSubs, h]
          using ih { self with mIcon := c.getString sub.data } hasName hasData hu1
    · simp only [Repair.names, List.mem_cons, List.mem_singleton, List.not_mem_nil,
        or_false, not_or] at hsub
      obtain ⟨h1, h2, h3, h4, h5, h6, h7⟩ := hsub
      exact ⟨"Unknown subrecord", by simp [Repair.loadSubs, h1, h2, h3, h4, h5, h6, h7]⟩

/-- When `Apparatus::load` fails and when it reports a deleted record, for a record whose
`AADT` payloads can be read. -/
theorem apparatus_load_spec (c : Codec) (self : Apparatus) (esm : List SubRecord)
    (hd : ∀ sub ∈ esm, sub.name = "AADT" → ∃ d, c.getAADT sub.data = Except.ok d) :
    ((∃ e, self.load c esm = Except.error e) ↔
        (∃ sub ∈ esm, sub.name ∉ Apparatus.names) ∨ (∀ sub ∈ esm, sub.name ≠ "NAME")
          ∨ ((∀ sub ∈ esm, sub.name ≠ "AADT") ∧ (∀ sub ∈ esm, sub.name ≠ "DELE")))
      ∧ (∀ out, self.load c esm = Except.ok out →
          (out.mIsDeleted = true ↔ ∃ sub ∈ esm, sub.name = "DELE")) := by
  by_cases hu : ∃ sub ∈ esm, sub.name ∉ Apparatus.names
  · obtain ⟨e, he⟩ := apparatus_loadSubs_unknown c esm { self with mIsDeleted := false } false
      false hu
    have hl : self.load c esm = Except.error e := by
      unfold Apparatus.load
      rw [he]
    rw [hl]
    refine ⟨⟨fun _ => Or.inl hu, fun _ => ⟨e, rfl⟩⟩, ?_⟩
    intro out ho
    exact Except.noConfusion ho
  · have hk : ∀ sub ∈ esm, sub.name ∈ Apparatus.names := by
      intro sub hs
      by_contra hn
      exact hu ⟨sub, hs, hn⟩
    obtain ⟨out, h1, h2⟩ := apparatus_loadSubs_known c esm { self with mIsDeleted := false } false
      false hk hd
    simp only [Bool.false_or] at h1 h2
    have eN : esm.any (fun sub => decide (sub.name = "NAME")) = false ↔
        ∀ sub ∈ esm, sub.name ≠ "NAME" := by simp
    have eD : esm.any (fun sub => decide (sub.name = "AADT")) = false ↔
        ∀ sub ∈ esm, sub.name ≠ "AADT" := by simp
    have eX : esm.any (fun sub => decide (sub.name = "DELE")) = false ↔
        ∀ sub ∈ esm, sub.name ≠ "DELE" := by simp
    have eX1 : esm.any (fun sub => decide (sub.name = "DELE")) = true ↔
        ∃ sub ∈ esm, sub.name = "DELE" := by simp
    unfold Apparatus.load
    rw [h1]
    dsimp only
    rw [h2]
    by_cases hN : esm.any (fun sub => decide (sub.name = "NAME")) = false
    · rw [if_pos hN]
      refine ⟨⟨fun _ => Or.inr (Or.inl (eN.mp hN)), fun _ => ⟨_, rfl⟩⟩, ?_⟩
      intro o ho
      exact Except.noConfusion ho
    · rw [if_neg hN]
      by_cases hDX : esm.any (fun sub => decide (sub.name = "AADT")) = false
          ∧ esm.any (fun sub => decide (sub.name = "DELE")) = false
      · rw [if_pos hDX]
        refine ⟨⟨fun _ => Or.inr (Or.inr ⟨eD.mp hDX.1, eX.mp hDX.2⟩), fun _ => ⟨_, rfl⟩⟩, ?_⟩
        intro o ho
        exact Except.noConfusion ho
      · rw [if_neg hDX]
        refine ⟨⟨?_, ?_⟩, ?_⟩
        · rintro ⟨e, he⟩
          exact Except.noConfusion he
        · rintro (h | h | h)
          · exact absurd h hu
          · exact absurd (eN.mpr h) hN
          · exact absurd ⟨eD.mpr h.1, eX.mpr h.2⟩ hDX
        · intro o ho
          have ho1 : out = o := by
            injection ho
          rw [← ho1, h2]
          exact eX1

/-- When `Repair::load` fails and when it reports a deleted record, for a record whose
`RIDT` payloads can be read. -/
theorem repair_load_spec (c : Codec) (self : Repair) (esm : List SubRecord)
    (hd : ∀ sub ∈ esm, sub.name = "RIDT" → ∃ d, c.getRIDT sub.data = Except.ok d) :
    ((∃ e, self.load c esm = Except.error e) ↔
        (∃ sub ∈ esm, sub.name ∉ Repair.names) ∨ (∀ sub ∈ esm, sub.name ≠ "NAME")
          ∨ ((∀ sub ∈ esm, sub.name ≠ "RIDT") ∧ (∀ sub ∈ esm, sub.name ≠ "DELE")))
      ∧ (∀ out, self.load c esm = Except.ok out →
          (out.mIsDeleted = true ↔ ∃ sub ∈ esm, sub.name = "DELE")) := by
  by_cases hu : ∃ sub ∈ esm, sub.name ∉ Repair.names
  · obtain ⟨e, he⟩ := repair_loadSubs_unknown c esm { self with mIsDeleted := false } false
      false hu
    have hl : self.load c esm = Except.error e := by
      unfold Repair.load
      rw [he]
    rw [hl]
    refine ⟨⟨fun _ => Or.inl hu, fun _ => ⟨e, rfl⟩⟩, ?_⟩
    intro out ho
    exact Except.noConfusion ho
  · have hk : ∀ sub ∈ esm, sub.name ∈ Repair.names := by
      intro sub hs
      by_contra hn
      exact hu ⟨sub, hs, hn⟩
    obtain ⟨out, h1, h2⟩ := repair_loadSubs_known c esm { self with mIsDeleted := false } false
      false hk hd
    simp only [Bool.false_or] at h1 h2
    have eN : esm.any (fun sub => decide (sub.name = "NAME")) = false ↔
        ∀ sub ∈ esm, sub.name ≠ "NAME" := by simp
    have eD : esm.any (fun sub => decide (sub.name = "RIDT")) = false ↔
        ∀ sub ∈ esm, sub.name ≠ "RIDT" := by simp
    have eX : esm.any (fun sub => decide (sub.name = "DELE")) = false ↔
        ∀ sub ∈ esm, sub.name ≠ "DELE" := by simp
    have eX1 : esm.any (fun sub => decide (sub.name = "DELE")) = true ↔
        ∃ sub ∈ esm, sub.name = "DELE" := by simp
    unfold Repair.load
    rw [h1]
    dsimp only
    rw [h2]
    by_cases hN : esm.any (fun sub => decide (sub.name = "NAME")) = false
    · rw [if_pos hN]
      refine ⟨⟨fun _ => Or.inr (Or.inl (eN.mp hN)), fun _ => ⟨_, rfl⟩⟩, ?_⟩
      intro o ho
      exact Except.noConfusion ho
    · rw [if_neg hN]
      by_cases hDX : esm.any (fun sub => decide (sub.name = "RIDT")) = false
          ∧ esm.any (fun sub => decide (sub.name = "DELE")) = false
      · rw [if_pos hDX]
        refine ⟨⟨fun _ => Or.inr (Or.inr ⟨eD.mp hDX.1, eX.mp hDX.2⟩), fun _ => ⟨_, rfl⟩⟩, ?_⟩
        intro o ho
        exact Except.noConfusion ho
      · rw [if_neg hDX]
        refine ⟨⟨?_, ?_⟩, ?_⟩
        · rintro ⟨e, he⟩
          exact Except.noConfusion he
        · rintro (h | h | h)
          · exact absurd h hu
          · exact absurd (eN.mpr h) hN
          · exact absurd ⟨eD.mpr h.1, eX.mpr h.2⟩ hDX
        · intro o ho
          have ho1 : out = o := by
            injection ho
          rw [← ho1, h2]
          exact eX1

/-- A record written by `Apparatus::save` loads without failure. -/
theorem apparatus_load_save (c : Codec) (self a : Apparatus)
    (h : a.mIsDeleted = false → ∃ d, c.getAADT (c.putAADT a.mData) = Except.ok d) :
    ∃ out, self.load c (a.save c) = Except.ok out := by
  cases hdel : a.mIsDeleted with
  | true => simp [Apparatus.load, Apparatus.save, Apparatus.loadSubs, writeHNCString, hdel]
  | false =>
    obtain ⟨d, hd⟩ := h hdel
    by_cases h1 : c.writesOptional a.mScript = true <;>
      simp [Apparatus.load, Apparatus.save, Apparatus.loadSubs, writeHNCString,
        writeHNOCString, writeHNT, hdel, hd, h1]

/-- A record written by `Repair::save` loads without failure. -/
theorem repair_load_save (c : Codec) (self a : Repair)
    (h : a.mIsDeleted = false → ∃ d, c.getRIDT (c.putRIDT a.mData) = Except.ok d) :
    ∃ out, self.load c (a.save c) = Except.ok out := by
  cases hdel : a.mIsDeleted with
  | true => simp [Repair.load, Repair.save, Repair.loadSubs, writeHNCString, hdel]
  | false =>
    obtain ⟨d, hd⟩ := h hdel
    by_cases h1 : c.writesOptional a.mName = true <;>
      by_cases h2 : c.writesOptional a.mScript = true <;>
      by_cases h3 : c.writesOptional a.mIcon = true <;>
      simp [Repair.load, Repair.save, Repair.loadSubs, writeHNCString, writeHNOCString,
        writeHNOString, writeHNT, hdel, hd, h1, h2, h3]

/-- The loop of `Apparatus::load` on a sequence holding a `AADT` subrecord whose payload
cannot be read: it fails, at that subrecord or before it. -/
theorem apparatus_loadSubs_unreadable (c : Codec) (esm : List SubRecord) :
    ∀ (self : Apparatus) (hasName hasData : Bool),
      (∃ sub ∈ esm, sub.name = "AADT" ∧ ∀ d, c.getAADT sub.data ≠ Except.ok d) →
      ∃ e, Apparatus.loadSubs c esm self hasName hasData = Except.error e := by
  induction esm with
  | nil =>
    intro self hasName hasData hu
    obtain ⟨sub, hs, _⟩ := hu
    exact absurd hs (List.not_mem_nil sub)
  | cons sub esm ih =>
    intro self hasName hasData hu
    by_cases hsub : sub.name ∈ Apparatus.names
    · simp only [Apparatus.names, List.mem_cons, List.mem_singleton, List.not_mem_nil,
        or_false] at hsub
      have tail : sub.name ≠ "AADT" →
          ∃ s ∈ esm, s.name = "AADT" ∧ ∀ d, c.getAADT s.data ≠ Except.ok d := by
        intro hne
        obtain ⟨s, hs, hn, hb⟩ := hu
        rcases List.mem_cons.mp hs with h1 | h1
        · rw [h1] at hn
          exact absurd hn hne
        · exact ⟨s, h1, hn, hb⟩
      rcases hsub with h | h | h | h | h | h | h
      · simpa [Apparatus.loadSubs, h]
          using ih { self with mId := c.getString sub.data } true hasData
            (tail (by rw [h]; decide))
      · simpa [Apparatus.loadSubs, h]
          using ih { self with mIsDeleted := true } hasName hasData
            (tail (by rw [h]; decide))
      · simpa [Apparatus.loadSubs, h]
          using ih { self with mModel := c.getString sub.data } hasName hasData
            (tail (by rw [h]; decide))
      · simpa [Apparatus.loadSubs, h]
          using ih { self with mName := c.getString sub.data } hasName hasData
            (tail (by rw [h]; decide))
      · cases hg : c.getAADT sub.data with
        | error e => exact ⟨e, by simp [Apparatus.loadSubs, h, hg]⟩
        | ok d =>
          have hu1 : ∃ s ∈ esm, s.name = "AADT"
              ∧ ∀ d, c.getAADT s.data ≠ Except.ok d := by
            obtain ⟨s, hs, hn, hb⟩ := hu
            rcases List.mem_cons.mp hs with h1 | h1
            · rw [h1] at hb
              exact absurd hg (hb d)
            · exact ⟨s, h1, hn, hb⟩
          simpa [Apparatus.loadSubs, h, hg]
            using ih { self with mData := d } hasName true hu1
      · simpa [Apparatus.loadSubs, h]
          using ih { self with mScript := c.getString sub.data } hasName hasData
            (tail (by rw [h]; decide))
      · simpa [Apparatus.loadSubs, h]
          using ih { self with mIcon := c.getString sub.data } hasName hasData
            (tail (by rw [h]; decide))
    · simp only [Apparatus.names, List.mem_cons, List.mem_singleton, List.not_mem_nil,
        or_false, not_or] at hsub
      obtain ⟨h1, h2, h3, h4, h5, h6, h7⟩ := hsub
      exact ⟨"Unknown subrecord", by simp [Apparatus.loadSubs, h1, h2, h3, h4, h5, h6, h7]⟩

/-- When `Apparatus::load` fails and when it reports a deleted record, for any record. -/
theorem apparatus_load_iff (c : Codec) (self : Apparatus) (esm : List SubRecord) :
    ((∃ e, self.load c esm = Except.error e) ↔
        (∃ sub ∈ esm, sub.name ∉ Apparatus.names) ∨ (∀ sub ∈ esm, sub.name ≠ "NAME")
          ∨ ((∀ sub ∈ esm, sub.name ≠ "AADT") ∧ (∀ sub ∈ esm, sub.name ≠ "DELE"))
          ∨ (∃ sub ∈ esm, sub.name = "AADT" ∧ ∀ d, c.getAADT sub.data ≠ Except.ok d))
      ∧ (∀ out, self.load c esm = Except.ok out →
          (out.mIsDeleted = true ↔ ∃ sub ∈ esm, sub.name = "DELE")) := by
  by_cases hb : ∃ sub ∈ esm, sub.name = "AADT" ∧ ∀ d, c.getAADT sub.data ≠ Except.ok d
  · obtain ⟨e, he⟩ := apparatus_loadSubs_unreadable c esm { self with mIsDeleted := false } false
      false hb
    have hl : self.load c esm = Except.error e := by
      unfold Apparatus.load
      rw [he]
    rw [hl]
    refine ⟨⟨fun _ => Or.inr (Or.inr (Or.inr hb)), fun _ => ⟨e, rfl⟩⟩, ?_⟩
    intro out ho
    exact Except.noConfusion ho
  · have hd : ∀ sub ∈ esm, sub.name = "AADT" → ∃ d, c.getAADT sub.data = Except.ok d := by
      intro sub hs hn
      by_contra hne
      exact hb ⟨sub, hs, hn, fun d hd => hne ⟨d, hd⟩⟩
    have hspec := apparatus_load_spec c self esm hd
    refine ⟨⟨?_, ?_⟩, hspec.2⟩
    · intro hf
      rcases hspec.1.mp hf with h | h | h
      · exact Or.inl h
      · exact Or.inr (Or.inl h)
      · exact Or.inr (Or.inr (Or.inl h))
    · rintro (h | h | h | h)
      · exact hspec.1.mpr (Or.inl h)
      · exact hspec.1.mpr (Or.inr (Or.inl h))
      · exact hspec.1.mpr (Or.inr (Or.inr h))
      · exact absurd h hb

/-- The loop of `Repair::load` on a sequence holding a `RIDT` subrecord whose payload
cannot be read: it fails, at that subrecord or before it. -/
theorem repair_loadSubs_unreadable (c : Codec) (esm : List SubRecord) :
    ∀ (self : Repair) (hasName hasData : Bool),
      (∃ sub ∈ esm, sub.name = "RIDT" ∧ ∀ d, c.getRIDT sub.data ≠ Except.ok d) →
      ∃ e, Repair.loadSubs c esm self hasName hasData = Except.error e := by
  induction esm with
  | nil =>
    intro self hasName hasData hu
    obtain ⟨sub, hs, _⟩ := hu
    exact absurd hs (List.not_mem_nil sub)
  | cons sub esm ih =>
    intro self hasName hasData hu
    by_cases hsub : sub.name ∈ Repair.names
    · simp only [Repair.names, List.mem_cons, List.mem_singleton, List.not_mem_nil,
        or_false] at hsub
      have tail : sub.name ≠ "RIDT" →
          ∃ s ∈ esm, s.name = "RIDT" ∧ ∀ d, c.getRIDT s.data ≠ Except.ok d := by
        intro hne
        obtain ⟨s, hs, hn, hb⟩ := hu
        rcases List.mem_cons.mp hs with h1 | h1
        · rw [h1] at hn
          exact absurd hn hne
        · exact ⟨s, h1, hn, hb⟩
      rcases hsub with h | h | h | h | h | h | h
      · simpa [Repair.loadSubs, h]
          using ih { self with mId := c.getString sub.data } true hasData
            (tail (by rw [h]; decide))
      · simpa [Repair.loadSubs, h]
          using ih { self with mIsDeleted := true } hasName hasData
            (tail (by rw [h]; decide))
      · simpa [Repair.loadSubs, h]
          using ih { self with mModel := c.getString sub.data } hasName hasData
            (tail (by rw [h]; decide))
      · simpa [Repair.loadSubs, h]
          using ih { self with mName := c.getString sub.data } hasName hasData
            (tail (by rw [h]; decide))
      · cases hg : c.getRIDT sub.data with
        | error e => exact ⟨e, by simp [Repair.loadSubs, h, hg]⟩
        | ok d =>
          have hu1 : ∃ s ∈ esm, s.name = "RIDT"
              ∧ ∀ d, c.getRIDT s.data ≠ Except.ok d := by
            obtain ⟨s, hs, hn, hb⟩ := hu
            rcases List.mem_cons.mp hs with h1 | h1
            · rw [h1] at hb
              exact absurd hg (hb d)
            · exact ⟨s, h1, hn, hb⟩
          simpa [Repair.loadSubs, h, hg]
            using ih { self with mData := d } hasName true hu1
      · simpa [Repair.loadSubs, h]
          using ih { self with mScript := c.getString sub.data } hasName hasData
            (tail (by rw [h]; decide))
      · simpa [Repair.loadSubs, h]
          using ih { self with mIcon := c.getString sub.data } hasName hasData
            (tail (by rw [h]; decide))
    · simp only [Repair.names, List.mem_cons, List.mem_singleton, List.not_mem_nil,
        or_false, not_or] at hsub
      obtain ⟨h1, h2, h3, h4, h5, h6, h7⟩ := hsub
      exact ⟨"Unknown subrecord", by simp [Repair.loadSubs, h1, h2, h3, h4, h5, h6, h7]⟩

/-- When `Repair::load` fails and when it reports a deleted record, for any record. -/
theorem repair_load_iff (c : Codec) (self : Repair) (esm : List SubRecord) :
    ((∃ e, self.load c esm = Except.error e) ↔
        (∃ sub ∈ esm, sub.name ∉ Repair.names) ∨ (∀ sub ∈ esm, sub.name ≠ "NAME")
          ∨ ((∀ sub ∈ esm, sub.name ≠ "RIDT") ∧ (∀ sub ∈ esm, sub.name ≠ "DELE"))
          ∨ (∃ sub ∈ esm, sub.name = "RIDT" ∧ ∀ d, c.getRIDT sub.data ≠ Except.ok d))
      ∧ (∀ out, self.load c esm = Except.ok out →
          (out.mIsDeleted = true ↔ ∃ sub ∈ esm, sub.name = "DELE")) := by
  by_cases hb : ∃ sub ∈ esm, sub.name = "RIDT" ∧ ∀ d, c.getRIDT sub.data ≠ Except.ok d
  · obtain ⟨e, he⟩ := repair_loadSubs_unreadable c esm { self with mIsDeleted := false } false
      false hb
    have hl : self.load c esm = Except.error e := by
      unfold Repair.load
      rw [he]
    rw [hl]
    refine ⟨⟨fun _ => Or.inr (Or.inr (Or.inr hb)), fun _ => ⟨e, rfl⟩⟩, ?_⟩
    intro out ho
    exact Except.noConfusion ho
  · have hd : ∀ sub ∈ esm, sub.name = "RIDT" → ∃ d, c.getRIDT sub.data = Except.ok d := by
      intro sub hs hn
      by_contra hne
      exact hb ⟨sub, hs, hn, fun d hd => hne ⟨d, hd⟩⟩
    have hspec := repair_load_spec c self esm hd
    refine ⟨⟨?_, ?_⟩, hspec.2⟩
    · intro hf
      rcases hspec.1.mp hf with h | h | h
      · exact Or.inl h
      · exact Or.inr (Or.inl h)
      · exact Or.inr (Or.inr (Or.inl h))
    · rintro (h | h | h | h)
      · exact hspec.1.mpr (Or.inl h)
      · exact hspec.1.mpr (Or.inr (Or.inl h))
      · exact hspec.1.mpr (Or.inr (Or.inr h))
      · exact absurd h hb

/-- C29, refuted as stated: a record made of a `NAME` subrecord and an `AADT` subrecord
whose payload does not have the size of the data (here it is empty) holds only names the
`switch` lists, holds a `NAME` and holds an `AADT`, yet `Apparatus::load` fails: the reader
refuses the payload.  The same holds of `Repair::load` with `RIDT`. -/
theorem item_load_failure_counterexample :
    (∃ e, sampleApparatus.load sampleCodec [⟨"NAME", [109, 0]⟩, ⟨"AADT", []⟩] = Except.error e)
      ∧ ¬ ((∃ sub ∈ ([⟨"NAME", [109, 0]⟩, ⟨"AADT", []⟩] : List SubRecord),
              sub.name ∉ ["NAME", "DELE", "MODL", "FNAM", "AADT", "SCRI", "ITEX"])
          ∨ (∀ sub ∈ ([⟨"NAME", [109, 0]⟩, ⟨"AADT", []⟩] : List SubRecord), sub.name ≠ "NAME")
          ∨ ((∀ sub ∈ ([⟨"NAME", [109, 0]⟩, ⟨"AADT", []⟩] : List SubRecord), sub.name ≠ "AADT")
            ∧ (∀ sub ∈ ([⟨"NAME", [109, 0]⟩, ⟨"AADT", []⟩] : List SubRecord), sub.name ≠ "DELE")))
      ∧ (∃ e, sampleRepair.load sampleCodec [⟨"NAME", [104, 0]⟩, ⟨"RIDT", []⟩] = Except.error e)
      ∧ ¬ ((∃ sub ∈ ([⟨"NAME", [104, 0]⟩, ⟨"RIDT", []⟩] : List SubRecord),
              sub.name ∉ ["NAME", "DELE", "MODL", "FNAM", "RIDT", "SCRI", "ITEX"])
          ∨ (∀ sub ∈ ([⟨"NAME", [104, 0]⟩, ⟨"RIDT", []⟩] : List SubRecord), sub.name ≠ "NAME")
          ∨ ((∀ sub ∈ ([⟨"NAME", [104, 0]⟩, ⟨"RIDT", []⟩] : List SubRecord), sub.name ≠ "RIDT")
            ∧ (∀ sub ∈ ([⟨"NAME", [104, 0]⟩, ⟨"RIDT", []⟩] : List SubRecord), sub.name ≠ "DELE"))) := by
  refine ⟨⟨"record size mismatch", ?_⟩, ?_, ⟨"record size mismatch", ?_⟩, ?_⟩
  · simp [Apparatus.load, Apparatus.loadSubs, sampleCodec, sampleGetAADT]
  · simp
  · simp [Repair.load, Repair.loadSubs, sampleCodec, sampleGetRIDT]
  · simp

/-- C29, amended: `Apparatus::load` fails exactly when the sequence of subrecords holds a
subrecord whose name is none of `NAME`, `DELE`, `MODL`, `FNAM`, `AADT`, `SCRI`, `ITEX`, or
holds no `NAME` subrecord, or holds neither an `AADT` nor a `DELE` subrecord, or holds an
`AADT` subrecord whose payload the reader cannot read; when it succeeds, `mIsDeleted` is
true exactly when a `DELE` subrecord was present; and a record written by
`Apparatus::save`, deleted or not, loads without failure provided the data payload `save`
writes can be read.  The same holds of `Repair::load` and `Repair::save` with `RIDT` in the
place of `AADT`. -/
theorem item_load_failure (c : Codec) (esm : List SubRecord) (app appSaved : Apparatus)
    (rep repSaved : Repair)
    (hsA : appSaved.mIsDeleted = false →
      ∃ d, c.getAADT (c.putAADT appSaved.mData) = Except.ok d)
    (hsR : repSaved.mIsDeleted = false →
      ∃ d, c.getRIDT (c.putRIDT repSaved.mData) = Except.ok d) :
    ((∃ e, app.load c esm = Except.error e) ↔
        (∃ sub ∈ esm, sub.name ∉ ["NAME", "DELE", "MODL", "FNAM", "AADT", "SCRI", "ITEX"])
          ∨ (∀ sub ∈ esm, sub.name ≠ "NAME")
          ∨ ((∀ sub ∈ esm, sub.name ≠ "AADT") ∧ (∀ sub ∈ esm, sub.name ≠ "DELE"))
          ∨ (∃ sub ∈ esm, sub.name = "AADT" ∧ ∀ d, c.getAADT sub.data ≠ Except.ok d))
      ∧ (∀ out, app.load c esm = Except.ok out →
          (out.mIsDeleted = true ↔ ∃ sub ∈ esm, sub.name = "DELE"))
      ∧ (∃ out, app.load c (appSaved.save c) = Except.ok out)
      ∧ ((∃ e, rep.load c esm = Except.error e) ↔
        (∃ sub ∈ esm, sub.name ∉ ["NAME", "DELE", "MODL", "FNAM", "RIDT", "SCRI", "ITEX"])
          ∨ (∀ sub ∈ esm, sub.name ≠ "NAME")
          ∨ ((∀ sub ∈ esm, sub.name ≠ "RIDT") ∧ (∀ sub ∈ esm, sub.name ≠ "DELE"))
          ∨ (∃ sub ∈ esm, sub.name = "RIDT" ∧ ∀ d, c.getRIDT sub.data ≠ Except.ok d))
      ∧ (∀ out, rep.load c esm = Except.ok out →
          (out.mIsDeleted = true ↔ ∃ sub ∈ esm, sub.name = "DELE"))
      ∧ (∃ out, rep.load c (repSaved.save c) = Except.ok out) :=
  ⟨(apparatus_load_iff c app esm).1, (apparatus_load_iff c app esm).2,
    apparatus_load_save c app appSaved hsA,
    (repair_load_iff c rep esm).1, (repair_load_iff c rep esm).2,
    repair_load_save c rep repSaved hsR⟩

/-- C29 at a concrete input: the records `sampleApparatus` and `sampleRepair` written by
their `save` load without failure, and loading a record with a subrecord `XXXX` fails. -/
theorem item_load_failure_witness :
    (∃ e, sampleApparatus.load sampleCodec [⟨"NAME", [109, 0]⟩, ⟨"XXXX", []⟩]
        = Except.error e)
      ∧ (∃ out, sampleApparatus.load sampleCodec (sampleApparatus.save sampleCodec)
        = Except.ok out)
      ∧ (∃ out, sampleRepair.load sampleCodec (sampleRepair.save sampleCodec)
        = Except.ok out) := by
  have h := item_load_failure sampleCodec [⟨"NAME", [109, 0]⟩, ⟨"XXXX", []⟩] sampleApparatus
    sampleApparatus sampleRepair sampleRepair (fun _ => ⟨_, rfl⟩) (fun _ => ⟨_, rfl⟩)
  exact ⟨h.1.mpr (Or.inl ⟨⟨"XXXX", []⟩, by simp, by decide⟩), h.2.2.1, h.2.2.2.2.2⟩

end ESM
